import Mathlib

/-!
# VirtualBox host audio backend (Mac OS X CoreAudio driver): stream engine

A shallow embedding of `src/VBox/Devices/Audio/DrvHostCoreAudio.cpp`.

Everything the driver calls but does not define (the CoreAudio HAL, the audio
unit and converter API, the IPRT ring buffer `RTCircBuf*`, the mixer buffer
`AudioMixBuf*`) is an external collaborator.  Each such call is answered by an
oracle and recorded, with its arguments and its answer, in a trace.  The oracle
sees the position of the call in the trace and the call itself, so it can
describe every deterministic behaviour of the host, of the concurrent realtime
thread that shares the ring buffer, and of the mixer.

Conventions
* `UInt32` values are `Nat` reduced `% 2 ^ 32` where the source computes them,
  `size_t` values are reduced `% 2 ^ 64`.
* `OSStatus` and IPRT status codes are `Int`.
* `Float64` sample rates are non-negative integral numbers of Hz (`Nat`), the
  `Float64` bounds of an `AudioValueRange` are `Int`.
* The release build is modelled (`DEBUG` undefined, `#if 0` blocks absent,
  logging dropped).
-/

namespace CoreAudio

/-! ## Constants -/

/-- `CA_STATUS_UNINIT`: the device is uninitialized. -/
abbrev CA_STATUS_UNINIT : Nat := 0
/-- `CA_STATUS_IN_INIT`: the device is currently initializing. -/
abbrev CA_STATUS_IN_INIT : Nat := 1
/-- `CA_STATUS_INIT`: the device is initialized. -/
abbrev CA_STATUS_INIT : Nat := 2
/-- `CA_STATUS_IN_UNINIT`: the device is currently uninitializing. -/
abbrev CA_STATUS_IN_UNINIT : Nat := 3
/-- `CA_STATUS_REINIT`: the device has to be reinitialized. -/
abbrev CA_STATUS_REINIT : Nat := 4

/-- Error code which indicates "End of data", the four characters `eofd`. -/
abbrev caConverterEOFDErr : Int := 0x656F6664

/-- Modelled from the spec: the CoreAudio constant `noErr` (MacTypes.h is not in src). -/
abbrev noErr : Int := 0
/-- Modelled from the spec: `kAudioHardwareNoError` (AudioHardwareBase.h is not in src). -/
abbrev kAudioHardwareNoError : Int := 0
/-- Modelled from the spec: `kAudioHardwareBadDeviceError`, the four characters `!dev`. -/
abbrev kAudioHardwareBadDeviceError : Int := 0x21646576
/-- Modelled from the spec: `kAudioHardwareBadObjectError`, the four characters `!obj`. -/
abbrev kAudioHardwareBadObjectError : Int := 0x216F626A
/-- Modelled from the spec: `notEnoughMemoryErr` (MacErrors.h is not in src). -/
abbrev notEnoughMemoryErr : Int := -620
/-- Modelled from the spec: `kAudioDeviceUnknown`, the "unknown" device handle. -/
abbrev kAudioDeviceUnknown : Nat := 0
/-- Modelled from the spec: `kAudioObjectSystemObject`. -/
abbrev kAudioObjectSystemObject : Nat := 1
/-- Modelled from the spec: `kAudioFormatLinearPCM`, the four characters `lpcm`. -/
abbrev kAudioFormatLinearPCM : Nat := 0x6C70636D
/-- Modelled from the spec: `kAudioFormatFlagIsSignedInteger`. -/
abbrev kAudioFormatFlagIsSignedInteger : Nat := 4
/-- Modelled from the spec: `kAudioFormatFlagIsPacked`. -/
abbrev kAudioFormatFlagIsPacked : Nat := 8

/-- Modelled from the spec: IPRT status `VINF_SUCCESS` (iprt/err.h is not in src). -/
abbrev VINF_SUCCESS : Int := 0
/-- Modelled from the spec: IPRT status `VERR_GENERAL_FAILURE`. -/
abbrev VERR_GENERAL_FAILURE : Int := -1
/-- Modelled from the spec: IPRT status `VERR_INVALID_PARAMETER`. -/
abbrev VERR_INVALID_PARAMETER : Int := -2
/-- Modelled from the spec: IPRT status `VERR_NOT_SUPPORTED`. -/
abbrev VERR_NOT_SUPPORTED : Int := -37
/-- Modelled from the spec: IPRT status `VERR_NOT_FOUND`. -/
abbrev VERR_NOT_FOUND : Int := -78
/-- Modelled from the spec: VBox status `VERR_AUDIO_BACKEND_INIT_FAILED` (VBox/err.h is not in src). -/
abbrev VERR_AUDIO_BACKEND_INIT_FAILED : Int := -6600

/-- Modelled from the spec: the IPRT macro `RT_SUCCESS` (a status is a success when it is not negative). -/
abbrev RT_SUCCESS (rc : Int) : Prop := 0 ≤ rc
/-- Modelled from the spec: the IPRT macro `RT_FAILURE`. -/
abbrev RT_FAILURE (rc : Int) : Prop := rc < 0

/-! ## Data model -/

/-- `AudioStreamBasicDescription` of CoreAudio, as far as the driver uses it. -/
structure AudioStreamBasicDescription where
  mSampleRate : Nat
  mFormatID : Nat
  mFormatFlags : Nat
  mBytesPerPacket : Nat
  mFramesPerPacket : Nat
  mBytesPerFrame : Nat
  mChannelsPerFrame : Nat
  mBitsPerChannel : Nat
  deriving DecidableEq, Repr, Inhabited

/-- `AudioValueRange`: one range of admissible frame buffer sizes. -/
structure AudioValueRange where
  mMinimum : Int
  mMaximum : Int
  deriving DecidableEq, Repr, Inhabited

/-- `PDMPCMPROPS`: the PCM properties requested by the mixer side. -/
structure PDMPCMPROPS where
  cBits : Nat
  fSigned : Bool
  cShift : Nat
  cChannels : Nat
  uHz : Nat
  deriving DecidableEq, Repr, Inhabited

/-- `PDMAUDIOMIXBUF`: of the mixer buffer only the sample/byte shift is data of the driver. -/
structure PDMAUDIOMIXBUF where
  cShift : Nat
  deriving DecidableEq, Repr, Inhabited

/-- `PDMAUDIOSTREAMCMD`: stream commands; `OTHER v` is any further value of the enumeration. -/
inductive PDMAUDIOSTREAMCMD where
  | ENABLE
  | DISABLE
  | PAUSE
  | RESUME
  | OTHER (v : Nat)
  deriving DecidableEq, Repr

/-- The ring buffer handle `PRTCIRCBUF`; it remembers the size it was created with. -/
structure RTCIRCBUF where
  cbBuf : Nat
  deriving DecidableEq, Repr, Inhabited

/-- `AudioBufferList` with its single buffer `mBuffers[0]`. -/
structure AudioBufferList where
  mNumberBuffers : Nat
  mNumberChannels : Nat
  mDataByteSize : Nat
  mData : Option Nat
  deriving DecidableEq, Repr, Inhabited

/-- The `Float64` ratio `streamFormat.mSampleRate / deviceFormat.mSampleRate`, kept as a fraction. -/
structure SampleRatio where
  num : Nat
  den : Nat
  deriving DecidableEq, Repr, Inhabited

/-- `COREAUDIOSTREAMOUT`. -/
structure COREAUDIOSTREAMOUT where
  Props : PDMPCMPROPS
  MixBuf : PDMAUDIOMIXBUF
  deviceFormat : AudioStreamBasicDescription
  streamFormat : AudioStreamBasicDescription
  deviceID : Nat
  audioUnit : Option Nat
  pBuf : Option RTCIRCBUF
  status : Nat
  fDefDevChgListReg : Bool
  fDevStateChgListReg : Bool
  deriving DecidableEq, Repr

/-- `COREAUDIOSTREAMIN`. -/
structure COREAUDIOSTREAMIN where
  Props : PDMPCMPROPS
  MixBuf : PDMAUDIOMIXBUF
  deviceFormat : AudioStreamBasicDescription
  streamFormat : AudioStreamBasicDescription
  deviceID : Nat
  audioUnit : Option Nat
  pConverter : Option Nat
  bufferList : AudioBufferList
  offBufferRead : Nat
  sampleRatio : SampleRatio
  pBuf : Option RTCIRCBUF
  status : Nat
  fDefDevChgListReg : Bool
  fDevStateChgListReg : Bool
  deriving DecidableEq, Repr

/-- `COREAUDIOSTREAMCBCTX`: the callback context of a stream, a direction tag `enmDir` and the
stream it points to (`pIn` or `pOut`). -/
inductive COREAUDIOSTREAMCBCTX where
  | pIn (s : COREAUDIOSTREAMIN)
  | pOut (s : COREAUDIOSTREAMOUT)
  deriving DecidableEq, Repr

/-- The status word of the stream behind a callback context. -/
def COREAUDIOSTREAMCBCTX.status : COREAUDIOSTREAMCBCTX → Nat
  | .pIn s => s.status
  | .pOut s => s.status

/-! ## External calls, their answers and the trace -/

/-- Property selectors for which the driver installs listeners. -/
inductive Selector where
  | NominalSampleRate
  | DefaultInputDevice
  | DefaultOutputDevice
  | DeviceIsAlive
  deriving DecidableEq, Repr

/-- The listener procedures of the driver. -/
inductive ListenerProc where
  | RecordingAudioDevicePropertyChanged
  | PlaybackAudioDevicePropertyChanged
  | DefaultDeviceChanged
  | DeviceStateChanged
  deriving DecidableEq, Repr

/-- The client pointer handed to a listener call: the stream itself or its member `cbCtx`. -/
inductive ClientData where
  | pStream
  | pCbCtx
  deriving DecidableEq, Repr

/-- One entry of the property listener registry of the host. -/
structure Listener where
  obj : Nat
  selector : Selector
  proc : ListenerProc
  client : ClientData
  deriving DecidableEq, Repr

/-- Audio unit properties the driver reads or writes. -/
inductive AUProperty where
  | EnableInOut
  | CurrentDevice
  | SetInputCallback
  | SetRenderCallback
  | StreamFormat
  | MaximumFramesPerSlice
  deriving DecidableEq, Repr

/-- Audio unit scopes. -/
inductive AUScope where
  | Global
  | Input
  | Output
  deriving DecidableEq, Repr

/-- Value written by `AudioUnitSetProperty`. -/
inductive AUValue where
  | u32 (v : Nat)
  | fmt (f : AudioStreamBasicDescription)
  | callback
  deriving DecidableEq, Repr

set_option maxHeartbeats 1000000 in
/-- Every call that leaves the driver, with the arguments that matter. -/
inductive Call where
  | GetDefaultDevice (fInput : Bool)
  | GetDeviceName (dev : Nat) (fInput : Option Bool)
  | GetDeviceUID (dev : Nat)
  | CFStringGetCString
  | CFStringGetMaximumSizeForEncoding
  | GetBufferFrameSize (dev : Nat) (fInput : Bool)
  | SetBufferFrameSize (dev : Nat) (fInput : Bool) (cReqSize : Nat)
  | GetBufferSizeRangeSize (dev : Nat) (fInput : Bool)
  | GetBufferSizeRange (dev : Nat) (fInput : Bool)
  | RTMemAlloc
  | RTStrAlloc
  | GetDeviceIsRunning (dev : Nat)
  | GetDeviceIsAlive (dev : Nat)
  | GetDevicesSize
  | GetDevices
  | GetStreamConfigurationSize (dev : Nat) (fInput : Bool)
  | GetStreamConfiguration (dev : Nat) (fInput : Bool)
  | AudioObjectAddPropertyListener (l : Listener)
  | AudioObjectRemovePropertyListener (l : Listener)
  | FindNextComponent
  | OpenAComponent
  | CloseComponent (au : Option Nat)
  | AudioUnitSetProperty (au : Option Nat) (prop : AUProperty) (scope : AUScope) (elem : Nat) (v : AUValue)
  | AudioUnitGetProperty (au : Option Nat) (prop : AUProperty) (scope : AUScope) (elem : Nat)
  /-- The call `AudioUnitInitialize`. -/
  | AudioUnitInit (au : Option Nat)
  /-- The call `AudioUnitUninitialize`. -/
  | AudioUnitUninit (au : Option Nat)
  | AudioUnitReset (au : Option Nat)
  | AudioUnitRender (au : Option Nat) (cFrames : Nat)
  | AudioOutputUnitStart (au : Option Nat)
  | AudioOutputUnitStop (au : Option Nat)
  | AudioConverterNew (src dst : AudioStreamBasicDescription)
  | AudioConverterSetChannelMap (conv : Option Nat)
  | AudioConverterReset (conv : Option Nat)
  | AudioConverterFillComplexBuffer (conv : Option Nat) (cPackets : Nat)
  | AudioConverterDispose (conv : Option Nat)
  | RTCircBufCreate (cb : Nat)
  | RTCircBufDestroy (pBuf : Option RTCIRCBUF)
  | RTCircBufReset (pBuf : Option RTCIRCBUF)
  | RTCircBufFree (pBuf : Option RTCIRCBUF)
  | RTCircBufUsed (pBuf : Option RTCIRCBUF)
  | RTCircBufAcquireReadBlock (pBuf : Option RTCIRCBUF) (cbReq : Nat)
  | RTCircBufReleaseReadBlock (pBuf : Option RTCIRCBUF) (cb : Nat)
  | RTCircBufAcquireWriteBlock (pBuf : Option RTCIRCBUF) (cbReq : Nat)
  | RTCircBufReleaseWriteBlock (pBuf : Option RTCIRCBUF) (cb : Nat)
  | AudioMixBufSizeBytes
  | AudioMixBufAvail
  | AudioMixBufWriteCirc (cb : Nat)
  | AudioMixBufReadCirc (cb : Nat)
  | AudioMixBufMixToParent (cSamples : Nat)
  | AudioMixBufFinish (cSamples : Nat)
  deriving DecidableEq, Repr

/-- The answer to a call: the returned status (or signed return value) and the values written
through the out parameters. -/
structure Resp where
  err : Int
  val : Nat
  fmt : AudioStreamBasicDescription
  ranges : List AudioValueRange
  list : List Nat
  deriving DecidableEq, Repr, Inhabited

/-- The `UInt32` written through an out parameter. -/
def Resp.u32 (r : Resp) : Nat := r.val % 2 ^ 32

/-- The `size_t` returned or written through an out parameter. -/
def Resp.size (r : Resp) : Nat := r.val % 2 ^ 64

/-- The world outside the driver: the oracle that answers calls and the trace so far. -/
structure Env where
  oracle : Nat → Call → Resp
  log : List (Call × Resp)

/-- The answer the next call `c` gets. -/
def Env.ask (e : Env) (c : Call) : Resp := e.oracle e.log.length c

/-- The world after the call `c` was made. -/
def Env.tell (e : Env) (c : Call) : Env := { e with log := e.log ++ [(c, e.ask c)] }

@[simp] theorem Env.tell_oracle (e : Env) (c : Call) : (e.tell c).oracle = e.oracle := rfl

@[simp] theorem Env.tell_log (e : Env) (c : Call) :
    (e.tell c).log = e.log ++ [(c, e.oracle e.log.length c)] := rfl

/-- Result of a driver entry point: IPRT status, the stream afterwards, the world afterwards. -/
structure Res (σ : Type) where
  rc : Int
  strm : σ
  env : Env

/-- Result of an init routine; `cSamples` is what was stored through `pcSamples`, if anything. -/
structure InitRes (σ : Type) where
  rc : Int
  cSamples : Option Nat
  strm : σ
  env : Env

/-! ## Helper function section -/

/-- `drvHostCoreAudioPCMInfoToASBDesc`. -/
def drvHostCoreAudioPCMInfoToASBDesc (p : PDMPCMPROPS) : AudioStreamBasicDescription :=
  let bytesPerFrame := (p.cChannels * (p.cBits / 8)) % 2 ^ 32
  { mFormatID := kAudioFormatLinearPCM
    mFormatFlags :=
      if p.fSigned then kAudioFormatFlagIsPacked ||| kAudioFormatFlagIsSignedInteger
      else kAudioFormatFlagIsPacked
    mFramesPerPacket := 1
    mSampleRate := p.uHz
    mChannelsPerFrame := p.cChannels
    mBitsPerChannel := p.cBits
    mBytesPerFrame := bytesPerFrame
    mBytesPerPacket := (1 * bytesPerFrame) % 2 ^ 32 }

/-- The scan over the reported ranges in `drvHostCoreAudioSetFrameBufferSize`: `cMin` is the
absolute minimum, `cMax` the best maximum which is not bigger than `cReqSize`; `-1` means unset. -/
def frameBufferRangeScan (cReqSize : Nat) (ranges : List AudioValueRange) : Int × Int :=
  ranges.foldl
    (fun acc r =>
      ( (if r.mMinimum < acc.1 ∨ acc.1 = -1 then r.mMinimum else acc.1),
        (if r.mMaximum < (cReqSize : Int) then (if r.mMaximum > acc.2 then r.mMaximum else acc.2)
         else acc.2) ))
    (-1, -1)

/-- The size `drvHostCoreAudioSetFrameBufferSize` asks for on its second attempt
(`if (cMax == -1) cMax = cMin; cReqSize = cMax;`).  The conversion of a negative or too large
`Float64` to `UInt32` is undefined in C; it is taken to be `toNat` reduced to 32 bits. -/
def frameBufferRetrySize (cReqSize : Nat) (ranges : List AudioValueRange) : Nat :=
  let m := frameBufferRangeScan cReqSize ranges
  (if m.2 = -1 then m.1 else m.2).toNat % 2 ^ 32

/-- `drvHostCoreAudioSetFrameBufferSize`: status, the size stored through `pcActSize`, world. -/
def drvHostCoreAudioSetFrameBufferSize (e : Env) (deviceID : Nat) (fInput : Bool) (cReqSize : Nat) :
    Int × Nat × Env :=
  let e1 := e.tell (.SetBufferFrameSize deviceID fInput cReqSize)
  let g := e1.ask (.GetBufferFrameSize deviceID fInput)
  let e2 := e1.tell (.GetBufferFrameSize deviceID fInput)
  if g.err ≠ noErr then (g.err, g.u32, e2)
  else if cReqSize = g.u32 then (noErr, g.u32, e2)
  else
    let z := e2.ask (.GetBufferSizeRangeSize deviceID fInput)
    let e3 := e2.tell (.GetBufferSizeRangeSize deviceID fInput)
    if z.err ≠ noErr then (z.err, g.u32, e3)
    else
      let a := e3.ask .RTMemAlloc
      let e4 := e3.tell .RTMemAlloc
      if a.val ≠ 0 then
        let r := e4.ask (.GetBufferSizeRange deviceID fInput)
        let e5 := e4.tell (.GetBufferSizeRange deviceID fInput)
        if r.err = noErr then
          let cReqSize2 := frameBufferRetrySize cReqSize r.ranges
          let st := e5.ask (.SetBufferFrameSize deviceID fInput cReqSize2)
          let e6 := e5.tell (.SetBufferFrameSize deviceID fInput cReqSize2)
          if st.err = noErr then
            let g2 := e6.ask (.GetBufferFrameSize deviceID fInput)
            (g2.err, g2.u32, e6.tell (.GetBufferFrameSize deviceID fInput))
          else (st.err, g.u32, e6)
        else (r.err, g.u32, e5)
      else (notEnoughMemoryErr, g.u32, e4)

/-- `drvHostCoreAudioIsRunning`: the flag is used whatever the status of the query is. -/
def drvHostCoreAudioIsRunning (e : Env) (deviceID : Nat) : Bool × Env :=
  (decide (1 ≤ (e.ask (.GetDeviceIsRunning deviceID)).u32), e.tell (.GetDeviceIsRunning deviceID))

/-- `drvHostCoreAudioCFStringToCString`: `VERR_NOT_FOUND` when `CFStringGetCString` returns false. -/
def drvHostCoreAudioCFStringToCString (e : Env) : Int × Env :=
  (if (e.ask .CFStringGetCString).val = 0 then VERR_NOT_FOUND else VINF_SUCCESS,
   e.tell .CFStringGetCString)

/-! ## Stream control -/

/-- `drvHostCoreAudioControlOut`. -/
def drvHostCoreAudioControlOut (s : COREAUDIOSTREAMOUT) (e : Env) (enmStreamCmd : PDMAUDIOSTREAMCMD) :
    Res COREAUDIOSTREAMOUT :=
  if ¬ (s.status = CA_STATUS_INIT ∨ s.status = CA_STATUS_REINIT) then ⟨VINF_SUCCESS, s, e⟩
  else
    match enmStreamCmd with
    | .ENABLE | .RESUME =>
      let run := drvHostCoreAudioIsRunning e s.deviceID
      if run.1 = false then
        let e1 := run.2.tell (.AudioUnitReset s.audioUnit)
        let e2 := e1.tell (.RTCircBufReset s.pBuf)
        let st := e2.ask (.AudioOutputUnitStart s.audioUnit)
        let e3 := e2.tell (.AudioOutputUnitStart s.audioUnit)
        if st.err ≠ noErr then ⟨VERR_GENERAL_FAILURE, s, e3⟩ else ⟨VINF_SUCCESS, s, e3⟩
      else ⟨VINF_SUCCESS, s, run.2⟩
    | .DISABLE | .PAUSE =>
      let run := drvHostCoreAudioIsRunning e s.deviceID
      if run.1 = true then
        let sp := run.2.ask (.AudioOutputUnitStop s.audioUnit)
        let e1 := run.2.tell (.AudioOutputUnitStop s.audioUnit)
        if sp.err ≠ noErr then ⟨VERR_GENERAL_FAILURE, s, e1⟩
        else
          let rs := e1.ask (.AudioUnitReset s.audioUnit)
          let e2 := e1.tell (.AudioUnitReset s.audioUnit)
          if rs.err ≠ noErr then ⟨VERR_GENERAL_FAILURE, s, e2⟩ else ⟨VINF_SUCCESS, s, e2⟩
      else ⟨VINF_SUCCESS, s, run.2⟩
    | .OTHER _ => ⟨VERR_NOT_SUPPORTED, s, e⟩

/-- `drvHostCoreAudioControlIn`. -/
def drvHostCoreAudioControlIn (s : COREAUDIOSTREAMIN) (e : Env) (enmStreamCmd : PDMAUDIOSTREAMCMD) :
    Res COREAUDIOSTREAMIN :=
  if ¬ (s.status = CA_STATUS_INIT ∨ s.status = CA_STATUS_REINIT) then ⟨VINF_SUCCESS, s, e⟩
  else
    match enmStreamCmd with
    | .ENABLE | .RESUME =>
      let run := drvHostCoreAudioIsRunning e s.deviceID
      if run.1 = false then
        let e1 := run.2.tell (.RTCircBufReset s.pBuf)
        let st := e1.ask (.AudioOutputUnitStart s.audioUnit)
        let e2 := e1.tell (.AudioOutputUnitStart s.audioUnit)
        if st.err ≠ noErr then ⟨VERR_GENERAL_FAILURE, s, e2⟩ else ⟨VINF_SUCCESS, s, e2⟩
      else ⟨VINF_SUCCESS, s, run.2⟩
    | .DISABLE | .PAUSE =>
      let run := drvHostCoreAudioIsRunning e s.deviceID
      if run.1 = true then
        let sp := run.2.ask (.AudioOutputUnitStop s.audioUnit)
        let e1 := run.2.tell (.AudioOutputUnitStop s.audioUnit)
        if sp.err ≠ noErr then ⟨VERR_GENERAL_FAILURE, s, e1⟩
        else
          let rs := e1.ask (.AudioUnitReset s.audioUnit)
          let e2 := e1.tell (.AudioUnitReset s.audioUnit)
          if rs.err ≠ noErr then ⟨VERR_GENERAL_FAILURE, s, e2⟩ else ⟨VINF_SUCCESS, s, e2⟩
      else ⟨VINF_SUCCESS, s, run.2⟩
    | .OTHER _ => ⟨VERR_NOT_SUPPORTED, s, e⟩

/-! ## Stream teardown -/

/-- The teardown of `drvHostCoreAudioFiniIn` that follows a successful `control(Disable)`. -/
def finiInTeardown (s : COREAUDIOSTREAMIN) (e : Env) : COREAUDIOSTREAMIN × Env :=
  let s0 := { s with status := CA_STATUS_IN_UNINIT }
  let e1 := e.tell (.AudioObjectRemovePropertyListener
    ⟨s0.deviceID, .NominalSampleRate, .RecordingAudioDevicePropertyChanged, .pStream⟩)
  let e2 := if s0.fDefDevChgListReg = true then
      e1.tell (.AudioObjectRemovePropertyListener
        ⟨kAudioObjectSystemObject, .DefaultInputDevice, .DefaultDeviceChanged, .pStream⟩)
    else e1
  let s1 := if s0.fDefDevChgListReg = true then { s0 with fDefDevChgListReg := false } else s0
  let e3 := if s1.fDevStateChgListReg = true then
      e2.tell (.AudioObjectRemovePropertyListener
        ⟨s1.deviceID, .DeviceIsAlive, .DeviceStateChanged, .pCbCtx⟩)
    else e2
  let s2 := if s1.fDevStateChgListReg = true then { s1 with fDevStateChgListReg := false } else s1
  let e4 := if s2.pConverter.isSome then e3.tell (.AudioConverterDispose s2.pConverter) else e3
  let s3 := if s2.pConverter.isSome then { s2 with pConverter := none } else s2
  let un := e4.ask (.AudioUnitUninit s3.audioUnit)
  let e5 := e4.tell (.AudioUnitUninit s3.audioUnit)
  let e6 := if un.err = noErr then e5.tell (.CloseComponent s3.audioUnit) else e5
  let s4 := { s3 with deviceID := kAudioDeviceUnknown, audioUnit := none, offBufferRead := 0,
                      sampleRatio := ⟨1, 1⟩ }
  let e7 := if s4.pBuf.isSome then e6.tell (.RTCircBufDestroy s4.pBuf) else e6
  let s5 := if s4.pBuf.isSome then { s4 with pBuf := none } else s4
  ({ s5 with status := CA_STATUS_UNINIT }, e7)

/-- `drvHostCoreAudioFiniIn`. -/
def drvHostCoreAudioFiniIn (s : COREAUDIOSTREAMIN) (e : Env) : Res COREAUDIOSTREAMIN :=
  if ¬ (s.status = CA_STATUS_INIT ∨ s.status = CA_STATUS_REINIT) then ⟨VINF_SUCCESS, s, e⟩
  else
    let c := drvHostCoreAudioControlIn s e .DISABLE
    if RT_SUCCESS c.rc then
      let t := finiInTeardown c.strm c.env
      ⟨c.rc, t.1, t.2⟩
    else ⟨VERR_GENERAL_FAILURE, c.strm, c.env⟩

/-- The teardown of `drvHostCoreAudioFiniOut` that follows a successful `control(Disable)`. -/
def finiOutTeardown (s : COREAUDIOSTREAMOUT) (e : Env) : COREAUDIOSTREAMOUT × Env :=
  let s0 := { s with status := CA_STATUS_IN_UNINIT }
  let e1 := e.tell (.AudioObjectRemovePropertyListener
    ⟨s0.deviceID, .NominalSampleRate, .PlaybackAudioDevicePropertyChanged, .pStream⟩)
  let e2 := if s0.fDefDevChgListReg = true then
      e1.tell (.AudioObjectRemovePropertyListener
        ⟨kAudioObjectSystemObject, .DefaultOutputDevice, .DefaultDeviceChanged, .pStream⟩)
    else e1
  let s1 := if s0.fDefDevChgListReg = true then { s0 with fDefDevChgListReg := false } else s0
  let e3 := if s1.fDevStateChgListReg = true then
      e2.tell (.AudioObjectRemovePropertyListener
        ⟨s1.deviceID, .DeviceIsAlive, .DeviceStateChanged, .pCbCtx⟩)
    else e2
  let s2 := if s1.fDevStateChgListReg = true then { s1 with fDevStateChgListReg := false } else s1
  let un := e3.ask (.AudioUnitUninit s2.audioUnit)
  let e4 := e3.tell (.AudioUnitUninit s2.audioUnit)
  let e5 := if un.err = noErr then e4.tell (.CloseComponent s2.audioUnit) else e4
  let s3 := { s2 with deviceID := kAudioDeviceUnknown, audioUnit := none }
  let e6 := if s3.pBuf.isSome then e5.tell (.RTCircBufDestroy s3.pBuf) else e5
  let s4 := if s3.pBuf.isSome then { s3 with pBuf := none } else s3
  ({ s4 with status := CA_STATUS_UNINIT }, e6)

/-- `drvHostCoreAudioFiniOut`. -/
def drvHostCoreAudioFiniOut (s : COREAUDIOSTREAMOUT) (e : Env) : Res COREAUDIOSTREAMOUT :=
  if ¬ (s.status = CA_STATUS_INIT ∨ s.status = CA_STATUS_REINIT) then ⟨VINF_SUCCESS, s, e⟩
  else
    let c := drvHostCoreAudioControlOut s e .DISABLE
    if RT_SUCCESS c.rc then
      let t := finiOutTeardown c.strm c.env
      ⟨c.rc, t.1, t.2⟩
    else ⟨c.rc, c.strm, c.env⟩

/-! ## Stream initialisation -/

/-- What the `do { ... } while (0)` block of an init routine leaves behind: `rc`, the local
`cSamples`, the stream and the world. -/
structure InitBody (σ : Type) where
  rc : Int
  cSamples : Nat
  strm : σ
  env : Env

/-- The block of both init routines that fetches the name and the UID of the device for the
log; none of its failures is fatal. -/
def initLogDeviceName (e : Env) (deviceID : Nat) : Env :=
  let e1 := e.tell (.GetDeviceName deviceID none)
  if (e.ask (.GetDeviceName deviceID none)).err = noErr then
    let c := drvHostCoreAudioCFStringToCString e1
    if c.1 = noErr then
      let e2 := c.2.tell (.GetDeviceUID deviceID)
      if (c.2.ask (.GetDeviceUID deviceID)).err = noErr then
        (drvHostCoreAudioCFStringToCString e2).2
      else e2
    else c.2
  else e1

/-- The sample count of `drvHostCoreAudioInitInput`,
`RT_MAX(cFrames, (cFrames * deviceFormat.mBytesPerFrame * sampleRatio) / streamFormat.mBytesPerFrame)
 * streamFormat.mChannelsPerFrame`, stored in a `UInt32`.
The product `cFrames * mBytesPerFrame` is a `UInt32` product; the rest is `Float64` arithmetic,
taken here as exact arithmetic followed by truncation.  A division by zero gives a value that is
not finite, whose conversion to `UInt32` is undefined in C; it is taken to be 0, which is what the
conversion yields on x86-64. -/
def initInputSampleCount (cFrames devBytesPerFrame strBytesPerFrame cChannels : Nat)
    (ratio : SampleRatio) : Nat :=
  if ratio.den * strBytesPerFrame = 0 then 0
  else
    (max (cFrames * cChannels)
      ((((cFrames * devBytesPerFrame) % 2 ^ 32) * ratio.num * cChannels)
        / (ratio.den * strBytesPerFrame))) % 2 ^ 32

/-- Last part of the block of `drvHostCoreAudioInitInput`: frame size of the unit, initialisation
of the unit, sizing and creation of the ring buffer, sample rate listener. -/
def initInputFinish (s : COREAUDIOSTREAMIN) (e : Env) (cFrames : Nat) : InitBody COREAUDIOSTREAMIN :=
  let c1 := Call.AudioUnitSetProperty s.audioUnit .MaximumFramesPerSlice .Global 1 (.u32 cFrames)
  let e1 := e.tell c1
  if (e.ask c1).err ≠ noErr then ⟨VERR_AUDIO_BACKEND_INIT_FAILED, 0, s, e1⟩
  else
    let c2 := Call.AudioUnitInit s.audioUnit
    let e2 := e1.tell c2
    if (e1.ask c2).err ≠ noErr then ⟨VERR_AUDIO_BACKEND_INIT_FAILED, 0, s, e2⟩
    else
      let c3 := Call.AudioUnitGetProperty s.audioUnit .StreamFormat .Output 1
      let e3 := e2.tell c3
      if (e2.ask c3).err ≠ noErr then ⟨VERR_AUDIO_BACKEND_INIT_FAILED, 0, s, e3⟩
      else
        let s1 := { s with deviceFormat := (e2.ask c3).fmt }
        let c4 := Call.AudioUnitGetProperty s1.audioUnit .MaximumFramesPerSlice .Global 0
        let e4 := e3.tell c4
        if (e3.ask c4).err ≠ noErr then ⟨VERR_AUDIO_BACKEND_INIT_FAILED, 0, s1, e4⟩
        else
          let cFrames2 := (e3.ask c4).u32
          let e5 := if s1.pBuf.isSome then e4.tell (.RTCircBufDestroy s1.pBuf) else e4
          let s2 := if s1.pBuf.isSome then { s1 with pBuf := none } else s1
          let s3 := { s2 with
            sampleRatio := ⟨s2.streamFormat.mSampleRate, s2.deviceFormat.mSampleRate⟩
            bufferList := { mNumberBuffers := 1
                            mNumberChannels := s2.streamFormat.mChannelsPerFrame
                            mDataByteSize := 0
                            mData := none } }
          let cSamples := initInputSampleCount cFrames2 s3.deviceFormat.mBytesPerFrame
            s3.streamFormat.mBytesPerFrame s3.streamFormat.mChannelsPerFrame s3.sampleRatio
          if cSamples = 0 then ⟨VERR_AUDIO_BACKEND_INIT_FAILED, cSamples, s3, e5⟩
          else
            let cb := (cSamples * 2 ^ s3.Props.cShift) % 2 ^ 32
            let cr := e5.ask (.RTCircBufCreate cb)
            let e6 := e5.tell (.RTCircBufCreate cb)
            if RT_SUCCESS cr.err then
              ⟨cr.err, cSamples, { s3 with pBuf := some ⟨cb⟩ },
                e6.tell (.AudioObjectAddPropertyListener
                  ⟨s3.deviceID, .NominalSampleRate, .RecordingAudioDevicePropertyChanged, .pStream⟩)⟩
            else ⟨cr.err, cSamples, s3, e6⟩

/-- Format negotiation of `drvHostCoreAudioInitInput`: a converter is created when the sample
rate or the channel count of the device differs from the requested one. -/
def initInputFormat (s : COREAUDIOSTREAMIN) (e : Env) (cFrames : Nat) : InitBody COREAUDIOSTREAMIN :=
  let s1 := { s with streamFormat := drvHostCoreAudioPCMInfoToASBDesc s.Props }
  if s1.deviceFormat.mSampleRate ≠ s1.streamFormat.mSampleRate
      ∨ s1.deviceFormat.mChannelsPerFrame ≠ s1.streamFormat.mChannelsPerFrame then
    let c1 := Call.AudioConverterNew s1.deviceFormat s1.streamFormat
    let e1 := e.tell c1
    if (e.ask c1).err ≠ noErr then ⟨VERR_AUDIO_BACKEND_INIT_FAILED, 0, s1, e1⟩
    else
      let s2 := { s1 with pConverter := some (e.ask c1).val }
      let fMap : Bool := decide (s2.deviceFormat.mChannelsPerFrame = 1
                                  ∧ s2.streamFormat.mChannelsPerFrame = 2)
      let c2 := Call.AudioConverterSetChannelMap s2.pConverter
      let e2 := if fMap = true then e1.tell c2 else e1
      if fMap = true ∧ (e1.ask c2).err ≠ noErr then ⟨VERR_AUDIO_BACKEND_INIT_FAILED, 0, s2, e2⟩
      else
        let c3 := Call.AudioUnitSetProperty s2.audioUnit .StreamFormat .Output 1 (.fmt s2.deviceFormat)
        let e3 := e2.tell c3
        if (e2.ask c3).err ≠ noErr then ⟨VERR_AUDIO_BACKEND_INIT_FAILED, 0, s2, e3⟩
        else
          let c4 := Call.AudioUnitSetProperty s2.audioUnit .StreamFormat .Input 1 (.fmt s2.deviceFormat)
          let e4 := e3.tell c4
          if (e3.ask c4).err ≠ noErr then ⟨VERR_AUDIO_BACKEND_INIT_FAILED, 0, s2, e4⟩
          else initInputFinish s2 e4 cFrames
  else
    let c1 := Call.AudioUnitSetProperty s1.audioUnit .StreamFormat .Output 1 (.fmt s1.streamFormat)
    let e1 := e.tell c1
    if (e.ask c1).err ≠ noErr then ⟨VERR_AUDIO_BACKEND_INIT_FAILED, 0, s1, e1⟩
    else initInputFinish s1 e1 cFrames

/-- Configuration of the freshly opened audio unit in `drvHostCoreAudioInitInput`. -/
def initInputUnit (s : COREAUDIOSTREAMIN) (e : Env) (cFrames : Nat) : InitBody COREAUDIOSTREAMIN :=
  let c1 := Call.AudioUnitSetProperty s.audioUnit .EnableInOut .Input 1 (.u32 1)
  let e1 := e.tell c1
  if (e.ask c1).err ≠ noErr then ⟨VERR_AUDIO_BACKEND_INIT_FAILED, 0, s, e1⟩
  else
    let c2 := Call.AudioUnitSetProperty s.audioUnit .EnableInOut .Output 0 (.u32 0)
    let e2 := e1.tell c2
    if (e1.ask c2).err ≠ noErr then ⟨VERR_AUDIO_BACKEND_INIT_FAILED, 0, s, e2⟩
    else
      let c3 := Call.AudioUnitSetProperty s.audioUnit .CurrentDevice .Global 0 (.u32 s.deviceID)
      let e3 := e2.tell c3
      if (e2.ask c3).err ≠ noErr then ⟨VERR_AUDIO_BACKEND_INIT_FAILED, 0, s, e3⟩
      else
        let c4 := Call.AudioUnitSetProperty s.audioUnit .SetInputCallback .Global 0 .callback
        let e4 := e3.tell c4
        if (e3.ask c4).err ≠ noErr then ⟨VERR_AUDIO_BACKEND_INIT_FAILED, 0, s, e4⟩
        else
          let c5 := Call.AudioUnitGetProperty s.audioUnit .StreamFormat .Input 1
          let e5 := e4.tell c5
          if (e4.ask c5).err ≠ noErr then ⟨VERR_AUDIO_BACKEND_INIT_FAILED, 0, s, e5⟩
          else initInputFormat { s with deviceFormat := (e4.ask c5).fmt } e5 cFrames

/-- The `do { ... } while (0)` block of `drvHostCoreAudioInitInput` for the resolved device. -/
def initInputBody (s : COREAUDIOSTREAMIN) (e : Env) (deviceID : Nat) : InitBody COREAUDIOSTREAMIN :=
  let s0 := { s with status := CA_STATUS_IN_INIT, deviceID := deviceID }
  let e0 := initLogDeviceName e s0.deviceID
  let c1 := Call.GetBufferFrameSize s0.deviceID true
  let e1 := e0.tell c1
  if (e0.ask c1).err ≠ noErr then ⟨VERR_AUDIO_BACKEND_INIT_FAILED, 0, s0, e1⟩
  else
    let f := drvHostCoreAudioSetFrameBufferSize e1 s0.deviceID true (e0.ask c1).u32
    if f.1 ≠ noErr then ⟨VERR_AUDIO_BACKEND_INIT_FAILED, 0, s0, f.2.2⟩
    else
      let e2 := f.2.2.tell .FindNextComponent
      if (f.2.2.ask .FindNextComponent).val = 0 then ⟨VERR_AUDIO_BACKEND_INIT_FAILED, 0, s0, e2⟩
      else
        let e3 := e2.tell .OpenAComponent
        if (e2.ask .OpenAComponent).err ≠ noErr then ⟨VERR_AUDIO_BACKEND_INIT_FAILED, 0, s0, e3⟩
        else initInputUnit { s0 with audioUnit := some (e2.ask .OpenAComponent).val } e3 f.2.1

/-- What `drvHostCoreAudioInitInput` does after the block: publish `CA_STATUS_INIT` and the sample
count on success, otherwise uninitialise the unit, drop the ring buffer and fall back to
`CA_STATUS_UNINIT`. -/
def initInputEpilogue (b : InitBody COREAUDIOSTREAMIN) : InitRes COREAUDIOSTREAMIN :=
  if RT_SUCCESS b.rc then
    ⟨b.rc, some b.cSamples, { b.strm with status := CA_STATUS_INIT }, b.env⟩
  else
    let e1 := b.env.tell (.AudioUnitUninit b.strm.audioUnit)
    let e2 := if b.strm.pBuf.isSome then e1.tell (.RTCircBufDestroy b.strm.pBuf) else e1
    let s1 := if b.strm.pBuf.isSome then { b.strm with pBuf := none } else b.strm
    ⟨b.rc, none, { s1 with status := CA_STATUS_UNINIT }, e2⟩

/-- `drvHostCoreAudioInitInput` once the local `deviceID` is settled. -/
def initInputWithDevice (s : COREAUDIOSTREAMIN) (e : Env) (deviceID : Nat) :
    InitRes COREAUDIOSTREAMIN :=
  if deviceID = kAudioDeviceUnknown then ⟨VERR_NOT_FOUND, none, s, e⟩
  else initInputEpilogue (initInputBody s e deviceID)

/-- `drvHostCoreAudioInitInput`. -/
def drvHostCoreAudioInitInput (s : COREAUDIOSTREAMIN) (e : Env) : InitRes COREAUDIOSTREAMIN :=
  if s.deviceID = kAudioDeviceUnknown then
    let q := e.ask (.GetDefaultDevice true)
    let e1 := e.tell (.GetDefaultDevice true)
    if q.err ≠ noErr then ⟨VERR_NOT_FOUND, none, s, e1⟩
    else initInputWithDevice s e1 q.u32
  else initInputWithDevice s e s.deviceID

/-- Last part of the block of `drvHostCoreAudioInitOutput`: initialisation of the unit, sizing
and creation of the ring buffer, sample rate listener. -/
def initOutputFinish (s : COREAUDIOSTREAMOUT) (e : Env) (cFrames : Nat) :
    InitBody COREAUDIOSTREAMOUT :=
  let c1 := Call.AudioUnitSetProperty s.audioUnit .MaximumFramesPerSlice .Global 0 (.u32 cFrames)
  let e1 := e.tell c1
  if (e.ask c1).err ≠ noErr then ⟨VERR_AUDIO_BACKEND_INIT_FAILED, 0, s, e1⟩
  else
    let c2 := Call.AudioUnitInit s.audioUnit
    let e2 := e1.tell c2
    if (e1.ask c2).err ≠ noErr then ⟨VERR_AUDIO_BACKEND_INIT_FAILED, 0, s, e2⟩
    else
      let c3 := Call.AudioUnitGetProperty s.audioUnit .MaximumFramesPerSlice .Global 0
      let e3 := e2.tell c3
      if (e2.ask c3).err ≠ noErr then
        ⟨VERR_AUDIO_BACKEND_INIT_FAILED, 0, s, e3.tell (.AudioUnitUninit s.audioUnit)⟩
      else
        let cFrames2 := (e2.ask c3).u32
        let cSamples := (cFrames2 * s.streamFormat.mChannelsPerFrame) % 2 ^ 32
        if cSamples = 0 then ⟨VERR_INVALID_PARAMETER, cSamples, s, e3⟩
        else
          let e4 := if s.pBuf.isSome then e3.tell (.RTCircBufDestroy s.pBuf) else e3
          let s1 := if s.pBuf.isSome then { s with pBuf := none } else s
          let cb := (cSamples * 2 ^ s1.Props.cShift) % 2 ^ 32
          let cr := e4.ask (.RTCircBufCreate cb)
          let e5 := e4.tell (.RTCircBufCreate cb)
          if RT_SUCCESS cr.err then
            ⟨cr.err, cSamples, { s1 with pBuf := some ⟨cb⟩ },
              e5.tell (.AudioObjectAddPropertyListener
                ⟨s1.deviceID, .NominalSampleRate, .PlaybackAudioDevicePropertyChanged, .pStream⟩)⟩
          else ⟨cr.err, cSamples, s1, e5⟩

/-- Configuration of the freshly opened audio unit in `drvHostCoreAudioInitOutput`; the requested
format is set on the unit, no converter is involved. -/
def initOutputUnit (s : COREAUDIOSTREAMOUT) (e : Env) (cFrames : Nat) : InitBody COREAUDIOSTREAMOUT :=
  let c1 := Call.AudioUnitSetProperty s.audioUnit .EnableInOut .Output 0 (.u32 1)
  let e1 := e.tell c1
  if (e.ask c1).err ≠ noErr then ⟨VERR_AUDIO_BACKEND_INIT_FAILED, 0, s, e1⟩
  else
    let c2 := Call.AudioUnitSetProperty s.audioUnit .CurrentDevice .Global 0 (.u32 s.deviceID)
    let e2 := e1.tell c2
    if (e1.ask c2).err ≠ noErr then ⟨VERR_AUDIO_BACKEND_INIT_FAILED, 0, s, e2⟩
    else
      let c3 := Call.AudioUnitSetProperty s.audioUnit .SetRenderCallback .Input 0 .callback
      let e3 := e2.tell c3
      if (e2.ask c3).err ≠ noErr then ⟨VERR_AUDIO_BACKEND_INIT_FAILED, 0, s, e3⟩
      else
        let c4 := Call.AudioUnitGetProperty s.audioUnit .StreamFormat .Input 0
        let e4 := e3.tell c4
        if (e3.ask c4).err ≠ noErr then ⟨VERR_AUDIO_BACKEND_INIT_FAILED, 0, s, e4⟩
        else
          let s1 := { s with deviceFormat := (e3.ask c4).fmt }
          let s2 := { s1 with streamFormat := drvHostCoreAudioPCMInfoToASBDesc s1.Props }
          let c5 := Call.AudioUnitSetProperty s2.audioUnit .StreamFormat .Input 0 (.fmt s2.streamFormat)
          let e5 := e4.tell c5
          if (e4.ask c5).err ≠ noErr then ⟨VERR_AUDIO_BACKEND_INIT_FAILED, 0, s2, e5⟩
          else
            let c6 := Call.AudioUnitGetProperty s2.audioUnit .StreamFormat .Input 0
            let e6 := e5.tell c6
            if (e5.ask c6).err ≠ noErr then ⟨VERR_AUDIO_BACKEND_INIT_FAILED, 0, s2, e6⟩
            else initOutputFinish { s2 with deviceFormat := (e5.ask c6).fmt } e6 cFrames

/-- The `do { ... } while (0)` block of `drvHostCoreAudioInitOutput` for the resolved device.
The frame buffer size is read in the input scope here too, as in the source. -/
def initOutputBody (s : COREAUDIOSTREAMOUT) (e : Env) (deviceID : Nat) : InitBody COREAUDIOSTREAMOUT :=
  let s0 := { s with status := CA_STATUS_IN_INIT, deviceID := deviceID }
  let e0 := initLogDeviceName e s0.deviceID
  let c1 := Call.GetBufferFrameSize s0.deviceID true
  let e1 := e0.tell c1
  if (e0.ask c1).err ≠ noErr then ⟨VERR_AUDIO_BACKEND_INIT_FAILED, 0, s0, e1⟩
  else
    let f := drvHostCoreAudioSetFrameBufferSize e1 s0.deviceID false (e0.ask c1).u32
    if f.1 ≠ noErr then ⟨VERR_AUDIO_BACKEND_INIT_FAILED, 0, s0, f.2.2⟩
    else
      let e2 := f.2.2.tell .FindNextComponent
      if (f.2.2.ask .FindNextComponent).val = 0 then ⟨VERR_AUDIO_BACKEND_INIT_FAILED, 0, s0, e2⟩
      else
        let e3 := e2.tell .OpenAComponent
        if (e2.ask .OpenAComponent).err ≠ noErr then ⟨VERR_AUDIO_BACKEND_INIT_FAILED, 0, s0, e3⟩
        else initOutputUnit { s0 with audioUnit := some (e2.ask .OpenAComponent).val } e3 f.2.1

/-- What `drvHostCoreAudioInitOutput` does after the block. -/
def initOutputEpilogue (b : InitBody COREAUDIOSTREAMOUT) : InitRes COREAUDIOSTREAMOUT :=
  if RT_SUCCESS b.rc then
    ⟨b.rc, some b.cSamples, { b.strm with status := CA_STATUS_INIT }, b.env⟩
  else
    let e1 := b.env.tell (.AudioUnitUninit b.strm.audioUnit)
    let e2 := if b.strm.pBuf.isSome then e1.tell (.RTCircBufDestroy b.strm.pBuf) else e1
    let s1 := if b.strm.pBuf.isSome then { b.strm with pBuf := none } else b.strm
    ⟨b.rc, none, { s1 with status := CA_STATUS_UNINIT }, e2⟩

/-- `drvHostCoreAudioInitOutput` once the local `deviceID` is settled. -/
def initOutputWithDevice (s : COREAUDIOSTREAMOUT) (e : Env) (deviceID : Nat) :
    InitRes COREAUDIOSTREAMOUT :=
  if deviceID = kAudioDeviceUnknown then ⟨VERR_NOT_FOUND, none, s, e⟩
  else initOutputEpilogue (initOutputBody s e deviceID)

/-- `drvHostCoreAudioInitOutput`. -/
def drvHostCoreAudioInitOutput (s : COREAUDIOSTREAMOUT) (e : Env) : InitRes COREAUDIOSTREAMOUT :=
  if s.deviceID = kAudioDeviceUnknown then
    let q := e.ask (.GetDefaultDevice false)
    let e1 := e.tell (.GetDefaultDevice false)
    if q.err ≠ noErr then ⟨VERR_NOT_FOUND, none, s, e1⟩
    else initOutputWithDevice s e1 q.u32
  else initOutputWithDevice s e s.deviceID

/-! ## Opening a stream -/

/-- `drvHostCoreAudioInitIn`.  `rcCfg` and `props` are what `DrvAudioStreamCfgToProps` (not part
of this file) returns for the configuration `pCfg`. -/
def drvHostCoreAudioInitIn (s : COREAUDIOSTREAMIN) (e : Env) (rcCfg : Int) (props : PDMPCMPROPS) :
    InitRes COREAUDIOSTREAMIN :=
  let s0 := { s with
    deviceID := kAudioDeviceUnknown
    audioUnit := none
    pConverter := none
    bufferList := { s.bufferList with mNumberBuffers := 0 }
    offBufferRead := 0
    sampleRatio := ⟨1, 1⟩
    pBuf := none
    status := CA_STATUS_UNINIT
    fDefDevChgListReg := false
    fDevStateChgListReg := false }
  let r : InitRes COREAUDIOSTREAMIN :=
    if RT_SUCCESS rcCfg then drvHostCoreAudioInitInput { s0 with Props := props } e
    else ⟨rcCfg, none, s0, e⟩
  let l1 : Listener := ⟨kAudioObjectSystemObject, .DefaultInputDevice, .DefaultDeviceChanged, .pCbCtx⟩
  let e1 := r.env.tell (.AudioObjectAddPropertyListener l1)
  let s1 := if (r.env.ask (.AudioObjectAddPropertyListener l1)).err = noErr then
      { r.strm with fDefDevChgListReg := true } else r.strm
  if s1.fDevStateChgListReg = false ∧ s1.deviceID ≠ kAudioDeviceUnknown then
    let l2 : Listener := ⟨s1.deviceID, .DeviceIsAlive, .DeviceStateChanged, .pCbCtx⟩
    let e2 := e1.tell (.AudioObjectAddPropertyListener l2)
    let s2 := if (e1.ask (.AudioObjectAddPropertyListener l2)).err = noErr then
        { s1 with fDevStateChgListReg := true } else s1
    ⟨r.rc, r.cSamples, s2, e2⟩
  else ⟨r.rc, r.cSamples, s1, e1⟩

/-- `drvHostCoreAudioInitOut`.  `rcCfg` and `props` are what `DrvAudioStreamCfgToProps` (not part
of this file) returns for the configuration `pCfg`. -/
def drvHostCoreAudioInitOut (s : COREAUDIOSTREAMOUT) (e : Env) (rcCfg : Int) (props : PDMPCMPROPS) :
    InitRes COREAUDIOSTREAMOUT :=
  let s0 := { s with
    deviceID := kAudioDeviceUnknown
    audioUnit := none
    pBuf := none
    status := CA_STATUS_UNINIT
    fDefDevChgListReg := false
    fDevStateChgListReg := false }
  let r : InitRes COREAUDIOSTREAMOUT :=
    if RT_SUCCESS rcCfg then drvHostCoreAudioInitOutput { s0 with Props := props } e
    else ⟨rcCfg, none, s0, e⟩
  let l1 : Listener := ⟨kAudioObjectSystemObject, .DefaultOutputDevice, .DefaultDeviceChanged, .pCbCtx⟩
  let e1 := r.env.tell (.AudioObjectAddPropertyListener l1)
  let s1 := if (r.env.ask (.AudioObjectAddPropertyListener l1)).err = noErr then
      { r.strm with fDefDevChgListReg := true } else r.strm
  if s1.fDevStateChgListReg = false ∧ s1.deviceID ≠ kAudioDeviceUnknown then
    let l2 : Listener := ⟨s1.deviceID, .DeviceIsAlive, .DeviceStateChanged, .pCbCtx⟩
    let e2 := e1.tell (.AudioObjectAddPropertyListener l2)
    let s2 := if (e1.ask (.AudioObjectAddPropertyListener l2)).err = noErr then
        { s1 with fDevStateChgListReg := true } else s1
    ⟨r.rc, r.cSamples, s2, e2⟩
  else ⟨r.rc, r.cSamples, s1, e1⟩

/-! ## Reinitialisation -/

/-- `drvHostCoreAudioReinitInput`: fini, init, control(Enable). -/
def drvHostCoreAudioReinitInput (s : COREAUDIOSTREAMIN) (e : Env) : Res COREAUDIOSTREAMIN :=
  let f := drvHostCoreAudioFiniIn s e
  if RT_SUCCESS f.rc then
    let i := drvHostCoreAudioInitInput f.strm f.env
    if RT_SUCCESS i.rc then drvHostCoreAudioControlIn i.strm i.env .ENABLE
    else ⟨i.rc, i.strm, i.env⟩
  else f

/-- `drvHostCoreAudioReinitOutput`: fini, init, control(Enable). -/
def drvHostCoreAudioReinitOutput (s : COREAUDIOSTREAMOUT) (e : Env) : Res COREAUDIOSTREAMOUT :=
  let f := drvHostCoreAudioFiniOut s e
  if RT_SUCCESS f.rc then
    let i := drvHostCoreAudioInitOutput f.strm f.env
    if RT_SUCCESS i.rc then drvHostCoreAudioControlOut i.strm i.env .ENABLE
    else ⟨i.rc, i.strm, i.env⟩
  else f

/-! ## Transfer between the ring buffer and the mixer buffer -/

/-- Modelled from the spec: the mixer macro `AUDIOMIXBUF_S2B` (AudioMixBuffer.h is not in src),
samples to bytes, a left shift of a `uint32_t` by the `cShift` of the mixer buffer. -/
def AUDIOMIXBUF_S2B (m : PDMAUDIOMIXBUF) (x : Nat) : Nat := (x * 2 ^ m.cShift) % 2 ^ 32

/-- Modelled from the spec: the mixer macro `AUDIOMIXBUF_B2S` (AudioMixBuffer.h is not in src),
bytes to samples, a right shift by the `cShift` of the mixer buffer. -/
def AUDIOMIXBUF_B2S (m : PDMAUDIOMIXBUF) (x : Nat) : Nat := x / 2 ^ m.cShift

/-- What a copy loop leaves behind: `rc`, the byte total, the world. -/
structure LoopRes where
  rc : Int
  cbTotal : Nat
  env : Env

/-- Result of a transfer; `cSamples` is what was stored through the out parameter, if anything. -/
structure XferRes (σ : Type) where
  rc : Int
  cSamples : Option Nat
  strm : σ
  env : Env

/-- The `while (cbToWrite)` loop of `drvHostCoreAudioCaptureIn`.  `fuel` bounds the number of
iterations; `none` means the bound was reached with bytes still to write. -/
def captureInLoop (s : COREAUDIOSTREAMIN) :
    Nat → Nat → Nat → Int → Env → Option LoopRes
  | fuel, cbToWrite, cbWrittenTotal, rc, e =>
    if cbToWrite = 0 then some ⟨rc, cbWrittenTotal, e⟩
    else
      match fuel with
      | 0 => none
      | fuel + 1 =>
        let ca := Call.RTCircBufAcquireReadBlock s.pBuf cbToWrite
        let cbToRead := (e.ask ca).size
        let e1 := e.tell ca
        if cbToRead = 0 then
          some ⟨rc, cbWrittenTotal, e1.tell (.RTCircBufReleaseReadBlock s.pBuf cbToRead)⟩
        else
          let w := e1.ask (.AudioMixBufWriteCirc cbToRead)
          let e2 := e1.tell (.AudioMixBufWriteCirc cbToRead)
          if RT_FAILURE w.err ∨ w.u32 = 0 then
            some ⟨w.err, cbWrittenTotal, e2.tell (.RTCircBufReleaseReadBlock s.pBuf cbToRead)⟩
          else
            let cbWritten := AUDIOMIXBUF_S2B s.MixBuf w.u32
            captureInLoop s fuel ((cbToWrite + 2 ^ 64 - cbWritten) % 2 ^ 64)
              ((cbWrittenTotal + cbWritten) % 2 ^ 32) w.err
              (e2.tell (.RTCircBufReleaseReadBlock s.pBuf cbWritten))

/-- `drvHostCoreAudioCaptureIn`, with `fuel` for its copy loop. -/
def drvHostCoreAudioCaptureIn (fuel : Nat) (s : COREAUDIOSTREAMIN) (e : Env) :
    Option (XferRes COREAUDIOSTREAMIN) :=
  let r : Res COREAUDIOSTREAMIN :=
    if s.status = CA_STATUS_REINIT then drvHostCoreAudioReinitInput s e else ⟨VINF_SUCCESS, s, e⟩
  if r.strm.status ≠ CA_STATUS_INIT then some ⟨VINF_SUCCESS, some 0, r.strm, r.env⟩
  else
    let cbBuf := (r.env.ask .AudioMixBufSizeBytes).size
    let e1 := r.env.tell .AudioMixBufSizeBytes
    let cbUsed := (e1.ask (.RTCircBufUsed r.strm.pBuf)).size
    let e2 := e1.tell (.RTCircBufUsed r.strm.pBuf)
    match captureInLoop r.strm fuel (min cbBuf cbUsed) 0 VINF_SUCCESS e2 with
    | none => none
    | some l =>
      if RT_SUCCESS l.rc then
        let cWrittenTotal := AUDIOMIXBUF_B2S r.strm.MixBuf l.cbTotal
        if cWrittenTotal ≠ 0 then
          let m := l.env.ask (.AudioMixBufMixToParent cWrittenTotal)
          some ⟨m.err, some m.u32, r.strm, l.env.tell (.AudioMixBufMixToParent cWrittenTotal)⟩
        else some ⟨l.rc, some 0, r.strm, l.env⟩
      else some ⟨l.rc, none, r.strm, l.env⟩

/-- The `while (cbToRead)` loop of `drvHostCoreAudioPlayOut`.  `fuel` bounds the number of
iterations; `none` means the bound was reached with bytes still to read. -/
def playOutLoop (s : COREAUDIOSTREAMOUT) :
    Nat → Nat → Nat → Int → Env → Option LoopRes
  | fuel, cbToRead, cbReadTotal, rc, e =>
    if cbToRead = 0 then some ⟨rc, cbReadTotal, e⟩
    else
      match fuel with
      | 0 => none
      | fuel + 1 =>
        let ca := Call.RTCircBufAcquireWriteBlock s.pBuf cbToRead
        let cbCopy := (e.ask ca).size
        let e1 := e.tell ca
        if cbCopy = 0 then
          some ⟨rc, cbReadTotal, e1.tell (.RTCircBufReleaseWriteBlock s.pBuf cbCopy)⟩
        else
          let rd := e1.ask (.AudioMixBufReadCirc cbCopy)
          let e2 := e1.tell (.AudioMixBufReadCirc cbCopy)
          if RT_FAILURE rd.err ∨ rd.u32 = 0 then
            some ⟨rd.err, cbReadTotal, e2.tell (.RTCircBufReleaseWriteBlock s.pBuf 0)⟩
          else
            let cbRead := AUDIOMIXBUF_S2B s.MixBuf rd.u32
            playOutLoop s fuel ((cbToRead + 2 ^ 64 - cbRead) % 2 ^ 64)
              ((cbReadTotal + cbRead) % 2 ^ 32) rd.err
              (e2.tell (.RTCircBufReleaseWriteBlock s.pBuf cbRead))

/-- `drvHostCoreAudioPlayOut`, with `fuel` for its copy loop. -/
def drvHostCoreAudioPlayOut (fuel : Nat) (s : COREAUDIOSTREAMOUT) (e : Env) :
    Option (XferRes COREAUDIOSTREAMOUT) :=
  let r : Res COREAUDIOSTREAMOUT :=
    if s.status = CA_STATUS_REINIT then drvHostCoreAudioReinitOutput s e else ⟨VINF_SUCCESS, s, e⟩
  if RT_FAILURE r.rc then some ⟨r.rc, none, r.strm, r.env⟩
  else
    let cLive := (r.env.ask .AudioMixBufAvail).u32
    let e1 := r.env.tell .AudioMixBufAvail
    if cLive = 0 then some ⟨VINF_SUCCESS, some 0, r.strm, e1⟩
    else
      let cAvail := (e1.ask .AudioMixBufAvail).u32
      let e2 := e1.tell .AudioMixBufAvail
      let cbAvail := AUDIOMIXBUF_S2B r.strm.MixBuf cAvail
      let cbFree := (e2.ask (.RTCircBufFree r.strm.pBuf)).size
      let e3 := e2.tell (.RTCircBufFree r.strm.pBuf)
      match playOutLoop r.strm fuel (min cbAvail cbFree) 0 r.rc e3 with
      | none => none
      | some l =>
        if RT_SUCCESS l.rc then
          let cReadTotal := AUDIOMIXBUF_B2S r.strm.MixBuf l.cbTotal
          let e4 := if cReadTotal ≠ 0 then l.env.tell (.AudioMixBufFinish cReadTotal) else l.env
          some ⟨l.rc, some cReadTotal, r.strm, e4⟩
        else some ⟨l.rc, none, r.strm, l.env⟩

/-! ## Device enumeration and the Device Watcher callbacks -/

/-- One round of the device loop of `drvHostCoreAudioDevicesEnumerate`; `acc.1` is the `uint8_t`
counter `cDevs`. -/
def enumerateDevice (fIn : Bool) (acc : Nat × Env) (curDevID : Nat) : Nat × Env :=
  let c1 := Call.GetStreamConfigurationSize curDevID fIn
  let e1 := acc.2.tell c1
  if (acc.2.ask c1).err ≠ noErr then (acc.1, e1)
  else
    let e2 := e1.tell .RTMemAlloc
    if (e1.ask .RTMemAlloc).val = 0 then (acc.1, e2)
    else
      let c3 := Call.GetStreamConfiguration curDevID fIn
      let g := e2.ask c3
      let e3 := e2.tell c3
      let fIsValid : Bool := decide (g.err = noErr) && g.list.any (fun ch => decide (0 < ch % 2 ^ 32))
      if fIsValid = false then (acc.1, e3)
      else
        let c4 := Call.GetDeviceName curDevID (some fIn)
        let e4 := e3.tell c4
        if (e3.ask c4).err ≠ kAudioHardwareNoError then (acc.1, e4)
        else
          let uMax := (e4.ask .CFStringGetMaximumSizeForEncoding).err + 1
          let e5 := e4.tell .CFStringGetMaximumSizeForEncoding
          if uMax ≠ 0 then
            let e6 := e5.tell .RTStrAlloc
            if (e5.ask .RTStrAlloc).val ≠ 0 then
              let e7 := e6.tell .CFStringGetCString
              if (e6.ask .CFStringGetCString).val ≠ 0 then ((acc.1 + 1) % 2 ^ 8, e7) else (acc.1, e7)
            else (acc.1, e6)
          else (acc.1, e5)

/-- `drvHostCoreAudioDevicesEnumerate`: the count `cDevs` it stores in the backend configuration
(`cMaxHstStrmsIn` or `cMaxHstStrmsOut`) when `pCfg` is given, and the world afterwards. -/
def drvHostCoreAudioDevicesEnumerate (e : Env) (fIn : Bool) : Nat × Env :=
  let e1 := e.tell .GetDevicesSize
  if (e.ask .GetDevicesSize).err ≠ kAudioHardwareNoError then (0, e1)
  else
    let g := e1.ask .GetDevices
    let e2 := e1.tell .GetDevices
    if g.err ≠ kAudioHardwareNoError then (0, e2)
    else g.list.foldl (enumerateDevice fIn) (0, e2)

/-- The two enumerations at the end of the device-state and default-device callbacks. -/
def watcherEnumerate (e : Env) : Env :=
  (drvHostCoreAudioDevicesEnumerate (drvHostCoreAudioDevicesEnumerate e false).2 true).2

/-- The device a callback context refers to. -/
def COREAUDIOSTREAMCBCTX.deviceID : COREAUDIOSTREAMCBCTX → Nat
  | .pIn s => s.deviceID
  | .pOut s => s.deviceID

/-- `ASMAtomicXchgU32(&pStream->status, CA_STATUS_REINIT)` on the stream behind a context. -/
def COREAUDIOSTREAMCBCTX.requestReinit : COREAUDIOSTREAMCBCTX → COREAUDIOSTREAMCBCTX
  | .pIn s => .pIn { s with status := CA_STATUS_REINIT }
  | .pOut s => .pOut { s with status := CA_STATUS_REINIT }

/-- `drvHostCoreAudioDeviceStateChanged`. -/
def drvHostCoreAudioDeviceStateChanged (ctx : COREAUDIOSTREAMCBCTX) (e : Env) :
    Res COREAUDIOSTREAMCBCTX :=
  let q := e.ask (.GetDeviceIsAlive ctx.deviceID)
  let e1 := e.tell (.GetDeviceIsAlive ctx.deviceID)
  let fIsDead : Bool :=
    decide (q.err = kAudioHardwareBadDeviceError)
      || (decide (q.err = kAudioHardwareNoError) && decide (q.u32 = 0))
  ⟨noErr, if fIsDead = true then ctx.requestReinit else ctx, watcherEnumerate e1⟩

/-- One round of the address loop of `drvHostCoreAudioDefaultDeviceChanged`.  The source reads
`pCbCtx->pIn` for the input selector and `pCbCtx->pOut` for the output selector whatever the
direction tag is; a selector of the other direction (for which the listener is never
registered) is left without effect here. -/
def defaultDeviceChangedStep (acc : COREAUDIOSTREAMCBCTX × Env) (mSelector : Selector) :
    COREAUDIOSTREAMCBCTX × Env :=
  match mSelector, acc.1 with
  | .DefaultInputDevice, .pIn s =>
    let q := acc.2.ask (.GetDefaultDevice true)
    (if q.err = noErr ∧ s.deviceID ≠ q.u32 then .pIn { s with status := CA_STATUS_REINIT }
     else .pIn s, acc.2.tell (.GetDefaultDevice true))
  | .DefaultOutputDevice, .pOut s =>
    let q := acc.2.ask (.GetDefaultDevice false)
    (if q.err = noErr ∧ s.deviceID ≠ q.u32 then .pOut { s with status := CA_STATUS_REINIT }
     else .pOut s, acc.2.tell (.GetDefaultDevice false))
  | _, _ => acc

/-- `drvHostCoreAudioDefaultDeviceChanged`; `properties` are the selectors of the addresses. -/
def drvHostCoreAudioDefaultDeviceChanged (properties : List Selector) (ctx : COREAUDIOSTREAMCBCTX)
    (e : Env) : Res COREAUDIOSTREAMCBCTX :=
  let r := properties.foldl defaultDeviceChangedStep (ctx, e)
  ⟨noErr, r.1, watcherEnumerate r.2⟩

/-- Modelled from the spec: `kAudioDevicePropertyNominalSampleRate`, the four characters `nsrt`
(AudioHardware.h is not in src). -/
abbrev kAudioDevicePropertyNominalSampleRate : Nat := 0x6E737274

/-- `drvHostCoreAudioRecordingAudioDevicePropertyChanged`: it switches on its first argument,
the `AudioObjectID` named `propertyID`. -/
def drvHostCoreAudioRecordingAudioDevicePropertyChanged (propertyID : Nat) (s : COREAUDIOSTREAMIN)
    (e : Env) : Res COREAUDIOSTREAMIN :=
  if propertyID = kAudioDevicePropertyNominalSampleRate then
    ⟨noErr, { s with status := CA_STATUS_REINIT }, e⟩
  else ⟨noErr, s, e⟩

/-- `drvHostCoreAudioPlaybackAudioDevicePropertyChanged`: no case of its switch does anything. -/
def drvHostCoreAudioPlaybackAudioDevicePropertyChanged (_propertyID : Nat) (s : COREAUDIOSTREAMOUT)
    (e : Env) : Res COREAUDIOSTREAMOUT :=
  ⟨noErr, s, e⟩

/-! ## Observations on the trace -/

/-- The part of the trace that was recorded between the world `e0` and the later world `e1`. -/
def Env.since (e0 e1 : Env) : List (Call × Resp) := e1.log.drop e0.log.length

/-- Calls on the ring buffer of a stream. -/
def Call.isRingBuf : Call → Bool
  | .RTCircBufCreate _ => true
  | .RTCircBufDestroy _ => true
  | .RTCircBufReset _ => true
  | .RTCircBufFree _ => true
  | .RTCircBufUsed _ => true
  | .RTCircBufAcquireReadBlock _ _ => true
  | .RTCircBufReleaseReadBlock _ _ => true
  | .RTCircBufAcquireWriteBlock _ _ => true
  | .RTCircBufReleaseWriteBlock _ _ => true
  | _ => false

/-- Calls that create a sample converter. -/
def Call.isConverterNew : Call → Bool
  | .AudioConverterNew _ _ => true
  | _ => false

/-- Modelled from the spec: audio unit components the host holds open after the trace `log`
(`OpenAComponent` that returned `noErr` opens one, `CloseComponent` that returned `noErr` closes
one). -/
def openAudioUnits (log : List (Call × Resp)) : Int :=
  ((log.filter (fun ev => match ev.1 with
      | .OpenAComponent => decide (ev.2.err = noErr)
      | _ => false)).length : Int)
  - ((log.filter (fun ev => match ev.1 with
      | .CloseComponent _ => decide (ev.2.err = noErr)
      | _ => false)).length : Int)

/-- Modelled from the spec: converters alive after the trace `log` (`AudioConverterNew` that
returned `noErr` creates one, `AudioConverterDispose` releases one). -/
def liveConverters (log : List (Call × Resp)) : Int :=
  ((log.filter (fun ev => match ev.1 with
      | .AudioConverterNew _ _ => decide (ev.2.err = noErr)
      | _ => false)).length : Int)
  - ((log.filter (fun ev => match ev.1 with
      | .AudioConverterDispose _ => true
      | _ => false)).length : Int)

/-- Modelled from the spec: ring buffers alive after the trace `log` (a successful
`RTCircBufCreate` creates one, `RTCircBufDestroy` of a buffer releases one). -/
def liveRingBuffers (log : List (Call × Resp)) : Int :=
  ((log.filter (fun ev => match ev.1 with
      | .RTCircBufCreate _ => decide (0 ≤ ev.2.err)
      | _ => false)).length : Int)
  - ((log.filter (fun ev => match ev.1 with
      | .RTCircBufDestroy (some _) => true
      | _ => false)).length : Int)

/-- Modelled from the spec: the listener registry of the host after the trace `log`, a set of
(object, property selector, callback, client context) entries; an accepted registration adds its
entry, an accepted removal deletes only an exactly matching entry. -/
def registeredListeners (log : List (Call × Resp)) : List Listener :=
  log.foldl
    (fun reg ev => match ev.1 with
      | .AudioObjectAddPropertyListener l => if ev.2.err = noErr then reg ++ [l] else reg
      | .AudioObjectRemovePropertyListener l => if ev.2.err = noErr then reg.erase l else reg
      | _ => reg)
    []

/-! ## Concrete streams and hosts -/

/-- Requested format 44100 Hz, 2 channels, 16 bit signed. -/
def props44100 : PDMPCMPROPS := { cBits := 16, fSigned := true, cShift := 2, cChannels := 2, uHz := 44100 }

/-- Requested format 48000 Hz, 2 channels, 16 bit signed. -/
def props48000 : PDMPCMPROPS := { cBits := 16, fSigned := true, cShift := 2, cChannels := 2, uHz := 48000 }

/-- Device format 44100 Hz, 2 channels, 16 bit signed. -/
def fmt44100 : AudioStreamBasicDescription := drvHostCoreAudioPCMInfoToASBDesc props44100

/-- Device format 44100 Hz that reports 0 channels per frame. -/
def fmtNoChannels : AudioStreamBasicDescription :=
  { fmt44100 with mChannelsPerFrame := 0, mBytesPerFrame := 0, mBytesPerPacket := 0 }

/-- The answer of a host on which everything succeeds: `noErr`, the value 512 (device 512, 512
frames, handle 512), device format 44100 Hz stereo. -/
def okResp : Resp := { err := noErr, val := 512, fmt := fmt44100, ranges := [], list := [] }

/-- A host on which every call succeeds; the mixer buffer holds no samples and has no room. -/
def okOracle : Nat → Call → Resp := fun _ c =>
  match c with
  | .AudioMixBufAvail => { okResp with val := 0 }
  | .AudioMixBufSizeBytes => { okResp with val := 0 }
  | _ => okResp

/-- A host on which every call succeeds and which reports 0 frames per slice. -/
def zeroFramesOracle : Nat → Call → Resp := fun _ c =>
  match c with
  | .AudioUnitGetProperty _ .MaximumFramesPerSlice _ _ => { okResp with val := 0 }
  | .AudioMixBufAvail => { okResp with val := 0 }
  | .AudioMixBufSizeBytes => { okResp with val := 0 }
  | _ => okResp

/-- A host on which every call returns `noErr` and whose device reports 0 channels per frame. -/
def noChannelsOracle : Nat → Call → Resp := fun _ _ => { okResp with fmt := fmtNoChannels }

/-- A host that refuses to switch the I/O mode of the audio unit; everything else succeeds. -/
def enableFailOracle : Nat → Call → Resp := fun _ c =>
  match c with
  | .AudioUnitSetProperty _ .EnableInOut _ _ _ => { okResp with err := -1 }
  | _ => okResp

/-- A world in which the mixer buffer holds 4 live samples and nothing else is there. -/
def liveMixerOracle : Nat → Call → Resp := fun _ c =>
  match c with
  | .AudioMixBufAvail => { err := 0, val := 4, fmt := default, ranges := [], list := [] }
  | _ => { err := 0, val := 0, fmt := default, ranges := [], list := [] }

/-- An input stream as `drvHostCoreAudioInitIn` finds it: all fields zero. -/
def freshStreamIn : COREAUDIOSTREAMIN :=
  { Props := props44100, MixBuf := ⟨2⟩, deviceFormat := default, streamFormat := default,
    deviceID := kAudioDeviceUnknown, audioUnit := none, pConverter := none, bufferList := default,
    offBufferRead := 0, sampleRatio := ⟨1, 1⟩, pBuf := none, status := CA_STATUS_UNINIT,
    fDefDevChgListReg := false, fDevStateChgListReg := false }

/-- An output stream as `drvHostCoreAudioInitOut` finds it: all fields zero. -/
def freshStreamOut : COREAUDIOSTREAMOUT :=
  { Props := props44100, MixBuf := ⟨2⟩, deviceFormat := default, streamFormat := default,
    deviceID := kAudioDeviceUnknown, audioUnit := none, pBuf := none, status := CA_STATUS_UNINIT,
    fDefDevChgListReg := false, fDevStateChgListReg := false }

/-- An initialized input stream on device 512 with a ring buffer of 4096 bytes. -/
def activeStreamIn : COREAUDIOSTREAMIN :=
  { freshStreamIn with
    deviceFormat := fmt44100, streamFormat := fmt44100, deviceID := 512, audioUnit := some 512,
    bufferList := { mNumberBuffers := 1, mNumberChannels := 2, mDataByteSize := 0, mData := none },
    pBuf := some ⟨4096⟩, status := CA_STATUS_INIT,
    fDefDevChgListReg := true, fDevStateChgListReg := true }

/-- An initialized output stream on device 512 with a ring buffer of 4096 bytes. -/
def activeStreamOut : COREAUDIOSTREAMOUT :=
  { freshStreamOut with
    deviceFormat := fmt44100, streamFormat := fmt44100, deviceID := 512, audioUnit := some 512,
    pBuf := some ⟨4096⟩, status := CA_STATUS_INIT,
    fDefDevChgListReg := true, fDevStateChgListReg := true }

/-- A host whose device is not running when first asked and running afterwards. -/
def startingOracle : Nat → Call → Resp := fun n c =>
  match c with
  | .GetDeviceIsRunning _ => if n = 0 then { okResp with val := 0 } else okResp
  | _ => okResp

/-! ## Assumptions on the world, as predicates on the oracle -/

/-- The later world `e1` has the oracle of `e0`, and its log is the log of `e0` extended by calls
that all satisfy `P`. -/
def Env.Adds (P : Call → Prop) (e0 e1 : Env) : Prop :=
  e1.oracle = e0.oracle ∧ ∃ evs, e1.log = e0.log ++ evs ∧ ∀ x ∈ evs, P x.1

/-- The call does not create a sample converter. -/
def notConverterNew (c : Call) : Prop := c.isConverterNew = false

/-- Any call. -/
def anyCall (_c : Call) : Prop := True

/-- Every call returns success: each status is `noErr` (for an IPRT or mixer call
`VINF_SUCCESS`), the HAL output component is found, memory is available and a default device
exists. -/
structure HostOk (o : Nat → Call → Resp) : Prop where
  err : ∀ n c, (o n c).err = noErr
  comp : ∀ n, (o n .FindNextComponent).val ≠ 0
  alloc : ∀ n, (o n .RTMemAlloc).val ≠ 0
  dev : ∀ n b, (o n (.GetDefaultDevice b)).u32 ≠ kAudioDeviceUnknown

/-- The ring buffer grants at most the bytes requested, and the mixer buffer accepts or returns
per call a number of samples whose byte size is not zero and at most the bytes offered. -/
structure XferOk (o : Nat → Call → Resp) (m : PDMAUDIOMIXBUF) : Prop where
  acquireRead : ∀ n p cb, (o n (.RTCircBufAcquireReadBlock p cb)).size ≤ cb
  acquireWrite : ∀ n p cb, (o n (.RTCircBufAcquireWriteBlock p cb)).size ≤ cb
  write : ∀ n cb, (o n (.AudioMixBufWriteCirc cb)).u32 ≠ 0 →
    0 < AUDIOMIXBUF_S2B m (o n (.AudioMixBufWriteCirc cb)).u32
      ∧ AUDIOMIXBUF_S2B m (o n (.AudioMixBufWriteCirc cb)).u32 ≤ cb
  read : ∀ n cb, (o n (.AudioMixBufReadCirc cb)).u32 ≠ 0 →
    0 < AUDIOMIXBUF_S2B m (o n (.AudioMixBufReadCirc cb)).u32
      ∧ AUDIOMIXBUF_S2B m (o n (.AudioMixBufReadCirc cb)).u32 ≤ cb

/-- The sample count `drvHostCoreAudioInitInput` computes for the requested properties `props`
from the frame count `cFrames` and the device format `dev` the host reports. -/
def inputSamplesFor (props : PDMPCMPROPS) (cFrames : Nat) (dev : AudioStreamBasicDescription) :
    Nat :=
  initInputSampleCount cFrames dev.mBytesPerFrame
    (drvHostCoreAudioPCMInfoToASBDesc props).mBytesPerFrame
    (drvHostCoreAudioPCMInfoToASBDesc props).mChannelsPerFrame
    ⟨(drvHostCoreAudioPCMInfoToASBDesc props).mSampleRate, dev.mSampleRate⟩

/-- Notifications the Device Watcher callbacks of a stream can receive. -/
inductive WatcherEvent where
  | deviceStateChanged
  | defaultDeviceChanged (properties : List Selector)
  | propertyChanged (propertyID : Nat)
  deriving DecidableEq, Repr

/-- The input stream behind a callback context (`dflt` when the context is an output one). -/
def COREAUDIOSTREAMCBCTX.asIn (dflt : COREAUDIOSTREAMIN) : COREAUDIOSTREAMCBCTX → COREAUDIOSTREAMIN
  | .pIn s => s
  | .pOut _ => dflt

/-- The output stream behind a callback context (`dflt` when the context is an input one). -/
def COREAUDIOSTREAMCBCTX.asOut (dflt : COREAUDIOSTREAMOUT) :
    COREAUDIOSTREAMCBCTX → COREAUDIOSTREAMOUT
  | .pIn _ => dflt
  | .pOut s => s

/-- A Device Watcher callback runs on an input stream. -/
def watchIn (w : WatcherEvent) (s : COREAUDIOSTREAMIN) (e : Env) : Res COREAUDIOSTREAMIN :=
  match w with
  | .deviceStateChanged =>
    let r := drvHostCoreAudioDeviceStateChanged (.pIn s) e
    ⟨r.rc, r.strm.asIn s, r.env⟩
  | .defaultDeviceChanged properties =>
    let r := drvHostCoreAudioDefaultDeviceChanged properties (.pIn s) e
    ⟨r.rc, r.strm.asIn s, r.env⟩
  | .propertyChanged propertyID => drvHostCoreAudioRecordingAudioDevicePropertyChanged propertyID s e

/-- A Device Watcher callback runs on an output stream. -/
def watchOut (w : WatcherEvent) (s : COREAUDIOSTREAMOUT) (e : Env) : Res COREAUDIOSTREAMOUT :=
  match w with
  | .deviceStateChanged =>
    let r := drvHostCoreAudioDeviceStateChanged (.pOut s) e
    ⟨r.rc, r.strm.asOut s, r.env⟩
  | .defaultDeviceChanged properties =>
    let r := drvHostCoreAudioDefaultDeviceChanged properties (.pOut s) e
    ⟨r.rc, r.strm.asOut s, r.env⟩
  | .propertyChanged propertyID => drvHostCoreAudioPlaybackAudioDevicePropertyChanged propertyID s e

/-- As `deadDeviceOracle`, and the host reports 0 frames per slice. -/
def deadDeviceZeroFramesOracle : Nat → Call → Resp := fun _ c =>
  match c with
  | .GetDeviceIsAlive _ => { okResp with val := 0 }
  | .AudioUnitGetProperty _ .MaximumFramesPerSlice _ _ => { okResp with val := 0 }
  | .AudioMixBufAvail => { okResp with val := 0 }
  | .AudioMixBufSizeBytes => { okResp with val := 0 }
  | _ => okResp

/-- A world for a recovery: every call succeeds, the device is reported as no longer alive, the
ring buffer holds 8 bytes and has 8 free, it grants what is requested, and the mixer buffer has
room for 8 bytes, holds 2 samples and accepts or returns whole samples of 4 bytes. -/
def recoveryOracle : Nat → Call → Resp := fun _ c =>
  match c with
  | .GetDeviceIsAlive _ => { okResp with val := 0 }
  | .AudioMixBufAvail => { okResp with val := 2 }
  | .AudioMixBufSizeBytes => { okResp with val := 8 }
  | .RTCircBufUsed _ => { okResp with val := 8 }
  | .RTCircBufFree _ => { okResp with val := 8 }
  | .RTCircBufAcquireReadBlock _ cb => { okResp with val := cb }
  | .RTCircBufAcquireWriteBlock _ cb => { okResp with val := cb }
  | .AudioMixBufWriteCirc cb => { okResp with val := min (cb / 4) 1000 }
  | .AudioMixBufReadCirc cb => { okResp with val := min (cb / 4) 1000 }
  | _ => okResp

/-- A host that refuses to create a converter from a device format without channels or without
sample rate; everything else succeeds, and the device reports 0 channels per frame. -/
def strictConverterOracle : Nat → Call → Resp := fun _ c =>
  match c with
  | .AudioConverterNew src _ =>
    if src.mChannelsPerFrame = 0 ∨ src.mSampleRate = 0 then
      { okResp with err := -50, fmt := fmtNoChannels }
    else { okResp with fmt := fmtNoChannels }
  | _ => { okResp with fmt := fmtNoChannels }

/-! ## Further hosts and assumptions -/

/-- The device id an init routine works with: the one of the stream, or, when that is the unknown
device, the answer `q` of the host to the default-device query; `none` when no device id could
be resolved (the query failed or returned the unknown device). -/
def resolvedDevice (deviceID : Nat) (q : Resp) : Option Nat :=
  if deviceID = kAudioDeviceUnknown then
    if q.err ≠ noErr then none
    else if q.u32 = kAudioDeviceUnknown then none else some q.u32
  else some deviceID

/-- Modelled from the spec: IPRT status `VERR_NO_MEMORY` (iprt/err.h is not in src). -/
abbrev VERR_NO_MEMORY : Int := -8

/-- A host on which every call succeeds but the creation of the ring buffer, which reports
`VERR_NO_MEMORY`. -/
def ringBufFailOracle : Nat → Call → Resp := fun _ c =>
  match c with
  | .RTCircBufCreate _ => { okResp with err := VERR_NO_MEMORY }
  | _ => okResp

/-- What the status of `drvHostCoreAudioInitInput` can be once a device id is resolved, on the
host `o`: a success, `VERR_AUDIO_BACKEND_INIT_FAILED`, or the failure `RTCircBufCreate`
reported. -/
def InputInitCode (o : Nat → Call → Resp) (rc : Int) : Prop :=
  RT_SUCCESS rc
  ∨ rc = VERR_AUDIO_BACKEND_INIT_FAILED
  ∨ ∃ n cb, RT_FAILURE rc ∧ rc = (o n (.RTCircBufCreate cb)).err

/-- What the status of `drvHostCoreAudioInitOutput` can be once a device id is resolved, on the
host `o` and for `cChannels` requested channels: a success, `VERR_AUDIO_BACKEND_INIT_FAILED`,
`VERR_INVALID_PARAMETER` when the frame count the audio unit reports gives a sample count of 0,
or the failure `RTCircBufCreate` reported. -/
def OutputInitCode (o : Nat → Call → Resp) (cChannels : Nat) (rc : Int) : Prop :=
  RT_SUCCESS rc
  ∨ rc = VERR_AUDIO_BACKEND_INIT_FAILED
  ∨ (rc = VERR_INVALID_PARAMETER
      ∧ ∃ n au, ((o n (.AudioUnitGetProperty au .MaximumFramesPerSlice .Global 0)).u32
          * cChannels) % 2 ^ 32 = 0)
  ∨ ∃ n cb, RT_FAILURE rc ∧ rc = (o n (.RTCircBufCreate cb)).err

/-- Calls on the mixer buffer of a stream. -/
def Call.isMixBuf : Call → Bool
  | .AudioMixBufSizeBytes => true
  | .AudioMixBufAvail => true
  | .AudioMixBufWriteCirc _ => true
  | .AudioMixBufReadCirc _ => true
  | .AudioMixBufMixToParent _ => true
  | .AudioMixBufFinish _ => true
  | _ => false

/-- The call is one on the ring buffer or on the mixer buffer, as a transfer that does not
reinitialise the stream makes them. -/
def transferCall (c : Call) : Prop := c.isRingBuf = true ∨ c.isMixBuf = true

/-- A host without default device at first: the default-device query fails during the first 10
calls and succeeds from then on; every other call succeeds, and the mixer buffer holds no samples
and has no room. -/
def lateDeviceOracle : Nat → Call → Resp := fun n c =>
  match c with
  | .GetDefaultDevice _ => if n < 10 then { okResp with err := -1 } else okResp
  | .AudioMixBufAvail => { okResp with val := 0 }
  | .AudioMixBufSizeBytes => { okResp with val := 0 }
  | _ => okResp

/-- A buffer list exposes a channel: one of its buffers has a channel count (a `UInt32`) greater
than 0. -/
def exposesChannels (channels : List Nat) : Bool :=
  channels.any (fun ch => decide (0 < ch % 2 ^ 32))

/-- The number of devices of the list `devs` that expose at least one buffer with a channel
count greater than 0 in the scope of the direction `fIn`, where `cfg d fIn` are the channel
counts of the buffers of device `d` in that scope. -/
def exposedDevices (devs : List Nat) (cfg : Nat → Bool → List Nat) (fIn : Bool) : Nat :=
  (devs.filter (fun d => exposesChannels (cfg d fIn))).length

/-- The host `o` answers every query of the enumeration with success: it reports the device list
`devs`, for the device `d` and the direction `fIn` the buffers with the channel counts
`cfg d fIn`, memory is available and the name of every device can be fetched and converted. -/
structure EnumOk (o : Nat → Call → Resp) (devs : List Nat) (cfg : Nat → Bool → List Nat) :
    Prop where
  size : ∀ n, (o n .GetDevicesSize).err = kAudioHardwareNoError
  devices : ∀ n, (o n .GetDevices).err = kAudioHardwareNoError ∧ (o n .GetDevices).list = devs
  cfgSize : ∀ n d f, (o n (.GetStreamConfigurationSize d f)).err = noErr
  alloc : ∀ n, (o n .RTMemAlloc).val ≠ 0
  config : ∀ n d f, (o n (.GetStreamConfiguration d f)).err = noErr
    ∧ (o n (.GetStreamConfiguration d f)).list = cfg d f
  name : ∀ n d f, (o n (.GetDeviceName d (some f))).err = kAudioHardwareNoError
  maxSize : ∀ n, (o n .CFStringGetMaximumSizeForEncoding).err + 1 ≠ 0
  strAlloc : ∀ n, (o n .RTStrAlloc).val ≠ 0
  cstring : ∀ n, (o n .CFStringGetCString).val ≠ 0

/-- A host with the single device 512, which has one buffer with 2 channels in either scope;
every call succeeds. -/
def oneDeviceOracle : Nat → Call → Resp := fun _ c =>
  match c with
  | .GetDevices => { okResp with list := [512] }
  | .GetStreamConfiguration _ _ => { okResp with list := [2] }
  | _ => okResp

/-- As `oneDeviceOracle`, but the name of the device cannot be fetched. -/
def namelessDeviceOracle : Nat → Call → Resp := fun _ c =>
  match c with
  | .GetDevices => { okResp with list := [512] }
  | .GetStreamConfiguration _ _ => { okResp with list := [2] }
  | .GetDeviceName _ (some _) => { okResp with err := -1 }
  | _ => okResp

/-! ## The realtime callbacks -/

/-- What `drvHostCoreAudioConverterCallback` leaves behind: its status, the packet count stored
through `pcPackets`, the buffer `pBufData->mBuffers[0]` and the stream. -/
structure ConverterCallbackRes where
  err : Int
  cPackets : Nat
  bufData : AudioBufferList
  strm : COREAUDIOSTREAMIN

/-- `drvHostCoreAudioConverterCallback`, the pull callback of the converter.  `cPackets` is the
value of `*pcPackets` on entry, `bufData` the list of the converter with its buffer
`mBuffers[0]`.  The arithmetic is that of `UInt32`; the region handed out is a pointer into the
staging buffer of the stream, `mData + offBufferRead` (no pointer when the staging buffer has
none).  A division by a `mBytesPerPacket` of 0 is undefined in C and gives 0 here. -/
def drvHostCoreAudioConverterCallback (s : COREAUDIOSTREAMIN) (cPackets : Nat)
    (bufData : AudioBufferList) : ConverterCallbackRes :=
  if s.status ≠ CA_STATUS_INIT then ⟨noErr, cPackets, bufData, s⟩
  else
    let cSize := min ((cPackets * s.deviceFormat.mBytesPerPacket) % 2 ^ 32)
      ((s.bufferList.mDataByteSize + 2 ^ 32 - s.offBufferRead) % 2 ^ 32)
    let cPackets1 := cSize / s.deviceFormat.mBytesPerPacket
    if cPackets1 = 0 then
      ⟨caConverterEOFDErr, cPackets1, { bufData with mDataByteSize := 0, mData := none }, s⟩
    else
      ⟨noErr, cPackets1,
        { bufData with
          mNumberChannels := s.bufferList.mNumberChannels
          mDataByteSize := cSize
          mData := s.bufferList.mData.map (fun p => p + s.offBufferRead) },
        { s with offBufferRead := (s.offBufferRead + cSize) % 2 ^ 32 }⟩

/-- What the converter does to the stream during one `AudioConverterFillComplexBuffer`: it calls
the pull callback once for each packet count of `requests`. -/
def converterPulls (s : COREAUDIOSTREAMIN) (requests : List Nat) : COREAUDIOSTREAMIN :=
  requests.foldl (fun st req => (drvHostCoreAudioConverterCallback st req default).strm) s

/-- What a loop of the capture callback leaves behind: the local `err`, the stream, the world. -/
structure RecLoopRes where
  err : Int
  strm : COREAUDIOSTREAMIN
  env : Env

/-- The `while (cbAvail)` loop of `drvHostCoreAudioRecordingCallback` with a converter.  The
answer to `AudioConverterFillComplexBuffer` carries the status, the packet count left in
`ioOutputDataPacketSize` and, as `list`, the packet counts the converter asked the pull callback
for.  A failure of the converter other than end of data leaves the loop without releasing the
block.  `fuel` bounds the number of iterations. -/
def recordingConvertLoop :
    Nat → Nat → Int → COREAUDIOSTREAMIN → Env → Option RecLoopRes
  | fuel, cbAvail, err, s, e =>
    if cbAvail = 0 then some ⟨err, s, e⟩
    else
      match fuel with
      | 0 => none
      | fuel + 1 =>
        let ca := Call.RTCircBufAcquireWriteBlock s.pBuf cbAvail
        let cbToWrite := (e.ask ca).size
        let e1 := e.tell ca
        if cbToWrite = 0 then some ⟨err, s, e1⟩
        else
          let ioOutputDataPacketSize := (cbToWrite / s.streamFormat.mBytesPerPacket) % 2 ^ 32
          let e2 := e1.tell (.AudioConverterReset s.pConverter)
          let cf := Call.AudioConverterFillComplexBuffer s.pConverter ioOutputDataPacketSize
          let r := e2.ask cf
          let e3 := e2.tell cf
          let s1 := converterPulls s r.list
          if r.err ≠ noErr ∧ r.err ≠ caConverterEOFDErr then some ⟨r.err, s1, e3⟩
          else
            let cbToWrite1 := (r.u32 * s1.streamFormat.mBytesPerPacket) % 2 ^ 32
            let e4 := e3.tell (.RTCircBufReleaseWriteBlock s1.pBuf cbToWrite1)
            if r.err = caConverterEOFDErr then some ⟨r.err, s1, e4⟩
            else
              recordingConvertLoop fuel ((cbAvail + 2 ^ 64 - cbToWrite1) % 2 ^ 64) r.err s1 e4

/-- The `while (cbAvail)` loop of `drvHostCoreAudioRecordingCallback` without converter (the
`memcpy` into the block is not a call).  `fuel` bounds the number of iterations. -/
def recordingCopyLoop (s : COREAUDIOSTREAMIN) : Nat → Nat → Env → Option Env
  | fuel, cbAvail, e =>
    if cbAvail = 0 then some e
    else
      match fuel with
      | 0 => none
      | fuel + 1 =>
        let ca := Call.RTCircBufAcquireWriteBlock s.pBuf cbAvail
        let cbToWrite := (e.ask ca).size
        let e1 := e.tell ca
        if cbToWrite = 0 then some e1
        else
          recordingCopyLoop s fuel ((cbAvail + 2 ^ 64 - cbToWrite) % 2 ^ 64)
            (e1.tell (.RTCircBufReleaseWriteBlock s.pBuf cbToWrite))

/-- The end of `drvHostCoreAudioRecordingCallback`: the staging memory is freed and the pointer
cleared. -/
def recordingFree (s : COREAUDIOSTREAMIN) : COREAUDIOSTREAMIN :=
  { s with bufferList := { s.bufferList with mData := none } }

/-- The part of `drvHostCoreAudioRecordingCallback` that both branches share once the staging
buffer is described: allocation, the native render call (the unit leaves in `mDataByteSize` the
bytes it rendered) and the space of the ring buffer.  `none` stands for a `break`; otherwise the
stream, the bytes to move and the world. -/
def recordingRender (s : COREAUDIOSTREAMIN) (e : Env) (cFrames : Nat) :
    Except (Res COREAUDIOSTREAMIN) (COREAUDIOSTREAMIN × Nat × Env) :=
  let a := e.ask .RTMemAlloc
  let e1 := e.tell .RTMemAlloc
  if a.val = 0 then .error ⟨noErr, s, e1⟩
  else
    let s1 := { s with bufferList := { s.bufferList with mData := some a.val } }
    let rd := e1.ask (.AudioUnitRender s1.audioUnit cFrames)
    let e2 := e1.tell (.AudioUnitRender s1.audioUnit cFrames)
    if rd.err ≠ noErr then .error ⟨rd.err, s1, e2⟩
    else
      let s2 := { s1 with bufferList := { s1.bufferList with mDataByteSize := rd.u32 } }
      let cbFree := (e2.ask (.RTCircBufFree s2.pBuf)).size
      .ok (s2, min cbFree s2.bufferList.mDataByteSize, e2.tell (.RTCircBufFree s2.pBuf))

/-- `drvHostCoreAudioRecordingCallback`, the realtime callback that feeds the ring buffer of an
input stream; the result carries the `OSStatus` it returns.  `AssertBreakStmt` leaves the block
in every build. -/
def drvHostCoreAudioRecordingCallback (fuel : Nat) (s : COREAUDIOSTREAMIN) (e : Env)
    (cFrames : Nat) : Option (Res COREAUDIOSTREAMIN) :=
  if s.status ≠ CA_STATUS_INIT then some ⟨noErr, s, e⟩
  else if cFrames = 0 then some ⟨noErr, s, e⟩
  else if s.pConverter.isSome then
    let s1 := { s with bufferList := { s.bufferList with
      mNumberChannels := s.deviceFormat.mChannelsPerFrame
      mDataByteSize := (s.deviceFormat.mBytesPerFrame * cFrames) % 2 ^ 32 } }
    if s1.bufferList.mDataByteSize = 0 then some ⟨noErr, recordingFree s1, e⟩
    else
      match recordingRender s1 e cFrames with
      | .error r => some ⟨r.rc, recordingFree r.strm, r.env⟩
      | .ok (s2, cbAvail, e2) =>
        match recordingConvertLoop fuel cbAvail noErr { s2 with offBufferRead := 0 } e2 with
        | none => none
        | some l => some ⟨l.err, recordingFree l.strm, l.env⟩
  else
    if ¬ (1 ≤ s.streamFormat.mChannelsPerFrame) ∨ ¬ (1 ≤ s.streamFormat.mBytesPerFrame)
        ∨ ¬ (1 ≤ s.bufferList.mNumberBuffers) ∨ s.bufferList.mNumberChannels = 0 then
      some ⟨noErr, recordingFree s, e⟩
    else
      let s1 := { s with bufferList := { s.bufferList with
        mNumberChannels := s.streamFormat.mChannelsPerFrame
        mDataByteSize := (s.streamFormat.mBytesPerFrame * cFrames) % 2 ^ 32 } }
      match recordingRender s1 e cFrames with
      | .error r => some ⟨r.rc, recordingFree r.strm, r.env⟩
      | .ok (s2, cbAvail, e2) =>
        match recordingCopyLoop s2 fuel cbAvail e2 with
        | none => none
        | some e3 => some ⟨noErr, recordingFree s2, e3⟩

/-- What `drvHostCoreAudioPlaybackCallback` leaves behind: its status, the buffer
`pBufData->mBuffers[0]` and the world; it writes nothing to the stream. -/
structure PlaybackRes where
  err : Int
  bufData : AudioBufferList
  env : Env

/-- The `while (cbLeft)` loop of `drvHostCoreAudioPlaybackCallback`; the result is `cbRead` and
the world.  `fuel` bounds the number of iterations. -/
def playbackLoop (s : COREAUDIOSTREAMOUT) : Nat → Nat → Nat → Env → Option (Nat × Env)
  | fuel, cbLeft, cbRead, e =>
    if cbLeft = 0 then some (cbRead, e)
    else
      match fuel with
      | 0 => none
      | fuel + 1 =>
        let ca := Call.RTCircBufAcquireReadBlock s.pBuf cbLeft
        let cbToRead := (e.ask ca).size
        let e1 := e.tell ca
        if cbToRead = 0 then some (cbRead, e1)
        else
          playbackLoop s fuel ((cbLeft + 2 ^ 64 - cbToRead) % 2 ^ 64)
            ((cbRead + cbToRead) % 2 ^ 64)
            (e1.tell (.RTCircBufReleaseReadBlock s.pBuf cbToRead))

/-- `drvHostCoreAudioPlaybackCallback`, the realtime callback that drains the ring buffer of an
output stream into the buffer `pBufData->mBuffers[0]` of the host. -/
def drvHostCoreAudioPlaybackCallback (fuel : Nat) (s : COREAUDIOSTREAMOUT) (e : Env)
    (bufData : AudioBufferList) : Option PlaybackRes :=
  if s.status ≠ CA_STATUS_INIT then some ⟨noErr, { bufData with mDataByteSize := 0 }, e⟩
  else
    let cbUsed := (e.ask (.RTCircBufUsed s.pBuf)).size
    let e1 := e.tell (.RTCircBufUsed s.pBuf)
    let cbToRead := min cbUsed bufData.mDataByteSize
    if cbToRead = 0 then some ⟨noErr, { bufData with mDataByteSize := 0 }, e1⟩
    else
      match playbackLoop s fuel cbToRead 0 e1 with
      | none => none
      | some r => some ⟨noErr, { bufData with mDataByteSize := r.1 % 2 ^ 32 }, r.2⟩

/-- A host whose converter finds no more data: `AudioConverterFillComplexBuffer` passes on the
end-of-data sentinel of the pull callback with 0 packets; everything else succeeds. -/
def endOfDataOracle : Nat → Call → Resp := fun _ c =>
  match c with
  | .AudioConverterFillComplexBuffer _ _ => { okResp with err := caConverterEOFDErr, val := 0 }
  | _ => okResp

/-- A host on which every call succeeds, the ring buffer grants what is asked for and the
converter produces one packet when it is asked for any; the unit renders 16 bytes. -/
def renderOkOracle : Nat → Call → Resp := fun _ c =>
  match c with
  | .RTCircBufAcquireReadBlock _ cb => { okResp with val := cb }
  | .RTCircBufAcquireWriteBlock _ cb => { okResp with val := cb }
  | .AudioConverterFillComplexBuffer _ k => { okResp with val := 1, err := if k = 0 then -1 else noErr }
  | .AudioUnitRender _ _ => { okResp with val := 16 }
  | _ => okResp

/-! ## The status word as a state machine -/

/-- The bytes that the trace releases from the read side of the ring buffer: the sum of the
sizes passed to `RTCircBufReleaseReadBlock`. -/
def releasedReadBytes (log : List (Call × Resp)) : Nat :=
  (log.map (fun ev => match ev.1 with
    | .RTCircBufReleaseReadBlock _ cb => cb
    | _ => 0)).sum

/-- The byte size of the samples that the mixer buffer `m` accepted in the trace: for each
successful `AudioMixBufWriteCirc` the sample count it returned, as bytes. -/
def mixerAcceptedBytes (m : PDMAUDIOMIXBUF) (log : List (Call × Resp)) : Nat :=
  (log.map (fun ev => match ev.1 with
    | .AudioMixBufWriteCirc _ => if RT_SUCCESS ev.2.err then AUDIOMIXBUF_S2B m ev.2.u32 else 0
    | _ => 0)).sum

/-- Acquire and release of ring-buffer regions are paired in a trace: `pending` is the grant of
an acquire that is not released yet.  An acquire while a grant is pending, a release without a
pending grant, a release of more than the grant and a grant still pending at the end break the
pairing; an acquire that granted 0 bytes needs no release, and a release of 0 bytes after it is
accepted. -/
def ringPairedFrom : Option Nat → List (Call × Resp) → Bool
  | pending, [] => pending.isNone
  | pending, ev :: evs =>
    match ev.1 with
    | .RTCircBufAcquireReadBlock _ _ =>
      pending.isNone && ringPairedFrom (if ev.2.size = 0 then none else some ev.2.size) evs
    | .RTCircBufAcquireWriteBlock _ _ =>
      pending.isNone && ringPairedFrom (if ev.2.size = 0 then none else some ev.2.size) evs
    | .RTCircBufReleaseReadBlock _ cb =>
      (match pending with
        | some g => decide (cb ≤ g)
        | none => decide (cb = 0)) && ringPairedFrom none evs
    | .RTCircBufReleaseWriteBlock _ cb =>
      (match pending with
        | some g => decide (cb ≤ g)
        | none => decide (cb = 0)) && ringPairedFrom none evs
    | _ => ringPairedFrom pending evs

/-- Every region acquire of the trace that granted bytes is followed by its release. -/
def ringPaired (log : List (Call × Resp)) : Bool := ringPairedFrom none log

/-- A host whose mixer buffer is stalled: the ring buffer holds 8 bytes and grants what is asked
for, the mixer buffer has a size of 8 bytes and accepts 0 samples of a write and returns 0
samples to a read; every call succeeds. -/
def stalledMixerOracle : Nat → Call → Resp := fun _ c =>
  match c with
  | .AudioMixBufSizeBytes => { okResp with val := 8 }
  | .RTCircBufUsed _ => { okResp with val := 8 }
  | .RTCircBufAcquireReadBlock _ cb => { okResp with val := cb }
  | .RTCircBufAcquireWriteBlock _ cb => { okResp with val := cb }
  | .AudioMixBufWriteCirc _ => { okResp with val := 0 }
  | .AudioMixBufReadCirc _ => { okResp with val := 0 }
  | _ => okResp

/-- A host whose converter fails: `AudioConverterFillComplexBuffer` returns the parameter error
-50 without calling the pull callback; every other call succeeds, the unit renders 16 bytes and
the ring buffer grants what is asked for. -/
def converterFailOracle : Nat → Call → Resp := fun _ c =>
  match c with
  | .RTCircBufAcquireReadBlock _ cb => { okResp with val := cb }
  | .RTCircBufAcquireWriteBlock _ cb => { okResp with val := cb }
  | .AudioConverterFillComplexBuffer _ _ => { okResp with val := 0, err := -50 }
  | .AudioUnitRender _ _ => { okResp with val := 16 }
  | _ => okResp

/-- An input stream opened on the host of `recoveryOracle`, as `drvHostCoreAudioInitIn` leaves
it, with the world after the call. -/
def watchedOpenIn : InitRes COREAUDIOSTREAMIN :=
  drvHostCoreAudioInitIn freshStreamIn ⟨recoveryOracle, []⟩ VINF_SUCCESS props44100

/-- An output stream opened on the host of `recoveryOracle`, as `drvHostCoreAudioInitOut` leaves
it, with the world after the call. -/
def watchedOpenOut : InitRes COREAUDIOSTREAMOUT :=
  drvHostCoreAudioInitOut freshStreamOut ⟨recoveryOracle, []⟩ VINF_SUCCESS props44100

/-- The regions of the staging buffer that the pull callback hands out over a sequence of calls
with the packet counts `requests`: for each call the read offset on entry and the byte size it
stores in the buffer of the converter. -/
def pullRegions (s : COREAUDIOSTREAMIN) : List Nat → List (Nat × Nat)
  | [] => []
  | req :: rest =>
    (s.offBufferRead, (drvHostCoreAudioConverterCallback s req default).bufData.mDataByteSize)
      :: pullRegions (drvHostCoreAudioConverterCallback s req default).strm rest

/-- The sample count of `drvHostCoreAudioInitInput` before it is stored in the `UInt32`
`cSamples`, for a device with a sample rate and a requested format with a frame size. -/
def inputSamplesWide (props : PDMPCMPROPS) (cFrames : Nat) (dev : AudioStreamBasicDescription) :
    Nat :=
  max (cFrames * (drvHostCoreAudioPCMInfoToASBDesc props).mChannelsPerFrame)
    ((((cFrames * dev.mBytesPerFrame) % 2 ^ 32) * (drvHostCoreAudioPCMInfoToASBDesc props).mSampleRate
        * (drvHostCoreAudioPCMInfoToASBDesc props).mChannelsPerFrame)
      / (dev.mSampleRate * (drvHostCoreAudioPCMInfoToASBDesc props).mBytesPerFrame))

/-- What a successful block of `drvHostCoreAudioInitInput` leaves behind on the host `o` for the
requested properties `props`: the properties are kept, the stream format is the one derived from
them, the device format and the frame count are answers of the host, the sample count is the one
computed from them and not zero, and the ring buffer has the sample count shifted left by
`cShift` as its 32-bit byte size. -/
def SizedIn (o : Nat → Call → Resp) (props : PDMPCMPROPS) (b : InitBody COREAUDIOSTREAMIN) :
    Prop :=
  RT_SUCCESS b.rc →
    b.strm.Props = props
    ∧ b.strm.streamFormat = drvHostCoreAudioPCMInfoToASBDesc props
    ∧ b.cSamples ≠ 0
    ∧ b.strm.pBuf = some ⟨(b.cSamples * 2 ^ props.cShift) % 2 ^ 32⟩
    ∧ ∃ n m au au2,
        b.strm.deviceFormat = (o m (.AudioUnitGetProperty au2 .StreamFormat .Output 1)).fmt
        ∧ b.cSamples = inputSamplesFor props
            (o n (.AudioUnitGetProperty au .MaximumFramesPerSlice .Global 0)).u32
            (o m (.AudioUnitGetProperty au2 .StreamFormat .Output 1)).fmt

/-- What a successful block of `drvHostCoreAudioInitOutput` leaves behind on the host `o` for
the requested properties `props`. -/
def SizedOut (o : Nat → Call → Resp) (props : PDMPCMPROPS) (b : InitBody COREAUDIOSTREAMOUT) :
    Prop :=
  RT_SUCCESS b.rc →
    b.strm.Props = props
    ∧ b.strm.streamFormat = drvHostCoreAudioPCMInfoToASBDesc props
    ∧ b.cSamples ≠ 0
    ∧ b.strm.pBuf = some ⟨(b.cSamples * 2 ^ props.cShift) % 2 ^ 32⟩
    ∧ ∃ n au,
        b.cSamples = ((o n (.AudioUnitGetProperty au .MaximumFramesPerSlice .Global 0)).u32
          * props.cChannels) % 2 ^ 32

/-- What a successful `drvHostCoreAudioInitInput` returns on the host `o` for the requested
properties `props`: status Initialized, the stream format derived from the properties, a sample
count `c` that is not zero and is the one computed from the frame count and the device format
the host reported, and a ring buffer of `c` shifted left by `cShift` bytes, in 32 bits. -/
def SizedResIn (o : Nat → Call → Resp) (props : PDMPCMPROPS) (r : InitRes COREAUDIOSTREAMIN) :
    Prop :=
  r.strm.status = CA_STATUS_INIT
  ∧ r.strm.Props = props
  ∧ r.strm.streamFormat = drvHostCoreAudioPCMInfoToASBDesc props
  ∧ ∃ c, r.cSamples = some c ∧ c ≠ 0
    ∧ r.strm.pBuf = some ⟨(c * 2 ^ props.cShift) % 2 ^ 32⟩
    ∧ ∃ n m au au2,
        r.strm.deviceFormat = (o m (.AudioUnitGetProperty au2 .StreamFormat .Output 1)).fmt
        ∧ c = inputSamplesFor props
            (o n (.AudioUnitGetProperty au .MaximumFramesPerSlice .Global 0)).u32
            (o m (.AudioUnitGetProperty au2 .StreamFormat .Output 1)).fmt

/-- What a successful `drvHostCoreAudioInitOutput` returns on the host `o` for the requested
properties `props`. -/
def SizedResOut (o : Nat → Call → Resp) (props : PDMPCMPROPS) (r : InitRes COREAUDIOSTREAMOUT) :
    Prop :=
  r.strm.status = CA_STATUS_INIT
  ∧ r.strm.Props = props
  ∧ r.strm.streamFormat = drvHostCoreAudioPCMInfoToASBDesc props
  ∧ ∃ c, r.cSamples = some c ∧ c ≠ 0
    ∧ r.strm.pBuf = some ⟨(c * 2 ^ props.cShift) % 2 ^ 32⟩
    ∧ ∃ n au,
        c = ((o n (.AudioUnitGetProperty au .MaximumFramesPerSlice .Global 0)).u32
          * props.cChannels) % 2 ^ 32

/-- The format facts of an Initialized input stream: the stream format is the one derived from
the requested properties, which have channels, and its frame size is not zero. -/
def FormatOkIn (s : COREAUDIOSTREAMIN) : Prop :=
  s.status = CA_STATUS_INIT →
    s.streamFormat = drvHostCoreAudioPCMInfoToASBDesc s.Props
    ∧ s.Props.cChannels ≠ 0
    ∧ s.streamFormat.mBytesPerFrame ≠ 0

/-- The format facts of an Initialized output stream: the stream format is the one derived from
the requested properties, which have channels. -/
def FormatOkOut (s : COREAUDIOSTREAMOUT) : Prop :=
  s.status = CA_STATUS_INIT →
    s.streamFormat = drvHostCoreAudioPCMInfoToASBDesc s.Props
    ∧ s.Props.cChannels ≠ 0

/-- The states of an input stream that are reachable through open (on any memory), init,
control, transfer, fini and the Device Watcher callbacks, each in any world. -/
inductive ReachIn : COREAUDIOSTREAMIN → Prop
  | opened (s : COREAUDIOSTREAMIN) (e : Env) (rcCfg : Int) (props : PDMPCMPROPS) :
      ReachIn (drvHostCoreAudioInitIn s e rcCfg props).strm
  | inited {s : COREAUDIOSTREAMIN} (h : ReachIn s) (e : Env) :
      ReachIn (drvHostCoreAudioInitInput s e).strm
  | controlled {s : COREAUDIOSTREAMIN} (h : ReachIn s) (e : Env) (cmd : PDMAUDIOSTREAMCMD) :
      ReachIn (drvHostCoreAudioControlIn s e cmd).strm
  | transferred {s : COREAUDIOSTREAMIN} (h : ReachIn s) (fuel : Nat) (e : Env)
      (r : XferRes COREAUDIOSTREAMIN) (hr : drvHostCoreAudioCaptureIn fuel s e = some r) :
      ReachIn r.strm
  | finished {s : COREAUDIOSTREAMIN} (h : ReachIn s) (e : Env) :
      ReachIn (drvHostCoreAudioFiniIn s e).strm
  | watched {s : COREAUDIOSTREAMIN} (h : ReachIn s) (w : WatcherEvent) (e : Env) :
      ReachIn (watchIn w s e).strm

/-- The states of an output stream that are reachable through open (on any memory), init,
control, transfer, fini and the Device Watcher callbacks, each in any world. -/
inductive ReachOut : COREAUDIOSTREAMOUT → Prop
  | opened (s : COREAUDIOSTREAMOUT) (e : Env) (rcCfg : Int) (props : PDMPCMPROPS) :
      ReachOut (drvHostCoreAudioInitOut s e rcCfg props).strm
  | inited {s : COREAUDIOSTREAMOUT} (h : ReachOut s) (e : Env) :
      ReachOut (drvHostCoreAudioInitOutput s e).strm
  | controlled {s : COREAUDIOSTREAMOUT} (h : ReachOut s) (e : Env) (cmd : PDMAUDIOSTREAMCMD) :
      ReachOut (drvHostCoreAudioControlOut s e cmd).strm
  | transferred {s : COREAUDIOSTREAMOUT} (h : ReachOut s) (fuel : Nat) (e : Env)
      (r : XferRes COREAUDIOSTREAMOUT) (hr : drvHostCoreAudioPlayOut fuel s e = some r) :
      ReachOut r.strm
  | finished {s : COREAUDIOSTREAMOUT} (h : ReachOut s) (e : Env) :
      ReachOut (drvHostCoreAudioFiniOut s e).strm
  | watched {s : COREAUDIOSTREAMOUT} (h : ReachOut s) (w : WatcherEvent) (e : Env) :
      ReachOut (watchOut w s e).strm

/-- A host that refuses to switch the I/O mode of the audio unit and reports the device as no
longer alive; everything else succeeds. -/
def deadOnOpenOracle : Nat → Call → Resp := fun _ c =>
  match c with
  | .AudioUnitSetProperty _ .EnableInOut _ _ _ => { okResp with err := -1 }
  | .GetDeviceIsAlive _ => { okResp with val := 0 }
  | _ => okResp

/-! # Theorems -/

/-! ## Control and teardown: general facts -/

/-- `drvHostCoreAudioControlIn` never writes to the stream. -/
theorem controlIn_strm (s : COREAUDIOSTREAMIN) (e : Env) (cmd : PDMAUDIOSTREAMCMD) :
    (drvHostCoreAudioControlIn s e cmd).strm = s := by
  unfold drvHostCoreAudioControlIn
  cases cmd <;> dsimp only <;> split_ifs <;> rfl

/-- `drvHostCoreAudioControlOut` never writes to the stream. -/
theorem controlOut_strm (s : COREAUDIOSTREAMOUT) (e : Env) (cmd : PDMAUDIOSTREAMCMD) :
    (drvHostCoreAudioControlOut s e cmd).strm = s := by
  unfold drvHostCoreAudioControlOut
  cases cmd <;> dsimp only <;> split_ifs <;> rfl

/-- Every status `drvHostCoreAudioControlIn` returns. -/
theorem controlIn_rc (s : COREAUDIOSTREAMIN) (e : Env) (cmd : PDMAUDIOSTREAMCMD) :
    (drvHostCoreAudioControlIn s e cmd).rc = VINF_SUCCESS
      ∨ (drvHostCoreAudioControlIn s e cmd).rc = VERR_GENERAL_FAILURE
      ∨ (drvHostCoreAudioControlIn s e cmd).rc = VERR_NOT_SUPPORTED := by
  unfold drvHostCoreAudioControlIn
  cases cmd <;> dsimp only <;> split_ifs <;> simp

/-- Every status `drvHostCoreAudioControlOut` returns. -/
theorem controlOut_rc (s : COREAUDIOSTREAMOUT) (e : Env) (cmd : PDMAUDIOSTREAMCMD) :
    (drvHostCoreAudioControlOut s e cmd).rc = VINF_SUCCESS
      ∨ (drvHostCoreAudioControlOut s e cmd).rc = VERR_GENERAL_FAILURE
      ∨ (drvHostCoreAudioControlOut s e cmd).rc = VERR_NOT_SUPPORTED := by
  unfold drvHostCoreAudioControlOut
  cases cmd <;> dsimp only <;> split_ifs <;> simp

/-- Of the three statuses of control only `VINF_SUCCESS` is a success. -/
theorem control_rc_success {rc : Int} (h0 : RT_SUCCESS rc)
    (h : rc = VINF_SUCCESS ∨ rc = VERR_GENERAL_FAILURE ∨ rc = VERR_NOT_SUPPORTED) :
    rc = VINF_SUCCESS := by
  rcases h with h | h | h
  · exact h
  · rw [h] at h0; exact absurd h0 (by decide)
  · rw [h] at h0; exact absurd h0 (by decide)

/-- `control(Enable)` on an active input stream whose device is reported running: one query. -/
theorem controlIn_enable_running (s : COREAUDIOSTREAMIN) (e : Env)
    (hs : s.status = CA_STATUS_INIT ∨ s.status = CA_STATUS_REINIT)
    (hrun : (drvHostCoreAudioIsRunning e s.deviceID).1 = true) :
    drvHostCoreAudioControlIn s e .ENABLE
      = ⟨VINF_SUCCESS, s, e.tell (.GetDeviceIsRunning s.deviceID)⟩ := by
  unfold drvHostCoreAudioControlIn
  rw [if_neg (not_not.mpr hs)]
  dsimp only
  rw [if_neg (by simp [hrun])]
  rfl

/-- `control(Enable)` on an active output stream whose device is reported running: one query. -/
theorem controlOut_enable_running (s : COREAUDIOSTREAMOUT) (e : Env)
    (hs : s.status = CA_STATUS_INIT ∨ s.status = CA_STATUS_REINIT)
    (hrun : (drvHostCoreAudioIsRunning e s.deviceID).1 = true) :
    drvHostCoreAudioControlOut s e .ENABLE
      = ⟨VINF_SUCCESS, s, e.tell (.GetDeviceIsRunning s.deviceID)⟩ := by
  unfold drvHostCoreAudioControlOut
  rw [if_neg (not_not.mpr hs)]
  dsimp only
  rw [if_neg (by simp [hrun])]
  rfl

/-- The stream after the teardown of `drvHostCoreAudioFiniIn`. -/
theorem finiInTeardown_post (s : COREAUDIOSTREAMIN) (e : Env) :
    (finiInTeardown s e).1.status = CA_STATUS_UNINIT
      ∧ (finiInTeardown s e).1.deviceID = kAudioDeviceUnknown
      ∧ (finiInTeardown s e).1.pBuf = none
      ∧ (finiInTeardown s e).1.pConverter = none
      ∧ (finiInTeardown s e).1.audioUnit = none
      ∧ (finiInTeardown s e).1.fDefDevChgListReg = false
      ∧ (finiInTeardown s e).1.fDevStateChgListReg = false := by
  unfold finiInTeardown
  cases h1 : s.fDefDevChgListReg <;> cases h2 : s.fDevStateChgListReg
    <;> cases h3 : s.pConverter <;> cases h4 : s.pBuf <;> simp [h1, h2, h3, h4]

/-- The stream after the teardown of `drvHostCoreAudioFiniOut`. -/
theorem finiOutTeardown_post (s : COREAUDIOSTREAMOUT) (e : Env) :
    (finiOutTeardown s e).1.status = CA_STATUS_UNINIT
      ∧ (finiOutTeardown s e).1.deviceID = kAudioDeviceUnknown
      ∧ (finiOutTeardown s e).1.pBuf = none
      ∧ (finiOutTeardown s e).1.audioUnit = none
      ∧ (finiOutTeardown s e).1.fDefDevChgListReg = false
      ∧ (finiOutTeardown s e).1.fDevStateChgListReg = false := by
  unfold finiOutTeardown
  cases h1 : s.fDefDevChgListReg <;> cases h2 : s.fDevStateChgListReg
    <;> cases h4 : s.pBuf <;> simp [h1, h2, h4]

/-- `drvHostCoreAudioFiniIn` behind a closed status gate. -/
theorem finiIn_gated (s : COREAUDIOSTREAMIN) (e : Env)
    (hg : ¬ (s.status = CA_STATUS_INIT ∨ s.status = CA_STATUS_REINIT)) :
    drvHostCoreAudioFiniIn s e = ⟨VINF_SUCCESS, s, e⟩ := by
  unfold drvHostCoreAudioFiniIn
  rw [if_pos hg]

/-- `drvHostCoreAudioFiniIn` after a successful `control(Disable)`. -/
theorem finiIn_ok (s : COREAUDIOSTREAMIN) (e : Env)
    (hg : s.status = CA_STATUS_INIT ∨ s.status = CA_STATUS_REINIT)
    (hc : RT_SUCCESS (drvHostCoreAudioControlIn s e .DISABLE).rc) :
    drvHostCoreAudioFiniIn s e
      = ⟨(drvHostCoreAudioControlIn s e .DISABLE).rc,
          (finiInTeardown s (drvHostCoreAudioControlIn s e .DISABLE).env).1,
          (finiInTeardown s (drvHostCoreAudioControlIn s e .DISABLE).env).2⟩ := by
  unfold drvHostCoreAudioFiniIn
  rw [if_neg (not_not.mpr hg)]
  dsimp only
  rw [if_pos hc, controlIn_strm]

/-- `drvHostCoreAudioFiniIn` after a failed `control(Disable)`. -/
theorem finiIn_fail (s : COREAUDIOSTREAMIN) (e : Env)
    (hg : s.status = CA_STATUS_INIT ∨ s.status = CA_STATUS_REINIT)
    (hc : ¬ RT_SUCCESS (drvHostCoreAudioControlIn s e .DISABLE).rc) :
    drvHostCoreAudioFiniIn s e
      = ⟨VERR_GENERAL_FAILURE, s, (drvHostCoreAudioControlIn s e .DISABLE).env⟩ := by
  unfold drvHostCoreAudioFiniIn
  rw [if_neg (not_not.mpr hg)]
  dsimp only
  rw [if_neg hc, controlIn_strm]

/-- `drvHostCoreAudioFiniOut` behind a closed status gate. -/
theorem finiOut_gated (s : COREAUDIOSTREAMOUT) (e : Env)
    (hg : ¬ (s.status = CA_STATUS_INIT ∨ s.status = CA_STATUS_REINIT)) :
    drvHostCoreAudioFiniOut s e = ⟨VINF_SUCCESS, s, e⟩ := by
  unfold drvHostCoreAudioFiniOut
  rw [if_pos hg]

/-- `drvHostCoreAudioFiniOut` after a successful `control(Disable)`. -/
theorem finiOut_ok (s : COREAUDIOSTREAMOUT) (e : Env)
    (hg : s.status = CA_STATUS_INIT ∨ s.status = CA_STATUS_REINIT)
    (hc : RT_SUCCESS (drvHostCoreAudioControlOut s e .DISABLE).rc) :
    drvHostCoreAudioFiniOut s e
      = ⟨(drvHostCoreAudioControlOut s e .DISABLE).rc,
          (finiOutTeardown s (drvHostCoreAudioControlOut s e .DISABLE).env).1,
          (finiOutTeardown s (drvHostCoreAudioControlOut s e .DISABLE).env).2⟩ := by
  unfold drvHostCoreAudioFiniOut
  rw [if_neg (not_not.mpr hg)]
  dsimp only
  rw [if_pos hc, controlOut_strm]

/-- `drvHostCoreAudioFiniOut` after a failed `control(Disable)`. -/
theorem finiOut_fail (s : COREAUDIOSTREAMOUT) (e : Env)
    (hg : s.status = CA_STATUS_INIT ∨ s.status = CA_STATUS_REINIT)
    (hc : ¬ RT_SUCCESS (drvHostCoreAudioControlOut s e .DISABLE).rc) :
    drvHostCoreAudioFiniOut s e
      = ⟨(drvHostCoreAudioControlOut s e .DISABLE).rc, s,
          (drvHostCoreAudioControlOut s e .DISABLE).env⟩ := by
  unfold drvHostCoreAudioFiniOut
  rw [if_neg (not_not.mpr hg)]
  dsimp only
  rw [if_neg hc, controlOut_strm]

/-! ## The trace of teardown -/

/-- The trace between two worlds, when the later log is the earlier one extended. -/
theorem Env.since_of_log (e0 e1 : Env) (evs : List (Call × Resp)) (h : e1.log = e0.log ++ evs) :
    e0.since e1 = evs := by
  unfold Env.since
  rw [h, List.drop_left]

/-- After a failed block the epilogue leaves `CA_STATUS_UNINIT` and no ring buffer. -/
theorem initInputEpilogue_fail (b : InitBody COREAUDIOSTREAMIN) (h : RT_FAILURE b.rc) :
    (initInputEpilogue b).strm.status = CA_STATUS_UNINIT
      ∧ (initInputEpilogue b).strm.pBuf = none := by
  unfold initInputEpilogue
  rw [if_neg (not_le.mpr h)]
  cases hb : b.strm.pBuf <;> simp [hb]

/-- The epilogue returns the status of the block. -/
theorem initInputEpilogue_rc (b : InitBody COREAUDIOSTREAMIN) :
    (initInputEpilogue b).rc = b.rc := by
  unfold initInputEpilogue
  split_ifs <;> rfl

/-- After a failed block the epilogue leaves `CA_STATUS_UNINIT` and no ring buffer. -/
theorem initOutputEpilogue_fail (b : InitBody COREAUDIOSTREAMOUT) (h : RT_FAILURE b.rc) :
    (initOutputEpilogue b).strm.status = CA_STATUS_UNINIT
      ∧ (initOutputEpilogue b).strm.pBuf = none := by
  unfold initOutputEpilogue
  rw [if_neg (not_le.mpr h)]
  cases hb : b.strm.pBuf <;> simp [hb]

/-- The epilogue returns the status of the block. -/
theorem initOutputEpilogue_rc (b : InitBody COREAUDIOSTREAMOUT) :
    (initOutputEpilogue b).rc = b.rc := by
  unfold initOutputEpilogue
  split_ifs <;> rfl

/-- A failed `drvHostCoreAudioInitInput` on an uninitialized stream without ring buffer. -/
theorem initInput_fail (s : COREAUDIOSTREAMIN) (e : Env)
    (hs : s.status = CA_STATUS_UNINIT) (hb : s.pBuf = none)
    (hf : RT_FAILURE (drvHostCoreAudioInitInput s e).rc) :
    (drvHostCoreAudioInitInput s e).strm.status = CA_STATUS_UNINIT
      ∧ (drvHostCoreAudioInitInput s e).strm.pBuf = none := by
  unfold drvHostCoreAudioInitInput initInputWithDevice at hf ⊢
  dsimp only at hf ⊢
  split_ifs at hf ⊢ <;>
    first
      | exact ⟨hs, hb⟩
      | exact initInputEpilogue_fail _ (by rw [initInputEpilogue_rc] at hf; exact hf)

/-- A failed `drvHostCoreAudioInitOutput` on an uninitialized stream without ring buffer. -/
theorem initOutput_fail (s : COREAUDIOSTREAMOUT) (e : Env)
    (hs : s.status = CA_STATUS_UNINIT) (hb : s.pBuf = none)
    (hf : RT_FAILURE (drvHostCoreAudioInitOutput s e).rc) :
    (drvHostCoreAudioInitOutput s e).strm.status = CA_STATUS_UNINIT
      ∧ (drvHostCoreAudioInitOutput s e).strm.pBuf = none := by
  unfold drvHostCoreAudioInitOutput initOutputWithDevice at hf ⊢
  dsimp only at hf ⊢
  split_ifs at hf ⊢ <;>
    first
      | exact ⟨hs, hb⟩
      | exact initOutputEpilogue_fail _ (by rw [initOutputEpilogue_rc] at hf; exact hf)

/-! ## Claims about control, teardown and failed init -/

/-- C1 (state-gated transfer), evaluated where the code departs from it: an output stream with
status Uninitialized and no ring buffer, while the mixer buffer holds 4 live samples.
`drvHostCoreAudioPlayOut` has no status gate; it returns success and reports 0 samples, but only
after it has called `RTCircBufFree` on the absent ring buffer. -/
theorem playOut_uninit_calls_ring_buffer :
    freshStreamOut.status = CA_STATUS_UNINIT ∧ freshStreamOut.pBuf = none
    ∧ (drvHostCoreAudioPlayOut 0 freshStreamOut ⟨liveMixerOracle, []⟩).map
        (fun r => (r.rc, r.cSamples, r.env.log.map Prod.fst))
      = some (VINF_SUCCESS, some 0,
          [Call.AudioMixBufAvail, Call.AudioMixBufAvail, Call.RTCircBufFree none]) := by
  decide

/-- C3 (idempotent Enable): on a stream with status Initialized or Reinitializing, in both
directions, when a first control(Enable) succeeded and the host then reports the device as
running, a second control(Enable) returns success, leaves the stream as it was, and its whole
effect on the world is the one query whether the device is running: no native start call, no
reset of the ring buffer. -/
theorem control_enable_idempotent (sIn : COREAUDIOSTREAMIN) (sOut : COREAUDIOSTREAMOUT)
    (eIn eOut : Env)
    (hsIn : sIn.status = CA_STATUS_INIT ∨ sIn.status = CA_STATUS_REINIT)
    (hsOut : sOut.status = CA_STATUS_INIT ∨ sOut.status = CA_STATUS_REINIT)
    (_h1In : RT_SUCCESS (drvHostCoreAudioControlIn sIn eIn .ENABLE).rc)
    (_h1Out : RT_SUCCESS (drvHostCoreAudioControlOut sOut eOut .ENABLE).rc)
    (hrunIn : (drvHostCoreAudioIsRunning (drvHostCoreAudioControlIn sIn eIn .ENABLE).env
                sIn.deviceID).1 = true)
    (hrunOut : (drvHostCoreAudioIsRunning (drvHostCoreAudioControlOut sOut eOut .ENABLE).env
                sOut.deviceID).1 = true) :
    (drvHostCoreAudioControlIn (drvHostCoreAudioControlIn sIn eIn .ENABLE).strm
        (drvHostCoreAudioControlIn sIn eIn .ENABLE).env .ENABLE
      = ⟨VINF_SUCCESS, (drvHostCoreAudioControlIn sIn eIn .ENABLE).strm,
          (drvHostCoreAudioControlIn sIn eIn .ENABLE).env.tell
            (.GetDeviceIsRunning sIn.deviceID)⟩)
    ∧ (drvHostCoreAudioControlOut (drvHostCoreAudioControlOut sOut eOut .ENABLE).strm
        (drvHostCoreAudioControlOut sOut eOut .ENABLE).env .ENABLE
      = ⟨VINF_SUCCESS, (drvHostCoreAudioControlOut sOut eOut .ENABLE).strm,
          (drvHostCoreAudioControlOut sOut eOut .ENABLE).env.tell
            (.GetDeviceIsRunning sOut.deviceID)⟩) := by
  constructor
  · rw [controlIn_strm]
    exact controlIn_enable_running sIn _ hsIn hrunIn
  · rw [controlOut_strm]
    exact controlOut_enable_running sOut _ hsOut hrunOut

/-- Witness for C3: a device that is started by the first Enable and reported running after. -/
theorem control_enable_idempotent_witness :
    (activeStreamIn.status = CA_STATUS_INIT ∨ activeStreamIn.status = CA_STATUS_REINIT)
    ∧ (drvHostCoreAudioControlIn activeStreamIn ⟨startingOracle, []⟩ .ENABLE).env.log.map Prod.fst
        = [Call.GetDeviceIsRunning 512, Call.RTCircBufReset (some ⟨4096⟩),
           Call.AudioOutputUnitStart (some 512)]
    ∧ (drvHostCoreAudioControlIn
          (drvHostCoreAudioControlIn activeStreamIn ⟨startingOracle, []⟩ .ENABLE).strm
          (drvHostCoreAudioControlIn activeStreamIn ⟨startingOracle, []⟩ .ENABLE).env .ENABLE
        = ⟨VINF_SUCCESS, (drvHostCoreAudioControlIn activeStreamIn ⟨startingOracle, []⟩ .ENABLE).strm,
            (drvHostCoreAudioControlIn activeStreamIn ⟨startingOracle, []⟩ .ENABLE).env.tell
              (.GetDeviceIsRunning activeStreamIn.deviceID)⟩) :=
  ⟨by decide, by decide,
    (control_enable_idempotent activeStreamIn activeStreamOut ⟨startingOracle, []⟩
      ⟨startingOracle, []⟩ (by decide) (by decide) (by decide) (by decide) (by decide)
      (by decide)).1⟩

/-- C4 (state gating of control and fini): on a stream whose status is neither Initialized nor
Reinitializing, in both directions and for every command value, control and fini return success,
make no call at all and leave every field of the stream unchanged. -/
theorem control_fini_gated (sIn : COREAUDIOSTREAMIN) (sOut : COREAUDIOSTREAMOUT) (eIn eOut : Env)
    (cmd : PDMAUDIOSTREAMCMD)
    (hIn : sIn.status ≠ CA_STATUS_INIT ∧ sIn.status ≠ CA_STATUS_REINIT)
    (hOut : sOut.status ≠ CA_STATUS_INIT ∧ sOut.status ≠ CA_STATUS_REINIT) :
    drvHostCoreAudioControlIn sIn eIn cmd = ⟨VINF_SUCCESS, sIn, eIn⟩
    ∧ drvHostCoreAudioControlOut sOut eOut cmd = ⟨VINF_SUCCESS, sOut, eOut⟩
    ∧ drvHostCoreAudioFiniIn sIn eIn = ⟨VINF_SUCCESS, sIn, eIn⟩
    ∧ drvHostCoreAudioFiniOut sOut eOut = ⟨VINF_SUCCESS, sOut, eOut⟩ := by
  obtain ⟨h1, h2⟩ := hIn
  obtain ⟨h3, h4⟩ := hOut
  refine ⟨?_, ?_, ?_, ?_⟩
  · simp [drvHostCoreAudioControlIn, h1, h2]
  · simp [drvHostCoreAudioControlOut, h3, h4]
  · simp [drvHostCoreAudioFiniIn, h1, h2]
  · simp [drvHostCoreAudioFiniOut, h3, h4]

/-- Witness for C4: uninitialized streams and a command outside Enable/Disable/Pause/Resume. -/
theorem control_fini_gated_witness :
    (freshStreamIn.status ≠ CA_STATUS_INIT ∧ freshStreamIn.status ≠ CA_STATUS_REINIT)
    ∧ drvHostCoreAudioControlIn freshStreamIn ⟨okOracle, []⟩ (.OTHER 7)
        = ⟨VINF_SUCCESS, freshStreamIn, ⟨okOracle, []⟩⟩
    ∧ drvHostCoreAudioFiniOut freshStreamOut ⟨okOracle, []⟩
        = ⟨VINF_SUCCESS, freshStreamOut, ⟨okOracle, []⟩⟩ :=
  ⟨by decide,
    (control_fini_gated freshStreamIn freshStreamOut ⟨okOracle, []⟩ ⟨okOracle, []⟩ (.OTHER 7)
      (by decide) (by decide)).1,
    (control_fini_gated freshStreamIn freshStreamOut ⟨okOracle, []⟩ ⟨okOracle, []⟩ (.OTHER 7)
      (by decide) (by decide)).2.2.2⟩

/-- C5 (fini postcondition): on a stream with status Initialized or Reinitializing on which the
internal control(Disable) succeeds, fini returns success and leaves the status Uninitialized, the
device id `kAudioDeviceUnknown`, no ring buffer, no converter (input) and both listener flags
false, whatever the host answers to the listener removals and to uninitialising and closing the
audio unit. -/
theorem fini_postcondition (sIn : COREAUDIOSTREAMIN) (sOut : COREAUDIOSTREAMOUT) (eIn eOut : Env)
    (hsIn : sIn.status = CA_STATUS_INIT ∨ sIn.status = CA_STATUS_REINIT)
    (hsOut : sOut.status = CA_STATUS_INIT ∨ sOut.status = CA_STATUS_REINIT)
    (hcIn : RT_SUCCESS (drvHostCoreAudioControlIn sIn eIn .DISABLE).rc)
    (hcOut : RT_SUCCESS (drvHostCoreAudioControlOut sOut eOut .DISABLE).rc) :
    ((drvHostCoreAudioFiniIn sIn eIn).rc = VINF_SUCCESS
      ∧ (drvHostCoreAudioFiniIn sIn eIn).strm.status = CA_STATUS_UNINIT
      ∧ (drvHostCoreAudioFiniIn sIn eIn).strm.deviceID = kAudioDeviceUnknown
      ∧ (drvHostCoreAudioFiniIn sIn eIn).strm.pBuf = none
      ∧ (drvHostCoreAudioFiniIn sIn eIn).strm.pConverter = none
      ∧ (drvHostCoreAudioFiniIn sIn eIn).strm.fDefDevChgListReg = false
      ∧ (drvHostCoreAudioFiniIn sIn eIn).strm.fDevStateChgListReg = false)
    ∧ ((drvHostCoreAudioFiniOut sOut eOut).rc = VINF_SUCCESS
      ∧ (drvHostCoreAudioFiniOut sOut eOut).strm.status = CA_STATUS_UNINIT
      ∧ (drvHostCoreAudioFiniOut sOut eOut).strm.deviceID = kAudioDeviceUnknown
      ∧ (drvHostCoreAudioFiniOut sOut eOut).strm.pBuf = none
      ∧ (drvHostCoreAudioFiniOut sOut eOut).strm.fDefDevChgListReg = false
      ∧ (drvHostCoreAudioFiniOut sOut eOut).strm.fDevStateChgListReg = false) := by
  constructor
  · rw [finiIn_ok sIn eIn hsIn hcIn]
    obtain ⟨a, b, c, d, _, f, g⟩ :=
      finiInTeardown_post sIn (drvHostCoreAudioControlIn sIn eIn .DISABLE).env
    exact ⟨control_rc_success hcIn (controlIn_rc _ _ _), a, b, c, d, f, g⟩
  · rw [finiOut_ok sOut eOut hsOut hcOut]
    obtain ⟨a, b, c, _, f, g⟩ :=
      finiOutTeardown_post sOut (drvHostCoreAudioControlOut sOut eOut .DISABLE).env
    exact ⟨control_rc_success hcOut (controlOut_rc _ _ _), a, b, c, f, g⟩

/-- Witness for C5: initialized streams on a host on which every call succeeds. -/
theorem fini_postcondition_witness :
    (activeStreamIn.status = CA_STATUS_INIT ∨ activeStreamIn.status = CA_STATUS_REINIT)
    ∧ RT_SUCCESS (drvHostCoreAudioControlIn activeStreamIn ⟨okOracle, []⟩ .DISABLE).rc
    ∧ (drvHostCoreAudioFiniIn activeStreamIn ⟨okOracle, []⟩).strm.status = CA_STATUS_UNINIT
    ∧ (drvHostCoreAudioFiniOut activeStreamOut ⟨okOracle, []⟩).strm.pBuf = none :=
  ⟨by decide, by decide,
    (fini_postcondition activeStreamIn activeStreamOut ⟨okOracle, []⟩ ⟨okOracle, []⟩
      (by decide) (by decide) (by decide) (by decide)).1.2.1,
    (fini_postcondition activeStreamIn activeStreamOut ⟨okOracle, []⟩ ⟨okOracle, []⟩
      (by decide) (by decide) (by decide) (by decide)).2.2.2.2.1⟩

/-- C7 (failed init ends Uninitialized): for an init call, in either direction, on a stream whose
status is Uninitialized (such a stream holds no ring buffer), whatever step fails, when init
returns a failure code the status on return is Uninitialized and the stream holds no ring
buffer. -/
theorem init_failure_ends_uninit (sIn : COREAUDIOSTREAMIN) (sOut : COREAUDIOSTREAMOUT)
    (eIn eOut : Env)
    (hsIn : sIn.status = CA_STATUS_UNINIT) (hbIn : sIn.pBuf = none)
    (hsOut : sOut.status = CA_STATUS_UNINIT) (hbOut : sOut.pBuf = none)
    (hfIn : RT_FAILURE (drvHostCoreAudioInitInput sIn eIn).rc)
    (hfOut : RT_FAILURE (drvHostCoreAudioInitOutput sOut eOut).rc) :
    ((drvHostCoreAudioInitInput sIn eIn).strm.status = CA_STATUS_UNINIT
      ∧ (drvHostCoreAudioInitInput sIn eIn).strm.pBuf = none)
    ∧ ((drvHostCoreAudioInitOutput sOut eOut).strm.status = CA_STATUS_UNINIT
      ∧ (drvHostCoreAudioInitOutput sOut eOut).strm.pBuf = none) :=
  ⟨initInput_fail sIn eIn hsIn hbIn hfIn, initOutput_fail sOut eOut hsOut hbOut hfOut⟩

/-- Witness for C7: init on a host that refuses to switch the I/O mode of the audio unit. -/
theorem init_failure_ends_uninit_witness :
    freshStreamIn.status = CA_STATUS_UNINIT ∧ freshStreamIn.pBuf = none
    ∧ (drvHostCoreAudioInitInput freshStreamIn ⟨enableFailOracle, []⟩).rc
        = VERR_AUDIO_BACKEND_INIT_FAILED
    ∧ (drvHostCoreAudioInitOutput freshStreamOut ⟨enableFailOracle, []⟩).rc
        = VERR_AUDIO_BACKEND_INIT_FAILED
    ∧ ((drvHostCoreAudioInitInput freshStreamIn ⟨enableFailOracle, []⟩).strm.status
          = CA_STATUS_UNINIT
        ∧ (drvHostCoreAudioInitInput freshStreamIn ⟨enableFailOracle, []⟩).strm.pBuf = none) :=
  ⟨by decide, by decide, by decide, by decide,
    (init_failure_ends_uninit freshStreamIn freshStreamOut ⟨enableFailOracle, []⟩
      ⟨enableFailOracle, []⟩ (by decide) (by decide) (by decide) (by decide) (by decide)
      (by decide)).1⟩

/-- C8 (no resources leaked by a failed open), evaluated where the code departs from it: an input
stream is opened on a host that opens the audio unit and then refuses to switch its I/O mode.
The open fails; after the close that follows, one audio unit component is still open and two
property listeners are still registered, where there were none before. -/
theorem failed_open_leaks_resources :
    RT_FAILURE
      (drvHostCoreAudioInitIn freshStreamIn ⟨enableFailOracle, []⟩ VINF_SUCCESS props44100).rc
    ∧ openAudioUnits [] = 0 ∧ registeredListeners [] = []
    ∧ openAudioUnits
        (drvHostCoreAudioFiniIn
          (drvHostCoreAudioInitIn freshStreamIn ⟨enableFailOracle, []⟩ VINF_SUCCESS props44100).strm
          (drvHostCoreAudioInitIn freshStreamIn ⟨enableFailOracle, []⟩ VINF_SUCCESS props44100).env
        ).env.log = 1
    ∧ registeredListeners
        (drvHostCoreAudioFiniIn
          (drvHostCoreAudioInitIn freshStreamIn ⟨enableFailOracle, []⟩ VINF_SUCCESS props44100).strm
          (drvHostCoreAudioInitIn freshStreamIn ⟨enableFailOracle, []⟩ VINF_SUCCESS props44100).env
        ).env.log
      = [⟨kAudioObjectSystemObject, .DefaultInputDevice, .DefaultDeviceChanged, .pCbCtx⟩,
         ⟨512, .DeviceIsAlive, .DeviceStateChanged, .pCbCtx⟩] := by
  decide

/-! ## Traces and success paths of init and transfer -/


/-- Nothing added. -/
theorem Env.Adds.refl (P : Call → Prop) (e : Env) : Env.Adds P e e :=
  ⟨rfl, [], by simp, by simp⟩

/-- One more call that satisfies the predicate. -/
theorem Env.Adds.tell {P : Call → Prop} {e0 e1 : Env} (c : Call) (hc : P c)
    (h : Env.Adds P e0 e1) : Env.Adds P e0 (e1.tell c) := by
  obtain ⟨ho, evs, hl, hp⟩ := h
  refine ⟨ho, evs ++ [(c, e1.ask c)], ?_, ?_⟩
  · simp [Env.tell_log, hl, Env.ask]
  · intro x hx
    rcases List.mem_append.mp hx with h | h
    · exact hp x h
    · simp at h; rw [h]; exact hc

/-- A conditional world. -/
theorem Env.Adds.ite {P : Call → Prop} {e0 : Env} (p : Prop) [Decidable p] (a b : Env)
    (ha : Env.Adds P e0 a) (hb : Env.Adds P e0 b) : Env.Adds P e0 (if p then a else b) := by
  split_ifs <;> assumption

/-- A weaker predicate on the added calls. -/
theorem Env.Adds.mono {P Q : Call → Prop} {e0 e1 : Env} (hpq : ∀ c, P c → Q c)
    (h : Env.Adds P e0 e1) : Env.Adds Q e0 e1 := by
  obtain ⟨ho, evs, hl, hp⟩ := h
  exact ⟨ho, evs, hl, fun x hx => hpq _ (hp x hx)⟩

/-- The calls recorded between the two worlds satisfy the predicate. -/
theorem Env.Adds.since {P : Call → Prop} {e0 e1 : Env} (h : Env.Adds P e0 e1) :
    ∀ x ∈ e0.since e1, P x.1 := by
  obtain ⟨_, evs, hl, hp⟩ := h
  rw [Env.since_of_log _ _ evs hl]
  exact hp

/-- Every call is some call. -/
theorem notConverterNew_any (c : Call) (_h : notConverterNew c) : anyCall c := trivial

/-- `drvHostCoreAudioCFStringToCString` creates no converter. -/
theorem cfString_adds (e0 e : Env) (h : Env.Adds notConverterNew e0 e) :
    Env.Adds notConverterNew e0 (drvHostCoreAudioCFStringToCString e).2 := by
  unfold drvHostCoreAudioCFStringToCString
  exact Env.Adds.tell _ rfl h

/-- The name block creates no converter. -/
theorem initLogDeviceName_adds (e0 e : Env) (deviceID : Nat)
    (h : Env.Adds notConverterNew e0 e) :
    Env.Adds notConverterNew e0 (initLogDeviceName e deviceID) := by
  unfold initLogDeviceName
  dsimp only
  split_ifs <;>
    apply_rules [Env.Adds.tell, Env.Adds.ite, cfString_adds, h]

/-- `drvHostCoreAudioSetFrameBufferSize` creates no converter. -/
theorem setFrameBufferSize_adds (e0 e : Env) (deviceID : Nat) (fInput : Bool) (cReqSize : Nat)
    (h : Env.Adds notConverterNew e0 e) :
    Env.Adds notConverterNew e0 (drvHostCoreAudioSetFrameBufferSize e deviceID fInput cReqSize).2.2 := by
  unfold drvHostCoreAudioSetFrameBufferSize
  dsimp only
  split_ifs <;>
    apply_rules [Env.Adds.tell, Env.Adds.ite, h]

/-- The last part of the output block creates no converter. -/
theorem initOutputFinish_adds (s : COREAUDIOSTREAMOUT) (e0 e : Env) (cFrames : Nat)
    (h : Env.Adds notConverterNew e0 e) :
    Env.Adds notConverterNew e0 (initOutputFinish s e cFrames).env := by
  unfold initOutputFinish
  dsimp only
  split_ifs <;>
    ((try dsimp only); apply_rules [Env.Adds.tell, Env.Adds.ite, h])

/-- The unit configuration of the output block creates no converter. -/
theorem initOutputUnit_adds (s : COREAUDIOSTREAMOUT) (e0 e : Env) (cFrames : Nat)
    (h : Env.Adds notConverterNew e0 e) :
    Env.Adds notConverterNew e0 (initOutputUnit s e cFrames).env := by
  unfold initOutputUnit
  dsimp only
  split_ifs <;>
    ((try dsimp only); apply_rules [Env.Adds.tell, Env.Adds.ite, initOutputFinish_adds, h])

/-- The output block creates no converter. -/
theorem initOutputBody_adds (s : COREAUDIOSTREAMOUT) (e0 e : Env) (deviceID : Nat)
    (h : Env.Adds notConverterNew e0 e) :
    Env.Adds notConverterNew e0 (initOutputBody s e deviceID).env := by
  unfold initOutputBody
  dsimp only
  split_ifs <;>
    ((try dsimp only); apply_rules [Env.Adds.tell, Env.Adds.ite, initOutputUnit_adds,
      setFrameBufferSize_adds, initLogDeviceName_adds, h])

/-- The output epilogue creates no converter. -/
theorem initOutputEpilogue_adds (b : InitBody COREAUDIOSTREAMOUT) (e0 : Env)
    (h : Env.Adds notConverterNew e0 b.env) :
    Env.Adds notConverterNew e0 (initOutputEpilogue b).env := by
  unfold initOutputEpilogue
  dsimp only
  split_ifs <;>
    ((try dsimp only); apply_rules [Env.Adds.tell, Env.Adds.ite, h])

/-- `drvHostCoreAudioInitOutput` creates no converter and keeps the oracle. -/
theorem initOutput_adds (s : COREAUDIOSTREAMOUT) (e0 e : Env)
    (h : Env.Adds notConverterNew e0 e) :
    Env.Adds notConverterNew e0 (drvHostCoreAudioInitOutput s e).env := by
  unfold drvHostCoreAudioInitOutput initOutputWithDevice
  dsimp only
  split_ifs <;>
    ((try dsimp only); apply_rules [Env.Adds.tell, Env.Adds.ite, initOutputEpilogue_adds,
      initOutputBody_adds, h])

/-- A conditional call keeps the oracle. -/
theorem Env.oracle_ite_tell (p : Prop) [Decidable p] (e : Env) (c : Call) :
    (if p then e.tell c else e).oracle = e.oracle := by
  split_ifs <;> rfl

/-- The name block keeps the oracle. -/
theorem initLogDeviceName_oracle (e : Env) (deviceID : Nat) :
    (initLogDeviceName e deviceID).oracle = e.oracle :=
  (initLogDeviceName_adds e e deviceID (Env.Adds.refl _ e)).1

/-- `drvHostCoreAudioSetFrameBufferSize` keeps the oracle. -/
theorem setFrameBufferSize_oracle (e : Env) (deviceID : Nat) (fInput : Bool) (cReqSize : Nat) :
    (drvHostCoreAudioSetFrameBufferSize e deviceID fInput cReqSize).2.2.oracle = e.oracle :=
  (setFrameBufferSize_adds e e deviceID fInput cReqSize (Env.Adds.refl _ e)).1

/-- On a host on which every call succeeds `drvHostCoreAudioSetFrameBufferSize` returns `noErr`. -/
theorem setFrameBufferSize_ok (o : Nat → Call → Resp) (e : Env) (deviceID : Nat) (fInput : Bool)
    (cReqSize : Nat) (ho : e.oracle = o) (hok : HostOk o) :
    (drvHostCoreAudioSetFrameBufferSize e deviceID fInput cReqSize).1 = noErr := by
  subst ho
  unfold drvHostCoreAudioSetFrameBufferSize
  simp only [Env.ask, Env.tell_oracle, hok.err, hok.alloc, ne_eq, not_true_eq_false, if_false,
    not_false_eq_true, if_true]
  split_ifs <;> rfl

/-- Success path of the last part of the output block. -/
theorem initOutputFinish_ok (o : Nat → Call → Resp) (s : COREAUDIOSTREAMOUT) (e : Env)
    (cFrames : Nat) (ho : e.oracle = o) (hok : HostOk o)
    (hne : ∀ n au, ((o n (.AudioUnitGetProperty au .MaximumFramesPerSlice .Global 0)).u32
              * s.streamFormat.mChannelsPerFrame) % 2 ^ 32 ≠ 0) :
    (initOutputFinish s e cFrames).rc = VINF_SUCCESS
    ∧ 0 < (initOutputFinish s e cFrames).cSamples
    ∧ (∃ cb, (initOutputFinish s e cFrames).strm.pBuf = some ⟨cb⟩)
    ∧ (initOutputFinish s e cFrames).strm.MixBuf = s.MixBuf := by
  subst ho
  unfold initOutputFinish
  cases hb : s.pBuf <;>
    simp only [Env.ask, Env.tell_oracle, Env.oracle_ite_tell, hok.err, ne_eq, not_true_eq_false,
      if_false, RT_SUCCESS, le_refl, if_true, hne, hb, Option.isSome_none, Option.isSome_some,
      Bool.false_eq_true] <;>
    exact ⟨trivial, Nat.pos_of_ne_zero (hne _ _), ⟨_, rfl⟩, trivial⟩

/-- Success path of the unit configuration of the output block. -/
theorem initOutputUnit_ok (o : Nat → Call → Resp) (s : COREAUDIOSTREAMOUT) (e : Env)
    (cFrames : Nat) (ho : e.oracle = o) (hok : HostOk o)
    (hne : ∀ n au, ((o n (.AudioUnitGetProperty au .MaximumFramesPerSlice .Global 0)).u32
              * s.Props.cChannels) % 2 ^ 32 ≠ 0) :
    (initOutputUnit s e cFrames).rc = VINF_SUCCESS
    ∧ 0 < (initOutputUnit s e cFrames).cSamples
    ∧ (∃ cb, (initOutputUnit s e cFrames).strm.pBuf = some ⟨cb⟩)
    ∧ (initOutputUnit s e cFrames).strm.MixBuf = s.MixBuf := by
  subst ho
  unfold initOutputUnit
  simp only [Env.ask, Env.tell_oracle, hok.err, ne_eq, not_true_eq_false, if_false]
  exact initOutputFinish_ok e.oracle _ _ _ rfl hok hne

/-- Success path of the output block. -/
theorem initOutputBody_ok (o : Nat → Call → Resp) (s : COREAUDIOSTREAMOUT) (e : Env)
    (deviceID : Nat) (ho : e.oracle = o) (hok : HostOk o)
    (hne : ∀ n au, ((o n (.AudioUnitGetProperty au .MaximumFramesPerSlice .Global 0)).u32
              * s.Props.cChannels) % 2 ^ 32 ≠ 0) :
    (initOutputBody s e deviceID).rc = VINF_SUCCESS
    ∧ 0 < (initOutputBody s e deviceID).cSamples
    ∧ (∃ cb, (initOutputBody s e deviceID).strm.pBuf = some ⟨cb⟩)
    ∧ (initOutputBody s e deviceID).strm.MixBuf = s.MixBuf := by
  subst ho
  unfold initOutputBody
  have hf : ∀ (e1 : Env) (d : Nat) (f : Bool) (c : Nat), e1.oracle = e.oracle →
      (drvHostCoreAudioSetFrameBufferSize e1 d f c).1 = noErr :=
    fun e1 d f c h => setFrameBufferSize_ok e.oracle e1 d f c h hok
  simp only [Env.ask, Env.tell_oracle, initLogDeviceName_oracle, setFrameBufferSize_oracle,
    hok.err, hok.comp, ne_eq, not_true_eq_false, if_false, hf]
  exact initOutputUnit_ok e.oracle _ _ _
    (by simp only [Env.tell_oracle, initLogDeviceName_oracle, setFrameBufferSize_oracle]) hok hne

/-- Success path of `drvHostCoreAudioInitOutput`. -/
theorem initOutput_ok (o : Nat → Call → Resp) (s : COREAUDIOSTREAMOUT) (e : Env)
    (ho : e.oracle = o) (hok : HostOk o)
    (hne : ∀ n au, ((o n (.AudioUnitGetProperty au .MaximumFramesPerSlice .Global 0)).u32
              * s.Props.cChannels) % 2 ^ 32 ≠ 0) :
    (drvHostCoreAudioInitOutput s e).rc = VINF_SUCCESS
    ∧ (∃ c, (drvHostCoreAudioInitOutput s e).cSamples = some c ∧ 0 < c)
    ∧ (drvHostCoreAudioInitOutput s e).strm.status = CA_STATUS_INIT
    ∧ (∃ cb, (drvHostCoreAudioInitOutput s e).strm.pBuf = some ⟨cb⟩)
    ∧ (drvHostCoreAudioInitOutput s e).strm.MixBuf = s.MixBuf := by
  subst ho
  have key : ∀ (e1 : Env) (d : Nat), e1.oracle = e.oracle → d ≠ kAudioDeviceUnknown →
      (initOutputWithDevice s e1 d).rc = VINF_SUCCESS
      ∧ (∃ c, (initOutputWithDevice s e1 d).cSamples = some c ∧ 0 < c)
      ∧ (initOutputWithDevice s e1 d).strm.status = CA_STATUS_INIT
      ∧ (∃ cb, (initOutputWithDevice s e1 d).strm.pBuf = some ⟨cb⟩)
      ∧ (initOutputWithDevice s e1 d).strm.MixBuf = s.MixBuf := by
    intro e1 d h1 hd
    obtain ⟨hrc, hc, hp, hm⟩ := initOutputBody_ok e.oracle s e1 d h1 hok hne
    unfold initOutputWithDevice initOutputEpilogue
    rw [if_neg hd, if_pos (by rw [hrc])]
    exact ⟨hrc, ⟨_, rfl, hc⟩, rfl, hp, hm⟩
  unfold drvHostCoreAudioInitOutput
  by_cases hu : s.deviceID = kAudioDeviceUnknown
  · rw [if_pos hu]
    dsimp only
    have hq : ¬ ((e.ask (.GetDefaultDevice false)).err ≠ noErr) := by simp [Env.ask, hok.err]
    rw [if_neg hq]
    exact key _ _ rfl (hok.dev _ _)
  · rw [if_neg hu]
    exact key _ _ rfl hu

/-- Every call is some call. -/
theorem anyCall_intro (c : Call) : anyCall c := trivial

/-- `drvHostCoreAudioCFStringToCString` extends the trace. -/
theorem cfString_any (e0 e : Env) (h : Env.Adds anyCall e0 e) :
    Env.Adds anyCall e0 (drvHostCoreAudioCFStringToCString e).2 := by
  unfold drvHostCoreAudioCFStringToCString
  exact Env.Adds.tell _ trivial h

/-- The name block extends the trace. -/
theorem initLogDeviceName_any (e0 e : Env) (deviceID : Nat)
    (h : Env.Adds anyCall e0 e) :
    Env.Adds anyCall e0 (initLogDeviceName e deviceID) := by
  unfold initLogDeviceName
  dsimp only
  split_ifs <;>
    apply_rules [Env.Adds.tell, Env.Adds.ite, cfString_any, anyCall_intro, h]

/-- `drvHostCoreAudioSetFrameBufferSize` extends the trace. -/
theorem setFrameBufferSize_any (e0 e : Env) (deviceID : Nat) (fInput : Bool) (cReqSize : Nat)
    (h : Env.Adds anyCall e0 e) :
    Env.Adds anyCall e0 (drvHostCoreAudioSetFrameBufferSize e deviceID fInput cReqSize).2.2 := by
  unfold drvHostCoreAudioSetFrameBufferSize
  dsimp only
  split_ifs <;>
    apply_rules [Env.Adds.tell, Env.Adds.ite, anyCall_intro, h]

/-- The last part of the input block extends the trace. -/
theorem initInputFinish_any (s : COREAUDIOSTREAMIN) (e0 e : Env) (cFrames : Nat)
    (h : Env.Adds anyCall e0 e) :
    Env.Adds anyCall e0 (initInputFinish s e cFrames).env := by
  unfold initInputFinish
  dsimp only
  split_ifs <;>
    ((try dsimp only); apply_rules [Env.Adds.tell, Env.Adds.ite, anyCall_intro, h])

/-- The format negotiation of the input block extends the trace. -/
theorem initInputFormat_any (s : COREAUDIOSTREAMIN) (e0 e : Env) (cFrames : Nat)
    (h : Env.Adds anyCall e0 e) :
    Env.Adds anyCall e0 (initInputFormat s e cFrames).env := by
  unfold initInputFormat
  dsimp only
  split_ifs <;>
    ((try dsimp only); apply_rules [Env.Adds.tell, Env.Adds.ite, initInputFinish_any,
      anyCall_intro, h])

/-- The unit configuration of the input block extends the trace. -/
theorem initInputUnit_any (s : COREAUDIOSTREAMIN) (e0 e : Env) (cFrames : Nat)
    (h : Env.Adds anyCall e0 e) :
    Env.Adds anyCall e0 (initInputUnit s e cFrames).env := by
  unfold initInputUnit
  dsimp only
  split_ifs <;>
    ((try dsimp only); apply_rules [Env.Adds.tell, Env.Adds.ite, initInputFormat_any,
      anyCall_intro, h])

/-- The input block extends the trace. -/
theorem initInputBody_any (s : COREAUDIOSTREAMIN) (e0 e : Env) (deviceID : Nat)
    (h : Env.Adds anyCall e0 e) :
    Env.Adds anyCall e0 (initInputBody s e deviceID).env := by
  unfold initInputBody
  dsimp only
  split_ifs <;>
    ((try dsimp only); apply_rules [Env.Adds.tell, Env.Adds.ite, initInputUnit_any,
      setFrameBufferSize_any, initLogDeviceName_any, anyCall_intro, h])

/-- The input epilogue extends the trace. -/
theorem initInputEpilogue_any (b : InitBody COREAUDIOSTREAMIN) (e0 : Env)
    (h : Env.Adds anyCall e0 b.env) :
    Env.Adds anyCall e0 (initInputEpilogue b).env := by
  unfold initInputEpilogue
  dsimp only
  split_ifs <;>
    ((try dsimp only); apply_rules [Env.Adds.tell, Env.Adds.ite, anyCall_intro, h])

/-- `drvHostCoreAudioInitInput` extends the trace and keeps the oracle. -/
theorem initInput_any (s : COREAUDIOSTREAMIN) (e0 e : Env)
    (h : Env.Adds anyCall e0 e) :
    Env.Adds anyCall e0 (drvHostCoreAudioInitInput s e).env := by
  unfold drvHostCoreAudioInitInput initInputWithDevice
  dsimp only
  split_ifs <;>
    ((try dsimp only); apply_rules [Env.Adds.tell, Env.Adds.ite, initInputEpilogue_any,
      initInputBody_any, anyCall_intro, h])

/-- Success path of the last part of the input block. -/
theorem initInputFinish_ok (o : Nat → Call → Resp) (s : COREAUDIOSTREAMIN) (e : Env)
    (cFrames : Nat) (props : PDMPCMPROPS) (ho : e.oracle = o) (hok : HostOk o)
    (hsf : s.streamFormat = drvHostCoreAudioPCMInfoToASBDesc props)
    (hne : ∀ n m au au2, inputSamplesFor props
       (o n (.AudioUnitGetProperty au .MaximumFramesPerSlice .Global 0)).u32
       (o m (.AudioUnitGetProperty au2 .StreamFormat .Output 1)).fmt ≠ 0) :
    (initInputFinish s e cFrames).rc = VINF_SUCCESS
    ∧ (∃ cb, (initInputFinish s e cFrames).strm.pBuf = some ⟨cb⟩)
    ∧ (initInputFinish s e cFrames).strm.MixBuf = s.MixBuf := by
  subst ho
  have hne2 := fun n m au au2 => hne n m au au2
  simp only [inputSamplesFor] at hne2
  unfold initInputFinish
  cases hb : s.pBuf <;>
    simp only [Env.ask, Env.tell_oracle, Env.oracle_ite_tell, hok.err, ne_eq, not_true_eq_false,
      if_false, RT_SUCCESS, le_refl, if_true, hb, Option.isSome_none, Option.isSome_some,
      Bool.false_eq_true, hsf, hne2] <;>
    exact ⟨trivial, ⟨_, rfl⟩, trivial⟩

/-- Success path of the format negotiation of the input block. -/
theorem initInputFormat_ok (o : Nat → Call → Resp) (s : COREAUDIOSTREAMIN) (e : Env)
    (cFrames : Nat) (ho : e.oracle = o) (hok : HostOk o)
    (hne : ∀ n m au au2, inputSamplesFor s.Props
       (o n (.AudioUnitGetProperty au .MaximumFramesPerSlice .Global 0)).u32
       (o m (.AudioUnitGetProperty au2 .StreamFormat .Output 1)).fmt ≠ 0) :
    (initInputFormat s e cFrames).rc = VINF_SUCCESS
    ∧ (∃ cb, (initInputFormat s e cFrames).strm.pBuf = some ⟨cb⟩)
    ∧ (initInputFormat s e cFrames).strm.MixBuf = s.MixBuf := by
  subst ho
  unfold initInputFormat
  simp only [Env.ask, Env.tell_oracle, Env.oracle_ite_tell, hok.err, ne_eq, not_true_eq_false,
    if_false, and_false]
  split_ifs <;>
    exact initInputFinish_ok e.oracle _ _ _ s.Props
      (by simp only [Env.tell_oracle, Env.oracle_ite_tell]) hok rfl hne

/-- Success path of the unit configuration of the input block. -/
theorem initInputUnit_ok (o : Nat → Call → Resp) (s : COREAUDIOSTREAMIN) (e : Env)
    (cFrames : Nat) (ho : e.oracle = o) (hok : HostOk o)
    (hne : ∀ n m au au2, inputSamplesFor s.Props
       (o n (.AudioUnitGetProperty au .MaximumFramesPerSlice .Global 0)).u32
       (o m (.AudioUnitGetProperty au2 .StreamFormat .Output 1)).fmt ≠ 0) :
    (initInputUnit s e cFrames).rc = VINF_SUCCESS
    ∧ (∃ cb, (initInputUnit s e cFrames).strm.pBuf = some ⟨cb⟩)
    ∧ (initInputUnit s e cFrames).strm.MixBuf = s.MixBuf := by
  subst ho
  unfold initInputUnit
  simp only [Env.ask, Env.tell_oracle, hok.err, ne_eq, not_true_eq_false, if_false]
  exact initInputFormat_ok e.oracle _ _ _ rfl hok hne

/-- Success path of the input block. -/
theorem initInputBody_ok (o : Nat → Call → Resp) (s : COREAUDIOSTREAMIN) (e : Env)
    (deviceID : Nat) (ho : e.oracle = o) (hok : HostOk o)
    (hne : ∀ n m au au2, inputSamplesFor s.Props
       (o n (.AudioUnitGetProperty au .MaximumFramesPerSlice .Global 0)).u32
       (o m (.AudioUnitGetProperty au2 .StreamFormat .Output 1)).fmt ≠ 0) :
    (initInputBody s e deviceID).rc = VINF_SUCCESS
    ∧ (∃ cb, (initInputBody s e deviceID).strm.pBuf = some ⟨cb⟩)
    ∧ (initInputBody s e deviceID).strm.MixBuf = s.MixBuf := by
  subst ho
  unfold initInputBody
  have hf : ∀ (e1 : Env) (d : Nat) (f : Bool) (c : Nat), e1.oracle = e.oracle →
      (drvHostCoreAudioSetFrameBufferSize e1 d f c).1 = noErr :=
    fun e1 d f c h => setFrameBufferSize_ok e.oracle e1 d f c h hok
  simp only [Env.ask, Env.tell_oracle, initLogDeviceName_oracle, setFrameBufferSize_oracle,
    hok.err, hok.comp, ne_eq, not_true_eq_false, if_false, hf]
  exact initInputUnit_ok e.oracle _ _ _
    (by simp only [Env.tell_oracle, initLogDeviceName_oracle, setFrameBufferSize_oracle]) hok hne

/-- Success path of `drvHostCoreAudioInitInput`. -/
theorem initInput_ok (o : Nat → Call → Resp) (s : COREAUDIOSTREAMIN) (e : Env)
    (ho : e.oracle = o) (hok : HostOk o)
    (hne : ∀ n m au au2, inputSamplesFor s.Props
       (o n (.AudioUnitGetProperty au .MaximumFramesPerSlice .Global 0)).u32
       (o m (.AudioUnitGetProperty au2 .StreamFormat .Output 1)).fmt ≠ 0) :
    (drvHostCoreAudioInitInput s e).rc = VINF_SUCCESS
    ∧ (drvHostCoreAudioInitInput s e).strm.status = CA_STATUS_INIT
    ∧ (∃ cb, (drvHostCoreAudioInitInput s e).strm.pBuf = some ⟨cb⟩)
    ∧ (drvHostCoreAudioInitInput s e).strm.MixBuf = s.MixBuf := by
  subst ho
  have key : ∀ (e1 : Env) (d : Nat), e1.oracle = e.oracle → d ≠ kAudioDeviceUnknown →
      (initInputWithDevice s e1 d).rc = VINF_SUCCESS
      ∧ (initInputWithDevice s e1 d).strm.status = CA_STATUS_INIT
      ∧ (∃ cb, (initInputWithDevice s e1 d).strm.pBuf = some ⟨cb⟩)
      ∧ (initInputWithDevice s e1 d).strm.MixBuf = s.MixBuf := by
    intro e1 d h1 hd
    obtain ⟨hrc, hp, hm⟩ := initInputBody_ok e.oracle s e1 d h1 hok hne
    unfold initInputWithDevice initInputEpilogue
    rw [if_neg hd, if_pos (by rw [hrc])]
    exact ⟨hrc, rfl, hp, hm⟩
  unfold drvHostCoreAudioInitInput
  by_cases hu : s.deviceID = kAudioDeviceUnknown
  · rw [if_pos hu]
    dsimp only
    have hq : ¬ ((e.ask (.GetDefaultDevice true)).err ≠ noErr) := by simp [Env.ask, hok.err]
    rw [if_neg hq]
    exact key _ _ rfl (hok.dev _ _)
  · rw [if_neg hu]
    exact key _ _ rfl hu

/-- Subtraction in `size_t` without wrap-around. -/
theorem sizeT_sub (a b : Nat) (ha : a < 2 ^ 64) (hb : b ≤ a) :
    (a + 2 ^ 64 - b) % 2 ^ 64 = a - b := by
  have h1 : a + 2 ^ 64 - b = (a - b) + 2 ^ 64 := by omega
  rw [h1, Nat.add_mod_right, Nat.mod_eq_of_lt (by omega)]

/-- A `size_t` fits in 64 bits. -/
theorem Resp.size_lt (r : Resp) : r.size < 2 ^ 64 := Nat.mod_lt _ (by decide)

/-- With well-behaved collaborators the capture loop ends within `cbToWrite` rounds, with success. -/
theorem captureInLoop_ok (o : Nat → Call → Resp) (s : COREAUDIOSTREAMIN) (hok : HostOk o)
    (hx : XferOk o s.MixBuf) :
    ∀ (fuel cbToWrite total : Nat) (rc : Int) (e : Env), e.oracle = o → cbToWrite ≤ fuel →
      cbToWrite < 2 ^ 64 → rc = VINF_SUCCESS →
      ∃ l, captureInLoop s fuel cbToWrite total rc e = some l ∧ l.rc = VINF_SUCCESS
        ∧ l.env.oracle = o := by
  intro fuel
  induction fuel with
  | zero =>
    intro cbToWrite total rc e ho hle _ hrc
    have h0 : cbToWrite = 0 := by omega
    subst h0
    exact ⟨⟨rc, total, e⟩, by simp [captureInLoop], hrc, ho⟩
  | succ fuel ih =>
    intro cbToWrite total rc e ho hle hlt hrc
    unfold captureInLoop
    by_cases h0 : cbToWrite = 0
    · rw [if_pos h0]
      exact ⟨_, rfl, hrc, ho⟩
    · rw [if_neg h0]
      dsimp only
      have hacq := hx.acquireRead e.log.length s.pBuf cbToWrite
      by_cases h1 : (e.ask (Call.RTCircBufAcquireReadBlock s.pBuf cbToWrite)).size = 0
      · rw [if_pos h1]
        exact ⟨_, rfl, hrc, ho⟩
      · rw [if_neg h1]
        have herr : ((e.tell (Call.RTCircBufAcquireReadBlock s.pBuf cbToWrite)).ask
            (Call.AudioMixBufWriteCirc
              (e.ask (Call.RTCircBufAcquireReadBlock s.pBuf cbToWrite)).size)).err = 0 := by
          simp only [Env.ask, Env.tell_oracle, ho]
          exact hok.err _ _
        by_cases h2 : ((e.tell (Call.RTCircBufAcquireReadBlock s.pBuf cbToWrite)).ask
            (Call.AudioMixBufWriteCirc
              (e.ask (Call.RTCircBufAcquireReadBlock s.pBuf cbToWrite)).size)).u32 = 0
        · rw [if_pos (Or.inr h2)]
          exact ⟨_, rfl, herr, ho⟩
        · rw [if_neg (by rw [herr]; simp [RT_FAILURE, h2])]
          have hw := hx.write (e.tell (Call.RTCircBufAcquireReadBlock s.pBuf cbToWrite)).log.length
            (e.ask (Call.RTCircBufAcquireReadBlock s.pBuf cbToWrite)).size
            (by simpa only [Env.ask, Env.tell_oracle, ho] using h2)
          simp only [Env.ask, ho] at hacq
          simp only [Env.ask, Env.tell_oracle, ho] at hw herr ⊢
          obtain ⟨hpos, hle2⟩ := hw
          apply ih
          · exact ho
          · rw [sizeT_sub _ _ hlt (le_trans hle2 hacq)]
            omega
          · exact Nat.mod_lt _ (by decide)
          · exact herr

/-! ## Reinitialisation and the Device Watcher -/

/-- With well-behaved collaborators the playback loop ends within `cbToRead` rounds, with success. -/
theorem playOutLoop_ok (o : Nat → Call → Resp) (s : COREAUDIOSTREAMOUT) (hok : HostOk o)
    (hx : XferOk o s.MixBuf) :
    ∀ (fuel cbToRead total : Nat) (rc : Int) (e : Env), e.oracle = o → cbToRead ≤ fuel →
      cbToRead < 2 ^ 64 → rc = VINF_SUCCESS →
      ∃ l, playOutLoop s fuel cbToRead total rc e = some l ∧ l.rc = VINF_SUCCESS
        ∧ l.env.oracle = o := by
  intro fuel
  induction fuel with
  | zero =>
    intro cbToRead total rc e ho hle _ hrc
    have h0 : cbToRead = 0 := by omega
    subst h0
    exact ⟨⟨rc, total, e⟩, by simp [playOutLoop], hrc, ho⟩
  | succ fuel ih =>
    intro cbToRead total rc e ho hle hlt hrc
    unfold playOutLoop
    by_cases h0 : cbToRead = 0
    · rw [if_pos h0]
      exact ⟨_, rfl, hrc, ho⟩
    · rw [if_neg h0]
      dsimp only
      have hacq := hx.acquireWrite e.log.length s.pBuf cbToRead
      by_cases h1 : (e.ask (Call.RTCircBufAcquireWriteBlock s.pBuf cbToRead)).size = 0
      · rw [if_pos h1]
        exact ⟨_, rfl, hrc, ho⟩
      · rw [if_neg h1]
        have herr : ((e.tell (Call.RTCircBufAcquireWriteBlock s.pBuf cbToRead)).ask
            (Call.AudioMixBufReadCirc
              (e.ask (Call.RTCircBufAcquireWriteBlock s.pBuf cbToRead)).size)).err = 0 := by
          simp only [Env.ask, Env.tell_oracle, ho]
          exact hok.err _ _
        by_cases h2 : ((e.tell (Call.RTCircBufAcquireWriteBlock s.pBuf cbToRead)).ask
            (Call.AudioMixBufReadCirc
              (e.ask (Call.RTCircBufAcquireWriteBlock s.pBuf cbToRead)).size)).u32 = 0
        · rw [if_pos (Or.inr h2)]
          exact ⟨_, rfl, herr, ho⟩
        · rw [if_neg (by rw [herr]; simp [RT_FAILURE, h2])]
          have hw := hx.read (e.tell (Call.RTCircBufAcquireWriteBlock s.pBuf cbToRead)).log.length
            (e.ask (Call.RTCircBufAcquireWriteBlock s.pBuf cbToRead)).size
            (by simpa only [Env.ask, Env.tell_oracle, ho] using h2)
          simp only [Env.ask, ho] at hacq
          simp only [Env.ask, Env.tell_oracle, ho] at hw herr ⊢
          obtain ⟨hpos, hle2⟩ := hw
          apply ih
          · exact ho
          · rw [sizeT_sub _ _ hlt (le_trans hle2 hacq)]
            omega
          · exact Nat.mod_lt _ (by decide)
          · exact herr

/-- `drvHostCoreAudioControlIn` extends the trace and keeps the oracle. -/
theorem controlIn_any (s : COREAUDIOSTREAMIN) (e0 e : Env) (cmd : PDMAUDIOSTREAMCMD)
    (h : Env.Adds anyCall e0 e) :
    Env.Adds anyCall e0 (drvHostCoreAudioControlIn s e cmd).env := by
  unfold drvHostCoreAudioControlIn drvHostCoreAudioIsRunning
  cases cmd <;> dsimp only <;> split_ifs <;>
    apply_rules [Env.Adds.tell, Env.Adds.ite, anyCall_intro, h]

/-- `drvHostCoreAudioControlOut` extends the trace and keeps the oracle. -/
theorem controlOut_any (s : COREAUDIOSTREAMOUT) (e0 e : Env) (cmd : PDMAUDIOSTREAMCMD)
    (h : Env.Adds anyCall e0 e) :
    Env.Adds anyCall e0 (drvHostCoreAudioControlOut s e cmd).env := by
  unfold drvHostCoreAudioControlOut drvHostCoreAudioIsRunning
  cases cmd <;> dsimp only <;> split_ifs <;>
    apply_rules [Env.Adds.tell, Env.Adds.ite, anyCall_intro, h]

/-- On a host on which every call succeeds, Enable and Disable succeed on an input stream. -/
theorem controlIn_ok (o : Nat → Call → Resp) (s : COREAUDIOSTREAMIN) (e : Env)
    (ho : e.oracle = o) (hok : HostOk o) :
    (drvHostCoreAudioControlIn s e .ENABLE).rc = VINF_SUCCESS
    ∧ (drvHostCoreAudioControlIn s e .DISABLE).rc = VINF_SUCCESS := by
  subst ho
  unfold drvHostCoreAudioControlIn drvHostCoreAudioIsRunning
  constructor <;>
  · dsimp only
    simp only [Env.ask, Env.tell_oracle, hok.err, ne_eq, not_true_eq_false, if_false]
    split_ifs <;> rfl

/-- On a host on which every call succeeds, Enable and Disable succeed on an output stream. -/
theorem controlOut_ok (o : Nat → Call → Resp) (s : COREAUDIOSTREAMOUT) (e : Env)
    (ho : e.oracle = o) (hok : HostOk o) :
    (drvHostCoreAudioControlOut s e .ENABLE).rc = VINF_SUCCESS
    ∧ (drvHostCoreAudioControlOut s e .DISABLE).rc = VINF_SUCCESS := by
  subst ho
  unfold drvHostCoreAudioControlOut drvHostCoreAudioIsRunning
  constructor <;>
  · dsimp only
    simp only [Env.ask, Env.tell_oracle, hok.err, ne_eq, not_true_eq_false, if_false]
    split_ifs <;> rfl

/-- The teardown of `drvHostCoreAudioFiniIn` keeps the oracle. -/
theorem finiInTeardown_oracle (s : COREAUDIOSTREAMIN) (e : Env) :
    (finiInTeardown s e).2.oracle = e.oracle := by
  simp only [finiInTeardown, Env.oracle_ite_tell, Env.tell_oracle]

/-- The teardown of `drvHostCoreAudioFiniOut` keeps the oracle. -/
theorem finiOutTeardown_oracle (s : COREAUDIOSTREAMOUT) (e : Env) :
    (finiOutTeardown s e).2.oracle = e.oracle := by
  simp only [finiOutTeardown, Env.oracle_ite_tell, Env.tell_oracle]

/-- The teardown of `drvHostCoreAudioFiniIn` keeps the requested properties and the mixer buffer. -/
theorem finiInTeardown_frame (s : COREAUDIOSTREAMIN) (e : Env) :
    (finiInTeardown s e).1.Props = s.Props ∧ (finiInTeardown s e).1.MixBuf = s.MixBuf := by
  unfold finiInTeardown
  cases h1 : s.fDefDevChgListReg <;> cases h2 : s.fDevStateChgListReg
    <;> cases h3 : s.pConverter <;> cases h4 : s.pBuf <;> simp [h1, h2, h3, h4]

/-- The teardown of `drvHostCoreAudioFiniOut` keeps the requested properties and the mixer buffer. -/
theorem finiOutTeardown_frame (s : COREAUDIOSTREAMOUT) (e : Env) :
    (finiOutTeardown s e).1.Props = s.Props ∧ (finiOutTeardown s e).1.MixBuf = s.MixBuf := by
  unfold finiOutTeardown
  cases h1 : s.fDefDevChgListReg <;> cases h2 : s.fDevStateChgListReg
    <;> cases h4 : s.pBuf <;> simp [h1, h2, h4]

/-- On a host on which every call succeeds, with a non-zero sample count, the reinitialisation
of an input stream flagged Reinitializing ends with status Initialized and a ring buffer. -/
theorem reinitInput_ok (o : Nat → Call → Resp) (s : COREAUDIOSTREAMIN) (e : Env)
    (ho : e.oracle = o) (hok : HostOk o) (hs : s.status = CA_STATUS_REINIT)
    (hne : ∀ n m au au2, inputSamplesFor s.Props
       (o n (.AudioUnitGetProperty au .MaximumFramesPerSlice .Global 0)).u32
       (o m (.AudioUnitGetProperty au2 .StreamFormat .Output 1)).fmt ≠ 0) :
    (drvHostCoreAudioReinitInput s e).rc = VINF_SUCCESS
    ∧ (drvHostCoreAudioReinitInput s e).strm.status = CA_STATUS_INIT
    ∧ (∃ cb, (drvHostCoreAudioReinitInput s e).strm.pBuf = some ⟨cb⟩)
    ∧ (drvHostCoreAudioReinitInput s e).strm.MixBuf = s.MixBuf
    ∧ (drvHostCoreAudioReinitInput s e).env.oracle = o := by
  have hg : s.status = CA_STATUS_INIT ∨ s.status = CA_STATUS_REINIT := Or.inr hs
  have hc := (controlIn_ok o s e ho hok).2
  have hcs : RT_SUCCESS (drvHostCoreAudioControlIn s e .DISABLE).rc := by rw [hc]
  have hco : (drvHostCoreAudioControlIn s e .DISABLE).env.oracle = o :=
    (controlIn_any s e e .DISABLE (Env.Adds.refl _ e)).1.trans ho
  have hfo : (finiInTeardown s (drvHostCoreAudioControlIn s e .DISABLE).env).2.oracle = o :=
    (finiInTeardown_oracle _ _).trans hco
  obtain ⟨hfp, hfm⟩ := finiInTeardown_frame s (drvHostCoreAudioControlIn s e .DISABLE).env
  obtain ⟨hirc, hist, hipb, himb⟩ := initInput_ok o
    (finiInTeardown s (drvHostCoreAudioControlIn s e .DISABLE).env).1
    (finiInTeardown s (drvHostCoreAudioControlIn s e .DISABLE).env).2 hfo hok
    (by rw [hfp]; exact hne)
  have hio := (initInput_any (finiInTeardown s (drvHostCoreAudioControlIn s e .DISABLE).env).1
    _ _ (Env.Adds.refl _ _)).1.trans hfo
  unfold drvHostCoreAudioReinitInput
  rw [finiIn_ok s e hg hcs]
  dsimp only
  rw [if_pos hcs, if_pos (by rw [hirc])]
  refine ⟨(controlIn_ok o _ _ hio hok).1, ?_, ?_, ?_, ?_⟩
  · rw [controlIn_strm]; exact hist
  · rw [controlIn_strm]; exact hipb
  · rw [controlIn_strm, himb, hfm]
  · exact (controlIn_any _ _ _ .ENABLE (Env.Adds.refl _ _)).1.trans hio

/-- On a host on which every call succeeds, with a non-zero sample count, the reinitialisation
of an output stream flagged Reinitializing ends with status Initialized and a ring buffer. -/
theorem reinitOutput_ok (o : Nat → Call → Resp) (s : COREAUDIOSTREAMOUT) (e : Env)
    (ho : e.oracle = o) (hok : HostOk o) (hs : s.status = CA_STATUS_REINIT)
    (hne : ∀ n au, ((o n (.AudioUnitGetProperty au .MaximumFramesPerSlice .Global 0)).u32
              * s.Props.cChannels) % 2 ^ 32 ≠ 0) :
    (drvHostCoreAudioReinitOutput s e).rc = VINF_SUCCESS
    ∧ (drvHostCoreAudioReinitOutput s e).strm.status = CA_STATUS_INIT
    ∧ (∃ cb, (drvHostCoreAudioReinitOutput s e).strm.pBuf = some ⟨cb⟩)
    ∧ (drvHostCoreAudioReinitOutput s e).strm.MixBuf = s.MixBuf
    ∧ (drvHostCoreAudioReinitOutput s e).env.oracle = o := by
  have hg : s.status = CA_STATUS_INIT ∨ s.status = CA_STATUS_REINIT := Or.inr hs
  have hc := (controlOut_ok o s e ho hok).2
  have hcs : RT_SUCCESS (drvHostCoreAudioControlOut s e .DISABLE).rc := by rw [hc]
  have hco : (drvHostCoreAudioControlOut s e .DISABLE).env.oracle = o :=
    (controlOut_any s e e .DISABLE (Env.Adds.refl _ e)).1.trans ho
  have hfo : (finiOutTeardown s (drvHostCoreAudioControlOut s e .DISABLE).env).2.oracle = o :=
    (finiOutTeardown_oracle _ _).trans hco
  obtain ⟨hfp, hfm⟩ := finiOutTeardown_frame s (drvHostCoreAudioControlOut s e .DISABLE).env
  obtain ⟨hirc, _, hist, hipb, himb⟩ := initOutput_ok o
    (finiOutTeardown s (drvHostCoreAudioControlOut s e .DISABLE).env).1
    (finiOutTeardown s (drvHostCoreAudioControlOut s e .DISABLE).env).2 hfo hok
    (by rw [hfp]; exact hne)
  have hio := (initOutput_adds (finiOutTeardown s (drvHostCoreAudioControlOut s e .DISABLE).env).1
    _ _ (Env.Adds.refl _ _)).1.trans hfo
  unfold drvHostCoreAudioReinitOutput
  rw [finiOut_ok s e hg hcs]
  dsimp only
  rw [if_pos hcs, if_pos (by rw [hirc])]
  refine ⟨(controlOut_ok o _ _ hio hok).1, ?_, ?_, ?_, ?_⟩
  · rw [controlOut_strm]; exact hist
  · rw [controlOut_strm]; exact hipb
  · rw [controlOut_strm, himb, hfm]
  · exact (controlOut_any _ _ _ .ENABLE (Env.Adds.refl _ _)).1.trans hio


/-- A fold whose steps extend the trace extends the trace. -/
theorem Env.Adds.foldl {P : Call → Prop} {α β : Type} (e0 : Env) (f : α × Env → β → α × Env)
    (hf : ∀ acc x, Env.Adds P e0 acc.2 → Env.Adds P e0 (f acc x).2) :
    ∀ (l : List β) (init : α × Env), Env.Adds P e0 init.2 → Env.Adds P e0 (l.foldl f init).2 := by
  intro l
  induction l with
  | nil => intro init h; exact h
  | cons x xs ih => intro init h; exact ih _ (hf _ _ h)

/-- One round of the device loop extends the trace. -/
theorem enumerateDevice_any (e0 : Env) (fIn : Bool) (acc : Nat × Env) (curDevID : Nat)
    (h : Env.Adds anyCall e0 acc.2) : Env.Adds anyCall e0 (enumerateDevice fIn acc curDevID).2 := by
  unfold enumerateDevice
  dsimp only
  split_ifs <;>
    apply_rules [Env.Adds.tell, Env.Adds.ite, anyCall_intro, h]

/-- `drvHostCoreAudioDevicesEnumerate` extends the trace and keeps the oracle. -/
theorem devicesEnumerate_any (e0 e : Env) (fIn : Bool) (h : Env.Adds anyCall e0 e) :
    Env.Adds anyCall e0 (drvHostCoreAudioDevicesEnumerate e fIn).2 := by
  unfold drvHostCoreAudioDevicesEnumerate
  dsimp only
  split_ifs
  · exact Env.Adds.tell _ trivial h
  · exact Env.Adds.tell _ trivial (Env.Adds.tell _ trivial h)
  · exact Env.Adds.foldl e0 _ (fun acc x ha => enumerateDevice_any e0 fIn acc x ha) _ _
      (Env.Adds.tell _ trivial (Env.Adds.tell _ trivial h))

/-- The two enumerations of a watcher callback extend the trace and keep the oracle. -/
theorem watcherEnumerate_any (e0 e : Env) (h : Env.Adds anyCall e0 e) :
    Env.Adds anyCall e0 (watcherEnumerate e) := by
  unfold watcherEnumerate
  exact devicesEnumerate_any e0 _ true (devicesEnumerate_any e0 e false h)

/-- One round of the address loop on an input context: the stream is kept or flagged, the trace
extended. -/
theorem defaultDeviceChangedStep_in (e0 : Env) (s : COREAUDIOSTREAMIN)
    (acc : COREAUDIOSTREAMCBCTX × Env) (sel : Selector)
    (h : (acc.1 = .pIn s ∨ acc.1 = .pIn { s with status := CA_STATUS_REINIT })
          ∧ Env.Adds anyCall e0 acc.2) :
    ((defaultDeviceChangedStep acc sel).1 = .pIn s
        ∨ (defaultDeviceChangedStep acc sel).1 = .pIn { s with status := CA_STATUS_REINIT })
      ∧ Env.Adds anyCall e0 (defaultDeviceChangedStep acc sel).2 := by
  obtain ⟨hs, ha⟩ := h
  obtain ⟨c, e⟩ := acc
  dsimp only at hs ha
  rcases hs with hs | hs <;> subst hs <;> cases sel <;>
    unfold defaultDeviceChangedStep <;> dsimp only <;>
    first
      | exact ⟨Or.inl rfl, ha⟩
      | exact ⟨Or.inr rfl, ha⟩
      | (refine ⟨?_, Env.Adds.tell _ trivial ha⟩
         split_ifs <;> first | exact Or.inl rfl | exact Or.inr rfl)

/-- One round of the address loop on an output context. -/
theorem defaultDeviceChangedStep_out (e0 : Env) (s : COREAUDIOSTREAMOUT)
    (acc : COREAUDIOSTREAMCBCTX × Env) (sel : Selector)
    (h : (acc.1 = .pOut s ∨ acc.1 = .pOut { s with status := CA_STATUS_REINIT })
          ∧ Env.Adds anyCall e0 acc.2) :
    ((defaultDeviceChangedStep acc sel).1 = .pOut s
        ∨ (defaultDeviceChangedStep acc sel).1 = .pOut { s with status := CA_STATUS_REINIT })
      ∧ Env.Adds anyCall e0 (defaultDeviceChangedStep acc sel).2 := by
  obtain ⟨hs, ha⟩ := h
  obtain ⟨c, e⟩ := acc
  dsimp only at hs ha
  rcases hs with hs | hs <;> subst hs <;> cases sel <;>
    unfold defaultDeviceChangedStep <;> dsimp only <;>
    first
      | exact ⟨Or.inl rfl, ha⟩
      | exact ⟨Or.inr rfl, ha⟩
      | (refine ⟨?_, Env.Adds.tell _ trivial ha⟩
         split_ifs <;> first | exact Or.inl rfl | exact Or.inr rfl)

/-- A fold keeps an invariant its steps keep. -/
theorem foldl_invariant {α β : Type} (I : α → Prop) (f : α → β → α)
    (hf : ∀ a x, I a → I (f a x)) : ∀ (l : List β) (init : α), I init → I (l.foldl f init) := by
  intro l
  induction l with
  | nil => intro init h; exact h
  | cons x xs ih => intro init h; exact ih _ (hf _ _ h)

/-- A watcher callback on an input stream writes at most the status word, and only the value
`CA_STATUS_REINIT`; it keeps the oracle. -/
theorem watchIn_frame (w : WatcherEvent) (s : COREAUDIOSTREAMIN) (e : Env) :
    ((watchIn w s e).strm = s ∨ (watchIn w s e).strm = { s with status := CA_STATUS_REINIT })
      ∧ Env.Adds anyCall e (watchIn w s e).env := by
  cases w with
  | deviceStateChanged =>
    unfold watchIn drvHostCoreAudioDeviceStateChanged
    dsimp only
    refine ⟨?_, watcherEnumerate_any e _ (Env.Adds.tell _ trivial (Env.Adds.refl _ e))⟩
    split_ifs
    · exact Or.inr rfl
    · exact Or.inl rfl
  | defaultDeviceChanged properties =>
    unfold watchIn drvHostCoreAudioDefaultDeviceChanged
    dsimp only
    have h := foldl_invariant
      (fun acc : COREAUDIOSTREAMCBCTX × Env =>
        (acc.1 = .pIn s ∨ acc.1 = .pIn { s with status := CA_STATUS_REINIT })
          ∧ Env.Adds anyCall e acc.2)
      defaultDeviceChangedStep (fun a x ha => defaultDeviceChangedStep_in e s a x ha)
      properties (.pIn s, e) ⟨Or.inl rfl, Env.Adds.refl _ e⟩
    refine ⟨?_, watcherEnumerate_any e _ h.2⟩
    rcases h.1 with h1 | h1 <;> rw [h1]
    · exact Or.inl rfl
    · exact Or.inr rfl
  | propertyChanged propertyID =>
    unfold watchIn drvHostCoreAudioRecordingAudioDevicePropertyChanged
    dsimp only
    split_ifs
    · exact ⟨Or.inr rfl, Env.Adds.refl _ e⟩
    · exact ⟨Or.inl rfl, Env.Adds.refl _ e⟩

/-- A watcher callback on an output stream writes at most the status word, and only the value
`CA_STATUS_REINIT`; it keeps the oracle. -/
theorem watchOut_frame (w : WatcherEvent) (s : COREAUDIOSTREAMOUT) (e : Env) :
    ((watchOut w s e).strm = s ∨ (watchOut w s e).strm = { s with status := CA_STATUS_REINIT })
      ∧ Env.Adds anyCall e (watchOut w s e).env := by
  cases w with
  | deviceStateChanged =>
    unfold watchOut drvHostCoreAudioDeviceStateChanged
    dsimp only
    refine ⟨?_, watcherEnumerate_any e _ (Env.Adds.tell _ trivial (Env.Adds.refl _ e))⟩
    split_ifs
    · exact Or.inr rfl
    · exact Or.inl rfl
  | defaultDeviceChanged properties =>
    unfold watchOut drvHostCoreAudioDefaultDeviceChanged
    dsimp only
    have h := foldl_invariant
      (fun acc : COREAUDIOSTREAMCBCTX × Env =>
        (acc.1 = .pOut s ∨ acc.1 = .pOut { s with status := CA_STATUS_REINIT })
          ∧ Env.Adds anyCall e acc.2)
      defaultDeviceChangedStep (fun a x ha => defaultDeviceChangedStep_out e s a x ha)
      properties (.pOut s, e) ⟨Or.inl rfl, Env.Adds.refl _ e⟩
    refine ⟨?_, watcherEnumerate_any e _ h.2⟩
    rcases h.1 with h1 | h1 <;> rw [h1]
    · exact Or.inl rfl
    · exact Or.inr rfl
  | propertyChanged propertyID =>
    exact ⟨Or.inl rfl, Env.Adds.refl _ e⟩

/-! ## Transfer after the reinitialisation step -/

/-- The capture transfer after its reinitialisation step `R` left an initialized stream: with
well-behaved collaborators it returns success and the stream of `R`. -/
theorem captureIn_after_gate (o : Nat → Call → Resp) (s : COREAUDIOSTREAMIN) (e : Env)
    (fuel : Nat) (hok : HostOk o) (hfuel : 2 ^ 64 ≤ fuel)
    (R : Res COREAUDIOSTREAMIN)
    (hR : R = if s.status = CA_STATUS_REINIT then drvHostCoreAudioReinitInput s e
              else ⟨VINF_SUCCESS, s, e⟩)
    (hst : R.strm.status = CA_STATUS_INIT) (hro : R.env.oracle = o)
    (hx : XferOk o R.strm.MixBuf) :
    ∃ r, drvHostCoreAudioCaptureIn fuel s e = some r ∧ r.rc = VINF_SUCCESS ∧ r.strm = R.strm
      ∧ r.env.oracle = o := by
  unfold drvHostCoreAudioCaptureIn
  rw [← hR]
  dsimp only
  rw [if_neg (not_not.mpr hst)]
  obtain ⟨l, hl, hlrc, hlo⟩ := captureInLoop_ok o R.strm hok hx fuel
    (min (R.env.ask Call.AudioMixBufSizeBytes).size
      ((R.env.tell Call.AudioMixBufSizeBytes).ask (Call.RTCircBufUsed R.strm.pBuf)).size) 0
    VINF_SUCCESS
    ((R.env.tell Call.AudioMixBufSizeBytes).tell (Call.RTCircBufUsed R.strm.pBuf))
    (by simp only [Env.tell_oracle]; exact hro)
    (le_trans (Nat.min_le_left _ _) (le_trans (le_of_lt (Resp.size_lt _)) hfuel))
    (lt_of_le_of_lt (Nat.min_le_left _ _) (Resp.size_lt _)) rfl
  rw [hl]
  dsimp only
  rw [if_pos (by rw [hlrc])]
  split_ifs
  · refine ⟨_, rfl, ?_, rfl, ?_⟩
    · simp only [Env.ask, hlo]; exact hok.err _ _
    · simp only [Env.tell_oracle]; exact hlo
  · exact ⟨_, rfl, hlrc, rfl, hlo⟩

/-- The playback transfer after its reinitialisation step `R` succeeded: with well-behaved
collaborators it returns success and the stream of `R`. -/
theorem playOut_after_gate (o : Nat → Call → Resp) (s : COREAUDIOSTREAMOUT) (e : Env)
    (fuel : Nat) (hok : HostOk o) (hfuel : 2 ^ 64 ≤ fuel)
    (R : Res COREAUDIOSTREAMOUT)
    (hR : R = if s.status = CA_STATUS_REINIT then drvHostCoreAudioReinitOutput s e
              else ⟨VINF_SUCCESS, s, e⟩)
    (hrc : R.rc = VINF_SUCCESS) (hro : R.env.oracle = o)
    (hx : XferOk o R.strm.MixBuf) :
    ∃ r, drvHostCoreAudioPlayOut fuel s e = some r ∧ r.rc = VINF_SUCCESS ∧ r.strm = R.strm
      ∧ r.env.oracle = o := by
  unfold drvHostCoreAudioPlayOut
  rw [← hR]
  dsimp only
  rw [if_neg (by rw [hrc]; decide)]
  by_cases h0 : (R.env.ask Call.AudioMixBufAvail).u32 = 0
  · rw [if_pos h0]
    exact ⟨_, rfl, rfl, rfl, by simp only [Env.tell_oracle]; exact hro⟩
  · rw [if_neg h0]
    obtain ⟨l, hl, hlrc, hlo⟩ := playOutLoop_ok o R.strm hok hx fuel
      (min (AUDIOMIXBUF_S2B R.strm.MixBuf
            ((R.env.tell Call.AudioMixBufAvail).ask Call.AudioMixBufAvail).u32)
        (((R.env.tell Call.AudioMixBufAvail).tell Call.AudioMixBufAvail).ask
          (Call.RTCircBufFree R.strm.pBuf)).size) 0 R.rc
      (((R.env.tell Call.AudioMixBufAvail).tell Call.AudioMixBufAvail).tell
        (Call.RTCircBufFree R.strm.pBuf))
      (by simp only [Env.tell_oracle]; exact hro)
      (le_trans (Nat.min_le_right _ _) (le_trans (le_of_lt (Resp.size_lt _)) hfuel))
      (lt_of_le_of_lt (Nat.min_le_right _ _) (Resp.size_lt _)) hrc
    rw [hl]
    dsimp only
    rw [if_pos (by rw [hlrc])]
    refine ⟨_, rfl, hlrc, rfl, ?_⟩
    dsimp only
    split_ifs
    · simp only [Env.tell_oracle]; exact hlo
    · exact hlo

/-- After a watcher flagged an initialized input stream, the stream is the old one with the
status word replaced. -/
theorem watchIn_flagged (w : WatcherEvent) (s : COREAUDIOSTREAMIN) (e : Env)
    (hw : (watchIn w s e).strm.status = CA_STATUS_REINIT) :
    (watchIn w s e).strm = { s with status := CA_STATUS_REINIT } := by
  rcases (watchIn_frame w s e).1 with h | h
  · rw [h] at hw ⊢
    cases s
    simp only at hw
    subst hw
    rfl
  · exact h

/-- After a watcher flagged an initialized output stream, the stream is the old one with the
status word replaced. -/
theorem watchOut_flagged (w : WatcherEvent) (s : COREAUDIOSTREAMOUT) (e : Env)
    (hw : (watchOut w s e).strm.status = CA_STATUS_REINIT) :
    (watchOut w s e).strm = { s with status := CA_STATUS_REINIT } := by
  rcases (watchOut_frame w s e).1 with h | h
  · rw [h] at hw ⊢
    cases s
    simp only at hw
    subst hw
    rfl
  · exact h

/-! ## Reinitialisation after a Device Watcher notification -/

/-- On the recovery world every call succeeds. -/
theorem recoveryOracle_hostOk : HostOk recoveryOracle := by
  refine ⟨?_, ?_, ?_, ?_⟩
  · intro n c; cases c <;> rfl
  · intro n; show (512 : Nat) ≠ 0; decide
  · intro n; show (512 : Nat) ≠ 0; decide
  · intro n b; show (512 : Nat) % 2 ^ 32 ≠ kAudioDeviceUnknown; decide

/-- On the recovery world the ring buffer and the mixer buffer are well-behaved. -/
theorem recoveryOracle_xferOk : XferOk recoveryOracle ⟨2⟩ := by
  refine ⟨?_, ?_, ?_, ?_⟩
  · intro n p cb
    show cb % 2 ^ 64 ≤ cb
    exact Nat.mod_le _ _
  · intro n p cb
    show cb % 2 ^ 64 ≤ cb
    exact Nat.mod_le _ _
  · intro n cb
    show (min (cb / 4) 1000) % 2 ^ 32 ≠ 0 →
      0 < ((min (cb / 4) 1000) % 2 ^ 32 * 2 ^ 2) % 2 ^ 32
        ∧ ((min (cb / 4) 1000) % 2 ^ 32 * 2 ^ 2) % 2 ^ 32 ≤ cb
    intro h
    omega
  · intro n cb
    show (min (cb / 4) 1000) % 2 ^ 32 ≠ 0 →
      0 < ((min (cb / 4) 1000) % 2 ^ 32 * 2 ^ 2) % 2 ^ 32
        ∧ ((min (cb / 4) 1000) % 2 ^ 32 * 2 ^ 2) % 2 ^ 32 ≤ cb
    intro h
    omega

/-- C2, evaluated where the code departs from it: on a host on which every call returns `noErr`, a
default device (512) is available and the audio unit reports 0 frames per slice, the Device
Watcher sets an Initialized stream to Reinitializing, and the transfer call that follows leaves
the stream Uninitialized without ring buffer (capture returns `VINF_SUCCESS`, playback
`VERR_INVALID_PARAMETER`). -/
theorem reinit_fails_on_zero_frames :
    activeStreamIn.status = CA_STATUS_INIT ∧ activeStreamOut.status = CA_STATUS_INIT
    ∧ (∀ n c, (deadDeviceZeroFramesOracle n c).err = noErr)
    ∧ (∀ n b, (deadDeviceZeroFramesOracle n (.GetDefaultDevice b)).u32 = 512)
    ∧ (watchIn .deviceStateChanged activeStreamIn ⟨deadDeviceZeroFramesOracle, []⟩).strm.status
        = CA_STATUS_REINIT
    ∧ (drvHostCoreAudioCaptureIn (2 ^ 64)
        (watchIn .deviceStateChanged activeStreamIn ⟨deadDeviceZeroFramesOracle, []⟩).strm
        (watchIn .deviceStateChanged activeStreamIn ⟨deadDeviceZeroFramesOracle, []⟩).env).map
          (fun r => (r.rc, r.strm.status, r.strm.pBuf))
        = some (VINF_SUCCESS, CA_STATUS_UNINIT, none)
    ∧ (watchOut .deviceStateChanged activeStreamOut ⟨deadDeviceZeroFramesOracle, []⟩).strm.status
        = CA_STATUS_REINIT
    ∧ (drvHostCoreAudioPlayOut (2 ^ 64)
        (watchOut .deviceStateChanged activeStreamOut ⟨deadDeviceZeroFramesOracle, []⟩).strm
        (watchOut .deviceStateChanged activeStreamOut ⟨deadDeviceZeroFramesOracle, []⟩).env).map
          (fun r => (r.rc, r.strm.status, r.strm.pBuf))
        = some (VERR_INVALID_PARAMETER, CA_STATUS_UNINIT, none) :=
  ⟨by decide, by decide, fun n c => by unfold deadDeviceZeroFramesOracle; split <;> rfl, fun _ _ => rfl, by decide, by decide,
    by decide, by decide⟩

/-- C2 (amended): for every stream with status Initialized on a host on which every call succeeds,
a default device is available, the sample count computed by init is not zero and the ring buffer
and the mixer buffer are well-behaved, once a Device Watcher callback has set the status to
Reinitializing, one transfer call (capture or playback) returns with the status Initialized
again and a ring buffer, and the next transfer call returns and reports success. -/
theorem reinit_recovery (o : Nat → Call → Resp) (sIn : COREAUDIOSTREAMIN) (sOut : COREAUDIOSTREAMOUT)
    (wIn wOut : WatcherEvent) (eIn eOut : Env) (fuel : Nat)
    (hok : HostOk o) (hoIn : eIn.oracle = o) (hoOut : eOut.oracle = o)
    (hxIn : XferOk o sIn.MixBuf) (hxOut : XferOk o sOut.MixBuf)
    (_hsIn : sIn.status = CA_STATUS_INIT) (_hsOut : sOut.status = CA_STATUS_INIT)
    (hwIn : (watchIn wIn sIn eIn).strm.status = CA_STATUS_REINIT)
    (hwOut : (watchOut wOut sOut eOut).strm.status = CA_STATUS_REINIT)
    (hneIn : ∀ n m au au2, inputSamplesFor sIn.Props
       (o n (.AudioUnitGetProperty au .MaximumFramesPerSlice .Global 0)).u32
       (o m (.AudioUnitGetProperty au2 .StreamFormat .Output 1)).fmt ≠ 0)
    (hneOut : ∀ n au, ((o n (.AudioUnitGetProperty au .MaximumFramesPerSlice .Global 0)).u32
              * sOut.Props.cChannels) % 2 ^ 32 ≠ 0)
    (hfuel : 2 ^ 64 ≤ fuel) :
    (∃ r1 r2,
        drvHostCoreAudioCaptureIn fuel (watchIn wIn sIn eIn).strm (watchIn wIn sIn eIn).env = some r1
        ∧ r1.strm.status = CA_STATUS_INIT ∧ r1.strm.pBuf.isSome = true
        ∧ drvHostCoreAudioCaptureIn fuel r1.strm r1.env = some r2 ∧ r2.rc = VINF_SUCCESS)
    ∧ (∃ r1 r2,
        drvHostCoreAudioPlayOut fuel (watchOut wOut sOut eOut).strm (watchOut wOut sOut eOut).env
          = some r1
        ∧ r1.strm.status = CA_STATUS_INIT ∧ r1.strm.pBuf.isSome = true
        ∧ drvHostCoreAudioPlayOut fuel r1.strm r1.env = some r2 ∧ r2.rc = VINF_SUCCESS) := by
  constructor
  · have hs1 := watchIn_flagged wIn sIn eIn hwIn
    have he1 : (watchIn wIn sIn eIn).env.oracle = o := (watchIn_frame wIn sIn eIn).2.1.trans hoIn
    obtain ⟨hrc, hst, ⟨cb, hpb⟩, hmb, hro⟩ := reinitInput_ok o (watchIn wIn sIn eIn).strm
      (watchIn wIn sIn eIn).env he1 hok hwIn (by rw [hs1]; exact hneIn)
    have hmb2 : (drvHostCoreAudioReinitInput (watchIn wIn sIn eIn).strm
        (watchIn wIn sIn eIn).env).strm.MixBuf = sIn.MixBuf := by rw [hmb, hs1]
    obtain ⟨r1, h1, _, h1s, h1o⟩ := captureIn_after_gate o (watchIn wIn sIn eIn).strm
      (watchIn wIn sIn eIn).env fuel hok hfuel _ (by rw [if_pos hwIn]) hst hro
      (by rw [hmb2]; exact hxIn)
    have h1st : r1.strm.status = CA_STATUS_INIT := by rw [h1s]; exact hst
    obtain ⟨r2, h2, h2rc, _, _⟩ := captureIn_after_gate o r1.strm r1.env fuel hok hfuel
      ⟨VINF_SUCCESS, r1.strm, r1.env⟩ (by rw [if_neg (by rw [h1st]; decide)]) h1st h1o
      (by dsimp only; rw [h1s, hmb2]; exact hxIn)
    exact ⟨r1, r2, h1, h1st, by rw [h1s, hpb]; rfl, h2, h2rc⟩
  · have hs1 := watchOut_flagged wOut sOut eOut hwOut
    have he1 : (watchOut wOut sOut eOut).env.oracle = o :=
      (watchOut_frame wOut sOut eOut).2.1.trans hoOut
    obtain ⟨hrc, hst, ⟨cb, hpb⟩, hmb, hro⟩ := reinitOutput_ok o (watchOut wOut sOut eOut).strm
      (watchOut wOut sOut eOut).env he1 hok hwOut (by rw [hs1]; exact hneOut)
    have hmb2 : (drvHostCoreAudioReinitOutput (watchOut wOut sOut eOut).strm
        (watchOut wOut sOut eOut).env).strm.MixBuf = sOut.MixBuf := by rw [hmb, hs1]
    obtain ⟨r1, h1, _, h1s, h1o⟩ := playOut_after_gate o (watchOut wOut sOut eOut).strm
      (watchOut wOut sOut eOut).env fuel hok hfuel _ (by rw [if_pos hwOut]) hrc hro
      (by rw [hmb2]; exact hxOut)
    have h1st : r1.strm.status = CA_STATUS_INIT := by rw [h1s]; exact hst
    obtain ⟨r2, h2, h2rc, _, _⟩ := playOut_after_gate o r1.strm r1.env fuel hok hfuel
      ⟨VINF_SUCCESS, r1.strm, r1.env⟩ (by rw [if_neg (by rw [h1st]; decide)]) rfl h1o
      (by dsimp only; rw [h1s, hmb2]; exact hxOut)
    exact ⟨r1, r2, h1, h1st, by rw [h1s, hpb]; rfl, h2, h2rc⟩

/-- Witness for C2: a device reported as no longer alive on a host on which every call succeeds. -/
theorem reinit_recovery_witness :
    (∃ r1 r2,
        drvHostCoreAudioCaptureIn (2 ^ 64)
          (watchIn .deviceStateChanged activeStreamIn ⟨recoveryOracle, []⟩).strm
          (watchIn .deviceStateChanged activeStreamIn ⟨recoveryOracle, []⟩).env = some r1
        ∧ r1.strm.status = CA_STATUS_INIT ∧ r1.strm.pBuf.isSome = true
        ∧ drvHostCoreAudioCaptureIn (2 ^ 64) r1.strm r1.env = some r2 ∧ r2.rc = VINF_SUCCESS)
    ∧ (∃ r1 r2,
        drvHostCoreAudioPlayOut (2 ^ 64)
          (watchOut .deviceStateChanged activeStreamOut ⟨recoveryOracle, []⟩).strm
          (watchOut .deviceStateChanged activeStreamOut ⟨recoveryOracle, []⟩).env = some r1
        ∧ r1.strm.status = CA_STATUS_INIT ∧ r1.strm.pBuf.isSome = true
        ∧ drvHostCoreAudioPlayOut (2 ^ 64) r1.strm r1.env = some r2 ∧ r2.rc = VINF_SUCCESS) :=
  reinit_recovery recoveryOracle activeStreamIn activeStreamOut .deviceStateChanged
    .deviceStateChanged ⟨recoveryOracle, []⟩ ⟨recoveryOracle, []⟩ (2 ^ 64)
    recoveryOracle_hostOk rfl rfl recoveryOracle_xferOk recoveryOracle_xferOk
    (by decide) (by decide) (by decide) (by decide)
    (fun _ _ _ _ => by
      show inputSamplesFor props44100 (512 % 2 ^ 32) fmt44100 ≠ 0
      decide)
    (fun _ _ => by
      show ((512 % 2 ^ 32) * 2) % 2 ^ 32 ≠ 0
      decide)
    (le_refl _)

/-! ## Device formats and conversion at init -/

/-- Format negotiation fails when the host refuses to create a converter from the device format
at hand. -/
theorem initInputFormat_rejected (o : Nat → Call → Resp) (s : COREAUDIOSTREAMIN) (e : Env)
    (cFrames : Nat) (ho : e.oracle = o)
    (hreq : s.Props.cChannels ≠ 0 ∧ s.Props.uHz ≠ 0)
    (hdev : s.deviceFormat.mChannelsPerFrame = 0 ∨ s.deviceFormat.mSampleRate = 0)
    (hrej : ∀ n src dst, (src.mChannelsPerFrame = 0 ∨ src.mSampleRate = 0) →
      (o n (.AudioConverterNew src dst)).err ≠ noErr) :
    (initInputFormat s e cFrames).rc = VERR_AUDIO_BACKEND_INIT_FAILED := by
  subst ho
  unfold initInputFormat
  dsimp only
  have hd : s.deviceFormat.mSampleRate ≠ (drvHostCoreAudioPCMInfoToASBDesc s.Props).mSampleRate
      ∨ s.deviceFormat.mChannelsPerFrame
          ≠ (drvHostCoreAudioPCMInfoToASBDesc s.Props).mChannelsPerFrame := by
    rcases hdev with h | h
    · exact Or.inr (by rw [h]; exact fun h2 => hreq.1 h2.symm)
    · exact Or.inl (by rw [h]; exact fun h2 => hreq.2 h2.symm)
  rw [if_pos hd, if_pos (by unfold Env.ask; exact hrej _ _ _ hdev)]

/-- The configuration of the audio unit fails when the host reports a device format without
channels or without sample rate and refuses to create a converter from it. -/
theorem initInputUnit_rejected (o : Nat → Call → Resp) (s : COREAUDIOSTREAMIN) (e : Env)
    (cFrames : Nat) (ho : e.oracle = o)
    (hreq : s.Props.cChannels ≠ 0 ∧ s.Props.uHz ≠ 0)
    (hdev : ∀ n au, (o n (.AudioUnitGetProperty au .StreamFormat .Input 1)).fmt.mChannelsPerFrame = 0
      ∨ (o n (.AudioUnitGetProperty au .StreamFormat .Input 1)).fmt.mSampleRate = 0)
    (hrej : ∀ n src dst, (src.mChannelsPerFrame = 0 ∨ src.mSampleRate = 0) →
      (o n (.AudioConverterNew src dst)).err ≠ noErr) :
    (initInputUnit s e cFrames).rc = VERR_AUDIO_BACKEND_INIT_FAILED := by
  subst ho
  unfold initInputUnit
  dsimp only
  split_ifs <;>
    first
      | rfl
      | exact initInputFormat_rejected e.oracle _ _ _ (by simp only [Env.tell_oracle]) hreq
          (hdev _ _) hrej

/-- The block of `drvHostCoreAudioInitInput` fails on such a host. -/
theorem initInputBody_rejected (o : Nat → Call → Resp) (s : COREAUDIOSTREAMIN) (e : Env)
    (deviceID : Nat) (ho : e.oracle = o)
    (hreq : s.Props.cChannels ≠ 0 ∧ s.Props.uHz ≠ 0)
    (hdev : ∀ n au, (o n (.AudioUnitGetProperty au .StreamFormat .Input 1)).fmt.mChannelsPerFrame = 0
      ∨ (o n (.AudioUnitGetProperty au .StreamFormat .Input 1)).fmt.mSampleRate = 0)
    (hrej : ∀ n src dst, (src.mChannelsPerFrame = 0 ∨ src.mSampleRate = 0) →
      (o n (.AudioConverterNew src dst)).err ≠ noErr) :
    (initInputBody s e deviceID).rc = VERR_AUDIO_BACKEND_INIT_FAILED := by
  subst ho
  unfold initInputBody
  dsimp only
  split_ifs <;>
    first
      | rfl
      | exact initInputUnit_rejected e.oracle _ _ _
          (by simp only [Env.tell_oracle, initLogDeviceName_oracle, setFrameBufferSize_oracle])
          hreq hdev hrej

/-- `drvHostCoreAudioInitInput` fails on such a host. -/
theorem initInput_rejected (o : Nat → Call → Resp) (s : COREAUDIOSTREAMIN) (e : Env)
    (ho : e.oracle = o)
    (hreq : s.Props.cChannels ≠ 0 ∧ s.Props.uHz ≠ 0)
    (hdev : ∀ n au, (o n (.AudioUnitGetProperty au .StreamFormat .Input 1)).fmt.mChannelsPerFrame = 0
      ∨ (o n (.AudioUnitGetProperty au .StreamFormat .Input 1)).fmt.mSampleRate = 0)
    (hrej : ∀ n src dst, (src.mChannelsPerFrame = 0 ∨ src.mSampleRate = 0) →
      (o n (.AudioConverterNew src dst)).err ≠ noErr) :
    RT_FAILURE (drvHostCoreAudioInitInput s e).rc := by
  subst ho
  unfold drvHostCoreAudioInitInput initInputWithDevice
  dsimp only
  split_ifs <;>
    first
      | (show (-78 : Int) < 0; decide)
      | (rw [initInputEpilogue_rc, initInputBody_rejected e.oracle _ _ _
            (by simp only [Env.tell_oracle]) hreq hdev hrej]
         show (-6600 : Int) < 0
         decide)

/-- C9, evaluated where the code departs from it: on a host on which every call returns `noErr`
and whose device reports a native format with 0 channels per frame, `drvHostCoreAudioInitInput`
for 44100 Hz / 2 ch / 16 bit returns `VINF_SUCCESS` with 1024 samples and leaves the stream
Initialized with a converter. -/
theorem init_accepts_zero_channel_device :
    (∀ n c, (noChannelsOracle n c).err = noErr)
    ∧ (∀ n c, (noChannelsOracle n c).fmt.mChannelsPerFrame = 0)
    ∧ freshStreamIn.status = CA_STATUS_UNINIT
    ∧ (drvHostCoreAudioInitInput freshStreamIn ⟨noChannelsOracle, []⟩).rc = VINF_SUCCESS
    ∧ ¬ RT_FAILURE (drvHostCoreAudioInitInput freshStreamIn ⟨noChannelsOracle, []⟩).rc
    ∧ (drvHostCoreAudioInitInput freshStreamIn ⟨noChannelsOracle, []⟩).cSamples = some 1024
    ∧ (drvHostCoreAudioInitInput freshStreamIn ⟨noChannelsOracle, []⟩).strm.status = CA_STATUS_INIT
    ∧ (drvHostCoreAudioInitInput freshStreamIn ⟨noChannelsOracle, []⟩).strm.deviceFormat.mChannelsPerFrame
        = 0
    ∧ (drvHostCoreAudioInitInput freshStreamIn ⟨noChannelsOracle, []⟩).strm.pConverter.isSome
        = true :=
  ⟨fun _ _ => rfl, fun _ _ => rfl, by decide, by decide, by decide, by decide, by decide,
    by decide, by decide⟩

/-- C9 (amended): for every input-stream init on an Uninitialized stream whose requested format has
channels and a sample rate, when the host reports a device native format with 0 channels per
frame or a sample rate of 0 and refuses to create a converter from such a format, init returns a
failure code and the status of the stream is Uninitialized on return. -/
theorem init_fails_when_converter_rejected (o : Nat → Call → Resp) (s : COREAUDIOSTREAMIN)
    (e : Env) (ho : e.oracle = o)
    (hs : s.status = CA_STATUS_UNINIT) (hb : s.pBuf = none)
    (hreq : s.Props.cChannels ≠ 0 ∧ s.Props.uHz ≠ 0)
    (hdev : ∀ n au, (o n (.AudioUnitGetProperty au .StreamFormat .Input 1)).fmt.mChannelsPerFrame = 0
      ∨ (o n (.AudioUnitGetProperty au .StreamFormat .Input 1)).fmt.mSampleRate = 0)
    (hrej : ∀ n src dst, (src.mChannelsPerFrame = 0 ∨ src.mSampleRate = 0) →
      (o n (.AudioConverterNew src dst)).err ≠ noErr) :
    RT_FAILURE (drvHostCoreAudioInitInput s e).rc
    ∧ (drvHostCoreAudioInitInput s e).strm.status = CA_STATUS_UNINIT :=
  ⟨initInput_rejected o s e ho hreq hdev hrej,
    (initInput_fail s e hs hb (initInput_rejected o s e ho hreq hdev hrej)).1⟩

/-- Witness for C9: a host that reports 0 channels and refuses the converter. -/
theorem init_fails_when_converter_rejected_witness :
    (∀ n au, (strictConverterOracle n
        (.AudioUnitGetProperty au .StreamFormat .Input 1)).fmt.mChannelsPerFrame = 0)
    ∧ (drvHostCoreAudioInitInput freshStreamIn ⟨strictConverterOracle, []⟩).rc
        = VERR_AUDIO_BACKEND_INIT_FAILED
    ∧ (RT_FAILURE (drvHostCoreAudioInitInput freshStreamIn ⟨strictConverterOracle, []⟩).rc
      ∧ (drvHostCoreAudioInitInput freshStreamIn ⟨strictConverterOracle, []⟩).strm.status
          = CA_STATUS_UNINIT) :=
  ⟨fun _ _ => rfl, by decide,
    init_fails_when_converter_rejected strictConverterOracle freshStreamIn
      ⟨strictConverterOracle, []⟩ rfl (by decide) (by decide) (by decide)
      (fun _ _ => Or.inl rfl)
      (fun n src dst h => by
        show (if src.mChannelsPerFrame = 0 ∨ src.mSampleRate = 0 then
            ({ okResp with err := -50, fmt := fmtNoChannels } : Resp)
          else { okResp with fmt := fmtNoChannels }).err ≠ noErr
        rw [if_pos h]
        decide)⟩

/-- On the host `okOracle` every call succeeds. -/
theorem okOracle_hostOk : HostOk okOracle := by
  refine ⟨?_, ?_, ?_, ?_⟩
  · intro n c; unfold okOracle; split <;> rfl
  · intro n; show (512 : Nat) ≠ 0; decide
  · intro n; show (512 : Nat) ≠ 0; decide
  · intro n b; show (512 : Nat) % 2 ^ 32 ≠ kAudioDeviceUnknown; decide

/-- C10, evaluated where the code departs from it: output init for 48000 Hz / 2 ch / 16 bit on a
host on which every call succeeds and whose device is natively at 44100 Hz / 2 ch returns
`VINF_SUCCESS` with 1024 samples, and its trace holds no `AudioConverterNew`: no converter is
created. -/
theorem output_init_creates_no_converter :
    (∀ n c, (okOracle n c).err = noErr)
    ∧ (∀ n c, (okOracle n c).fmt = fmt44100)
    ∧ fmt44100.mSampleRate = 44100 ∧ fmt44100.mChannelsPerFrame = 2
    ∧ props48000.uHz = 48000 ∧ props48000.cChannels = 2 ∧ props48000.cBits = 16
    ∧ (drvHostCoreAudioInitOutput { freshStreamOut with Props := props48000 } ⟨okOracle, []⟩).rc
        = VINF_SUCCESS
    ∧ (drvHostCoreAudioInitOutput { freshStreamOut with Props := props48000 }
        ⟨okOracle, []⟩).cSamples = some 1024
    ∧ (drvHostCoreAudioInitOutput { freshStreamOut with Props := props48000 }
        ⟨okOracle, []⟩).strm.streamFormat.mSampleRate = 48000
    ∧ ((drvHostCoreAudioInitOutput { freshStreamOut with Props := props48000 }
        ⟨okOracle, []⟩).env.log.filter (fun x => x.1.isConverterNew)) = []
    ∧ liveConverters (drvHostCoreAudioInitOutput { freshStreamOut with Props := props48000 }
        ⟨okOracle, []⟩).env.log = 0 :=
  ⟨fun n c => by unfold okOracle; split <;> rfl, fun n c => by unfold okOracle; split <;> rfl,
    by decide, by decide, by decide, by decide, by decide, by decide, by decide, by decide,
    by decide, by decide⟩

/-- C10 (amended): no output-stream init creates a sample converter, whatever the requested and
the native format are (the requested format is set on the audio unit); and when every host call
succeeds and the frame count the unit reports times the channel count is not zero, init returns
success and reports a sample count greater than 0. -/
theorem output_init_without_converter (o : Nat → Call → Resp) (s : COREAUDIOSTREAMOUT) (e : Env)
    (ho : e.oracle = o) (hok : HostOk o)
    (hne : ∀ n au, ((o n (.AudioUnitGetProperty au .MaximumFramesPerSlice .Global 0)).u32
              * s.Props.cChannels) % 2 ^ 32 ≠ 0) :
    (∀ x ∈ e.since (drvHostCoreAudioInitOutput s e).env, x.1.isConverterNew = false)
    ∧ (drvHostCoreAudioInitOutput s e).rc = VINF_SUCCESS
    ∧ (∃ c, (drvHostCoreAudioInitOutput s e).cSamples = some c ∧ 0 < c) :=
  ⟨(initOutput_adds s e e (Env.Adds.refl _ e)).since,
    (initOutput_ok o s e ho hok hne).1, (initOutput_ok o s e ho hok hne).2.1⟩

/-- Witness for C10: 48000 Hz / 2 ch / 16 bit on a device natively at 44100 Hz / 2 ch. -/
theorem output_init_without_converter_witness :
    (∀ x ∈ (⟨okOracle, []⟩ : Env).since
        (drvHostCoreAudioInitOutput { freshStreamOut with Props := props48000 } ⟨okOracle, []⟩).env,
      x.1.isConverterNew = false)
    ∧ (drvHostCoreAudioInitOutput { freshStreamOut with Props := props48000 } ⟨okOracle, []⟩).rc
        = VINF_SUCCESS
    ∧ (∃ c, (drvHostCoreAudioInitOutput { freshStreamOut with Props := props48000 }
        ⟨okOracle, []⟩).cSamples = some c ∧ 0 < c) :=
  output_init_without_converter okOracle { freshStreamOut with Props := props48000 }
    ⟨okOracle, []⟩ rfl okOracle_hostOk
    (fun _ _ => by
      show ((512 % 2 ^ 32) * 2) % 2 ^ 32 ≠ 0
      decide)

/-! ## Formats, converters and status codes of init -/

/-- C12: for every PCM property record whose frame size fits the 32-bit field that holds it (as
it does for every record of the C type, whose `cChannels` and `cBits` are 8 bit wide),
`drvHostCoreAudioPCMInfoToASBDesc` produces a linear-PCM descriptor with sample rate `uHz`,
`cChannels` channels per frame, `cBits` bits per channel, 1 frame per packet,
`cChannels * (cBits / 8)` bytes per frame (integer division), as many bytes per packet, and the
format flags Packed, plus SignedInteger exactly when `fSigned` is set. -/
theorem pcmInfoToASBDesc_mapping (p : PDMPCMPROPS) (hfit : p.cChannels * (p.cBits / 8) < 2 ^ 32) :
    (drvHostCoreAudioPCMInfoToASBDesc p).mFormatID = kAudioFormatLinearPCM
    ∧ (drvHostCoreAudioPCMInfoToASBDesc p).mSampleRate = p.uHz
    ∧ (drvHostCoreAudioPCMInfoToASBDesc p).mChannelsPerFrame = p.cChannels
    ∧ (drvHostCoreAudioPCMInfoToASBDesc p).mBitsPerChannel = p.cBits
    ∧ (drvHostCoreAudioPCMInfoToASBDesc p).mFramesPerPacket = 1
    ∧ (drvHostCoreAudioPCMInfoToASBDesc p).mBytesPerFrame = p.cChannels * (p.cBits / 8)
    ∧ (drvHostCoreAudioPCMInfoToASBDesc p).mBytesPerPacket
        = (drvHostCoreAudioPCMInfoToASBDesc p).mBytesPerFrame
    ∧ (drvHostCoreAudioPCMInfoToASBDesc p).mFormatFlags
        = (if p.fSigned = true then kAudioFormatFlagIsPacked + kAudioFormatFlagIsSignedInteger
           else kAudioFormatFlagIsPacked)
    ∧ ((drvHostCoreAudioPCMInfoToASBDesc p).mFormatFlags
          = kAudioFormatFlagIsPacked + kAudioFormatFlagIsSignedInteger ↔ p.fSigned = true) := by
  have h1 : (p.cChannels * (p.cBits / 8)) % 2 ^ 32 = p.cChannels * (p.cBits / 8) :=
    Nat.mod_eq_of_lt hfit
  refine ⟨rfl, rfl, rfl, rfl, rfl, ?_, ?_, ?_, ?_⟩
  · exact h1
  · show (1 * ((p.cChannels * (p.cBits / 8)) % 2 ^ 32)) % 2 ^ 32
      = (p.cChannels * (p.cBits / 8)) % 2 ^ 32
    rw [one_mul, Nat.mod_mod]
  · show (if p.fSigned = true then kAudioFormatFlagIsPacked ||| kAudioFormatFlagIsSignedInteger
        else kAudioFormatFlagIsPacked) = _
    cases p.fSigned <;> decide
  · show (if p.fSigned = true then kAudioFormatFlagIsPacked ||| kAudioFormatFlagIsSignedInteger
        else kAudioFormatFlagIsPacked) = _ ↔ _
    cases p.fSigned <;> decide

/-- Witness for C12: 44100 Hz, 2 channels, 16 bit signed gives 4 bytes per frame. -/
theorem pcmInfoToASBDesc_mapping_witness :
    (drvHostCoreAudioPCMInfoToASBDesc props44100).mBytesPerFrame = 4
    ∧ (drvHostCoreAudioPCMInfoToASBDesc props44100).mFormatFlags = 12 :=
  ⟨(pcmInfoToASBDesc_mapping props44100 (by decide)).2.2.2.2.2.1,
    (pcmInfoToASBDesc_mapping props44100 (by decide)).2.2.2.2.2.2.2.1⟩

/-- The last part of the block never touches the converter. -/
theorem initInputFinish_conv (s : COREAUDIOSTREAMIN) (e : Env) (cFrames : Nat) :
    (initInputFinish s e cFrames).strm.pConverter = s.pConverter := by
  unfold initInputFinish
  dsimp only
  split_ifs <;> rfl

/-- Format negotiation, when it succeeds, leaves a converter exactly when the sample rate or the
channel count of the device format differs from the requested one. -/
theorem initInputFormat_conv (s : COREAUDIOSTREAMIN) (e : Env) (cFrames : Nat)
    (hc : s.pConverter = none) (hrc : RT_SUCCESS (initInputFormat s e cFrames).rc) :
    ((initInputFormat s e cFrames).strm.pConverter.isSome = true
      ↔ (s.deviceFormat.mSampleRate ≠ s.Props.uHz
          ∨ s.deviceFormat.mChannelsPerFrame ≠ s.Props.cChannels)) := by
  unfold initInputFormat at hrc ⊢
  dsimp only at hrc ⊢
  by_cases hd : s.deviceFormat.mSampleRate ≠ (drvHostCoreAudioPCMInfoToASBDesc s.Props).mSampleRate
      ∨ s.deviceFormat.mChannelsPerFrame
          ≠ (drvHostCoreAudioPCMInfoToASBDesc s.Props).mChannelsPerFrame
  · rw [if_pos hd] at hrc ⊢
    have hd2 : s.deviceFormat.mSampleRate ≠ s.Props.uHz
        ∨ s.deviceFormat.mChannelsPerFrame ≠ s.Props.cChannels := hd
    split_ifs at hrc ⊢ <;>
      first
        | exact absurd hrc (by dsimp only [RT_SUCCESS]; decide)
        | (rw [initInputFinish_conv]; exact ⟨fun _ => hd2, fun _ => rfl⟩)
  · rw [if_neg hd] at hrc ⊢
    have hd2 : ¬ (s.deviceFormat.mSampleRate ≠ s.Props.uHz
        ∨ s.deviceFormat.mChannelsPerFrame ≠ s.Props.cChannels) := hd
    split_ifs at hrc ⊢ <;>
      first
        | exact absurd hrc (by dsimp only [RT_SUCCESS]; decide)
        | (rw [initInputFinish_conv]
           exact ⟨fun h => absurd (hc ▸ h : (none : Option Nat).isSome = true) (by decide),
             fun h => absurd h hd2⟩)

/-- The configuration of the audio unit, when it succeeds, leaves a converter exactly when the
format `dev` the host reports for the device differs from the requested one in sample rate or
channel count. -/
theorem initInputUnit_conv (o : Nat → Call → Resp) (s : COREAUDIOSTREAMIN) (e : Env)
    (cFrames : Nat) (dev : AudioStreamBasicDescription) (ho : e.oracle = o)
    (hdev : ∀ n au, (o n (.AudioUnitGetProperty au .StreamFormat .Input 1)).fmt = dev)
    (hc : s.pConverter = none) (hrc : RT_SUCCESS (initInputUnit s e cFrames).rc) :
    ((initInputUnit s e cFrames).strm.pConverter.isSome = true
      ↔ (dev.mSampleRate ≠ s.Props.uHz ∨ dev.mChannelsPerFrame ≠ s.Props.cChannels)) := by
  subst ho
  unfold initInputUnit at hrc ⊢
  dsimp only at hrc ⊢
  split_ifs at hrc ⊢ <;>
    first
      | exact absurd hrc (by dsimp only [RT_SUCCESS]; decide)
      | (have hq : (((((e.tell (Call.AudioUnitSetProperty s.audioUnit .EnableInOut .Input 1
              (.u32 1))).tell (Call.AudioUnitSetProperty s.audioUnit .EnableInOut .Output 0
              (.u32 0))).tell (Call.AudioUnitSetProperty s.audioUnit .CurrentDevice .Global 0
              (.u32 s.deviceID))).tell (Call.AudioUnitSetProperty s.audioUnit .SetInputCallback
              .Global 0 .callback)).ask
              (Call.AudioUnitGetProperty s.audioUnit .StreamFormat .Input 1)).fmt = dev :=
           hdev _ _
         rw [hq] at hrc ⊢
         exact initInputFormat_conv _ _ _ hc hrc)

/-- The block of `drvHostCoreAudioInitInput`, when it succeeds, leaves a converter exactly when
the device format differs from the requested one in sample rate or channel count. -/
theorem initInputBody_conv (o : Nat → Call → Resp) (s : COREAUDIOSTREAMIN) (e : Env)
    (deviceID : Nat) (dev : AudioStreamBasicDescription) (ho : e.oracle = o)
    (hdev : ∀ n au, (o n (.AudioUnitGetProperty au .StreamFormat .Input 1)).fmt = dev)
    (hc : s.pConverter = none) (hrc : RT_SUCCESS (initInputBody s e deviceID).rc) :
    ((initInputBody s e deviceID).strm.pConverter.isSome = true
      ↔ (dev.mSampleRate ≠ s.Props.uHz ∨ dev.mChannelsPerFrame ≠ s.Props.cChannels)) := by
  subst ho
  unfold initInputBody at hrc ⊢
  dsimp only at hrc ⊢
  split_ifs at hrc ⊢ <;>
    first
      | exact absurd hrc (by dsimp only [RT_SUCCESS]; decide)
      | exact initInputUnit_conv e.oracle _ _ _ dev
          (by simp only [Env.tell_oracle, initLogDeviceName_oracle, setFrameBufferSize_oracle])
          hdev hc hrc

/-- After a successful block the epilogue keeps the stream but for its status. -/
theorem initInputEpilogue_conv (b : InitBody COREAUDIOSTREAMIN) (h : RT_SUCCESS b.rc) :
    (initInputEpilogue b).strm.pConverter = b.strm.pConverter := by
  unfold initInputEpilogue
  rw [if_pos h]

/-- C11: for every successful input-stream init started with no converter attached, on a host
that reports the device native format `dev`, the stream has a converter on return if and only if
the sample rate of `dev` differs from the requested sample rate or its channels per frame differ
from the requested channel count; bit depth and signedness play no part in it.  (The handle that
`AudioConverterNew` hands out with `noErr` counts as a converter.) -/
theorem input_converter_iff_format_differs (o : Nat → Call → Resp) (s : COREAUDIOSTREAMIN) (e : Env)
    (dev : AudioStreamBasicDescription) (ho : e.oracle = o)
    (hdev : ∀ n au, (o n (.AudioUnitGetProperty au .StreamFormat .Input 1)).fmt = dev)
    (hc : s.pConverter = none) (hrc : RT_SUCCESS (drvHostCoreAudioInitInput s e).rc) :
    ((drvHostCoreAudioInitInput s e).strm.pConverter.isSome = true
      ↔ (dev.mSampleRate ≠ s.Props.uHz ∨ dev.mChannelsPerFrame ≠ s.Props.cChannels)) := by
  subst ho
  unfold drvHostCoreAudioInitInput initInputWithDevice at hrc ⊢
  dsimp only at hrc ⊢
  split_ifs at hrc ⊢ <;>
    first
      | exact absurd hrc (by dsimp only [RT_SUCCESS]; decide)
      | (rw [initInputEpilogue_rc] at hrc
         rw [initInputEpilogue_conv _ hrc]
         exact initInputBody_conv e.oracle _ _ _ dev (by simp only [Env.tell_oracle]) hdev hc hrc)

/-- Witness for C11: on a device natively at 44100 Hz / 2 ch a request for 48000 Hz gets a
converter. -/
theorem input_converter_iff_format_differs_witness :
    RT_SUCCESS (drvHostCoreAudioInitInput { freshStreamIn with Props := props48000 }
      ⟨okOracle, []⟩).rc
    ∧ (drvHostCoreAudioInitInput { freshStreamIn with Props := props48000 }
        ⟨okOracle, []⟩).strm.pConverter.isSome = true
    ∧ ((drvHostCoreAudioInitInput { freshStreamIn with Props := props48000 }
          ⟨okOracle, []⟩).strm.pConverter.isSome = true
        ↔ (fmt44100.mSampleRate ≠ props48000.uHz
            ∨ fmt44100.mChannelsPerFrame ≠ props48000.cChannels))
    ∧ (drvHostCoreAudioInitInput
        { freshStreamIn with Props := { props44100 with cBits := 8, fSigned := false } }
        ⟨okOracle, []⟩).strm.pConverter = none :=
  ⟨by decide, by decide,
    input_converter_iff_format_differs okOracle { freshStreamIn with Props := props48000 }
      ⟨okOracle, []⟩ fmt44100 rfl (fun _ _ => rfl) rfl (by decide),
    by decide⟩

/-- The status of the last part of the block of `drvHostCoreAudioInitInput` is
`VERR_AUDIO_BACKEND_INIT_FAILED` or what `RTCircBufCreate` returned. -/
theorem initInputFinish_code (o : Nat → Call → Resp) (P : Int → Prop) (s : COREAUDIOSTREAMIN)
    (e : Env) (cFrames : Nat) (ho : e.oracle = o) (hB : P VERR_AUDIO_BACKEND_INIT_FAILED)
    (hC : ∀ n cb, P (o n (.RTCircBufCreate cb)).err) :
    P (initInputFinish s e cFrames).rc := by
  subst ho
  unfold initInputFinish
  dsimp only
  cases hb : s.pBuf <;>
    simp only [Option.isSome_none, Option.isSome_some, Bool.false_eq_true, if_false, if_true] <;>
    split_ifs <;>
    first
      | exact hB
      | exact hC _ _

/-- The same for the format negotiation. -/
theorem initInputFormat_code (o : Nat → Call → Resp) (P : Int → Prop) (s : COREAUDIOSTREAMIN)
    (e : Env) (cFrames : Nat) (ho : e.oracle = o) (hB : P VERR_AUDIO_BACKEND_INIT_FAILED)
    (hC : ∀ n cb, P (o n (.RTCircBufCreate cb)).err) :
    P (initInputFormat s e cFrames).rc := by
  subst ho
  unfold initInputFormat
  dsimp only
  split_ifs <;>
    first
      | exact hB
      | exact initInputFinish_code e.oracle P _ _ _
          (by simp only [Env.tell_oracle, Env.oracle_ite_tell]) hB hC

/-- The same for the configuration of the audio unit. -/
theorem initInputUnit_code (o : Nat → Call → Resp) (P : Int → Prop) (s : COREAUDIOSTREAMIN)
    (e : Env) (cFrames : Nat) (ho : e.oracle = o) (hB : P VERR_AUDIO_BACKEND_INIT_FAILED)
    (hC : ∀ n cb, P (o n (.RTCircBufCreate cb)).err) :
    P (initInputUnit s e cFrames).rc := by
  subst ho
  unfold initInputUnit
  dsimp only
  split_ifs <;>
    first
      | exact hB
      | exact initInputFormat_code e.oracle P _ _ _ (by simp only [Env.tell_oracle]) hB hC

/-- The same for the whole block. -/
theorem initInputBody_code (o : Nat → Call → Resp) (P : Int → Prop) (s : COREAUDIOSTREAMIN)
    (e : Env) (deviceID : Nat) (ho : e.oracle = o) (hB : P VERR_AUDIO_BACKEND_INIT_FAILED)
    (hC : ∀ n cb, P (o n (.RTCircBufCreate cb)).err) :
    P (initInputBody s e deviceID).rc := by
  subst ho
  unfold initInputBody
  dsimp only
  split_ifs <;>
    first
      | exact hB
      | exact initInputUnit_code e.oracle P _ _ _
          (by simp only [Env.tell_oracle, initLogDeviceName_oracle, setFrameBufferSize_oracle])
          hB hC

/-- The status codes of `drvHostCoreAudioInitInput`. -/
theorem initInput_code (s : COREAUDIOSTREAMIN) (e : Env) :
    (resolvedDevice s.deviceID (e.ask (.GetDefaultDevice true)) = none →
        (drvHostCoreAudioInitInput s e).rc = VERR_NOT_FOUND)
    ∧ (resolvedDevice s.deviceID (e.ask (.GetDefaultDevice true)) ≠ none →
        InputInitCode e.oracle (drvHostCoreAudioInitInput s e).rc) := by
  have key : ∀ (e1 : Env) (d : Nat), e1.oracle = e.oracle → d ≠ kAudioDeviceUnknown →
      InputInitCode e.oracle (initInputWithDevice s e1 d).rc := by
    intro e1 d h1 hd
    unfold initInputWithDevice
    rw [if_neg hd, initInputEpilogue_rc]
    exact initInputBody_code e.oracle (InputInitCode e.oracle) _ _ _ h1 (Or.inr (Or.inl rfl))
      (fun n cb => by
        by_cases h : 0 ≤ (e.oracle n (.RTCircBufCreate cb)).err
        · exact Or.inl h
        · exact Or.inr (Or.inr ⟨n, cb, not_le.mp h, rfl⟩))
  unfold drvHostCoreAudioInitInput resolvedDevice
  dsimp only
  by_cases h0 : s.deviceID = kAudioDeviceUnknown
  · rw [if_pos h0, if_pos h0]
    by_cases h1 : (e.ask (.GetDefaultDevice true)).err ≠ noErr
    · rw [if_pos h1, if_pos h1]
      exact ⟨fun _ => rfl, fun h => absurd rfl h⟩
    · rw [if_neg h1, if_neg h1]
      by_cases h2 : (e.ask (.GetDefaultDevice true)).u32 = kAudioDeviceUnknown
      · rw [if_pos h2]
        refine ⟨fun _ => ?_, fun h => absurd rfl h⟩
        unfold initInputWithDevice
        rw [if_pos h2]
      · rw [if_neg h2]
        exact ⟨fun h => by simp at h, fun _ => key _ _ rfl h2⟩
  · rw [if_neg h0, if_neg h0]
    exact ⟨fun h => by simp at h, fun _ => key _ _ rfl h0⟩

/-- The status of the last part of the block of `drvHostCoreAudioInitOutput` is
`VERR_AUDIO_BACKEND_INIT_FAILED`, `VERR_INVALID_PARAMETER` for a sample count of 0, or what
`RTCircBufCreate` returned. -/
theorem initOutputFinish_code (o : Nat → Call → Resp) (P : Int → Prop) (s : COREAUDIOSTREAMOUT)
    (e : Env) (cFrames ch : Nat) (ho : e.oracle = o) (hch : s.streamFormat.mChannelsPerFrame = ch)
    (hB : P VERR_AUDIO_BACKEND_INIT_FAILED)
    (hI : (∃ n au, ((o n (.AudioUnitGetProperty au .MaximumFramesPerSlice .Global 0)).u32 * ch)
            % 2 ^ 32 = 0) → P VERR_INVALID_PARAMETER)
    (hC : ∀ n cb, P (o n (.RTCircBufCreate cb)).err) :
    P (initOutputFinish s e cFrames).rc := by
  subst ho
  subst hch
  unfold initOutputFinish
  dsimp only
  cases hb : s.pBuf <;>
    simp only [Option.isSome_none, Option.isSome_some, Bool.false_eq_true, if_false, if_true] <;>
    split_ifs with h1 h2 h3 h4 <;>
    first
      | exact hB
      | exact hC _ _
      | exact hI ⟨_, _, h4⟩

/-- The same for the configuration of the audio unit. -/
theorem initOutputUnit_code (o : Nat → Call → Resp) (P : Int → Prop) (s : COREAUDIOSTREAMOUT)
    (e : Env) (cFrames : Nat) (ho : e.oracle = o)
    (hB : P VERR_AUDIO_BACKEND_INIT_FAILED)
    (hI : (∃ n au, ((o n (.AudioUnitGetProperty au .MaximumFramesPerSlice .Global 0)).u32
            * s.Props.cChannels) % 2 ^ 32 = 0) → P VERR_INVALID_PARAMETER)
    (hC : ∀ n cb, P (o n (.RTCircBufCreate cb)).err) :
    P (initOutputUnit s e cFrames).rc := by
  subst ho
  unfold initOutputUnit
  dsimp only
  split_ifs <;>
    first
      | exact hB
      | exact initOutputFinish_code e.oracle P _ _ _ s.Props.cChannels
          (by simp only [Env.tell_oracle]) rfl hB hI hC

/-- The same for the whole block. -/
theorem initOutputBody_code (o : Nat → Call → Resp) (P : Int → Prop) (s : COREAUDIOSTREAMOUT)
    (e : Env) (deviceID : Nat) (ho : e.oracle = o)
    (hB : P VERR_AUDIO_BACKEND_INIT_FAILED)
    (hI : (∃ n au, ((o n (.AudioUnitGetProperty au .MaximumFramesPerSlice .Global 0)).u32
            * s.Props.cChannels) % 2 ^ 32 = 0) → P VERR_INVALID_PARAMETER)
    (hC : ∀ n cb, P (o n (.RTCircBufCreate cb)).err) :
    P (initOutputBody s e deviceID).rc := by
  subst ho
  unfold initOutputBody
  dsimp only
  split_ifs <;>
    first
      | exact hB
      | exact initOutputUnit_code e.oracle P _ _ _
          (by simp only [Env.tell_oracle, initLogDeviceName_oracle, setFrameBufferSize_oracle])
          hB hI hC

/-- The status codes of `drvHostCoreAudioInitOutput`. -/
theorem initOutput_code (s : COREAUDIOSTREAMOUT) (e : Env) :
    (resolvedDevice s.deviceID (e.ask (.GetDefaultDevice false)) = none →
        (drvHostCoreAudioInitOutput s e).rc = VERR_NOT_FOUND)
    ∧ (resolvedDevice s.deviceID (e.ask (.GetDefaultDevice false)) ≠ none →
        OutputInitCode e.oracle s.Props.cChannels (drvHostCoreAudioInitOutput s e).rc) := by
  have key : ∀ (e1 : Env) (d : Nat), e1.oracle = e.oracle → d ≠ kAudioDeviceUnknown →
      OutputInitCode e.oracle s.Props.cChannels (initOutputWithDevice s e1 d).rc := by
    intro e1 d h1 hd
    unfold initOutputWithDevice
    rw [if_neg hd, initOutputEpilogue_rc]
    exact initOutputBody_code e.oracle (OutputInitCode e.oracle s.Props.cChannels) _ _ _ h1
      (Or.inr (Or.inl rfl)) (fun h => Or.inr (Or.inr (Or.inl ⟨rfl, h⟩)))
      (fun n cb => by
        by_cases h : 0 ≤ (e.oracle n (.RTCircBufCreate cb)).err
        · exact Or.inl h
        · exact Or.inr (Or.inr (Or.inr ⟨n, cb, not_le.mp h, rfl⟩)))
  unfold drvHostCoreAudioInitOutput resolvedDevice
  dsimp only
  by_cases h0 : s.deviceID = kAudioDeviceUnknown
  · rw [if_pos h0, if_pos h0]
    by_cases h1 : (e.ask (.GetDefaultDevice false)).err ≠ noErr
    · rw [if_pos h1, if_pos h1]
      exact ⟨fun _ => rfl, fun h => absurd rfl h⟩
    · rw [if_neg h1, if_neg h1]
      by_cases h2 : (e.ask (.GetDefaultDevice false)).u32 = kAudioDeviceUnknown
      · rw [if_pos h2]
        refine ⟨fun _ => ?_, fun h => absurd rfl h⟩
        unfold initOutputWithDevice
        rw [if_pos h2]
      · rw [if_neg h2]
        exact ⟨fun h => by simp at h, fun _ => key _ _ rfl h2⟩
  · rw [if_neg h0, if_neg h0]
    exact ⟨fun h => by simp at h, fun _ => key _ _ rfl h0⟩

/-- C13, evaluated where the code departs from it: with a device resolved (the default device
512), output init on a host that reports 0 frames per slice returns `VERR_INVALID_PARAMETER`,
and input init on a host whose ring buffer creation fails returns the status of
`RTCircBufCreate`, `VERR_NO_MEMORY`; neither is `VERR_NOT_FOUND` or
`VERR_AUDIO_BACKEND_INIT_FAILED`. -/
theorem init_returns_other_failure_codes :
    resolvedDevice freshStreamOut.deviceID
        ((⟨zeroFramesOracle, []⟩ : Env).ask (.GetDefaultDevice false)) = some 512
    ∧ (drvHostCoreAudioInitOutput freshStreamOut ⟨zeroFramesOracle, []⟩).rc
        = VERR_INVALID_PARAMETER
    ∧ resolvedDevice freshStreamIn.deviceID
        ((⟨ringBufFailOracle, []⟩ : Env).ask (.GetDefaultDevice true)) = some 512
    ∧ (drvHostCoreAudioInitInput freshStreamIn ⟨ringBufFailOracle, []⟩).rc = VERR_NO_MEMORY
    ∧ RT_FAILURE VERR_INVALID_PARAMETER ∧ RT_FAILURE VERR_NO_MEMORY
    ∧ VERR_INVALID_PARAMETER ≠ VERR_NOT_FOUND
    ∧ VERR_INVALID_PARAMETER ≠ VERR_AUDIO_BACKEND_INIT_FAILED
    ∧ VERR_NO_MEMORY ≠ VERR_NOT_FOUND ∧ VERR_NO_MEMORY ≠ VERR_AUDIO_BACKEND_INIT_FAILED := by
  refine ⟨by decide, by decide, by decide, by decide, by decide, by decide, by decide, by decide,
    by decide, by decide⟩

/-- C13 (amended): for every init call (either direction), the result is `VERR_NOT_FOUND` when no
device id could be resolved (the default-device query failed or returned the unknown device);
otherwise it is a success, or `VERR_AUDIO_BACKEND_INIT_FAILED` for a failing step (for input
including a computed sample count of 0), or, for output, `VERR_INVALID_PARAMETER` for a computed
sample count of 0, or the failure status that `RTCircBufCreate` reported; so, when
`RTCircBufCreate` never reports `VERR_NOT_FOUND`, the result is `VERR_NOT_FOUND` exactly when no
device id could be resolved. -/
theorem init_status_codes (sIn : COREAUDIOSTREAMIN) (sOut : COREAUDIOSTREAMOUT) (eIn eOut : Env) :
    ((resolvedDevice sIn.deviceID (eIn.ask (.GetDefaultDevice true)) = none →
          (drvHostCoreAudioInitInput sIn eIn).rc = VERR_NOT_FOUND)
      ∧ (resolvedDevice sIn.deviceID (eIn.ask (.GetDefaultDevice true)) ≠ none →
          InputInitCode eIn.oracle (drvHostCoreAudioInitInput sIn eIn).rc)
      ∧ ((∀ n cb, (eIn.oracle n (.RTCircBufCreate cb)).err ≠ VERR_NOT_FOUND) →
          ((drvHostCoreAudioInitInput sIn eIn).rc = VERR_NOT_FOUND
            ↔ resolvedDevice sIn.deviceID (eIn.ask (.GetDefaultDevice true)) = none)))
    ∧ ((resolvedDevice sOut.deviceID (eOut.ask (.GetDefaultDevice false)) = none →
          (drvHostCoreAudioInitOutput sOut eOut).rc = VERR_NOT_FOUND)
      ∧ (resolvedDevice sOut.deviceID (eOut.ask (.GetDefaultDevice false)) ≠ none →
          OutputInitCode eOut.oracle sOut.Props.cChannels (drvHostCoreAudioInitOutput sOut eOut).rc)
      ∧ ((∀ n cb, (eOut.oracle n (.RTCircBufCreate cb)).err ≠ VERR_NOT_FOUND) →
          ((drvHostCoreAudioInitOutput sOut eOut).rc = VERR_NOT_FOUND
            ↔ resolvedDevice sOut.deviceID (eOut.ask (.GetDefaultDevice false)) = none))) := by
  refine ⟨⟨(initInput_code sIn eIn).1, (initInput_code sIn eIn).2, fun hnf => ⟨fun h => ?_,
    (initInput_code sIn eIn).1⟩⟩, ⟨(initOutput_code sOut eOut).1, (initOutput_code sOut eOut).2,
    fun hnf => ⟨fun h => ?_, (initOutput_code sOut eOut).1⟩⟩⟩
  · by_contra hr
    rcases (initInput_code sIn eIn).2 hr with h1 | h1 | ⟨n, cb, _, h1⟩
    · rw [h] at h1; exact absurd h1 (by decide)
    · rw [h] at h1; exact absurd h1 (by decide)
    · rw [h] at h1; exact hnf n cb h1.symm
  · by_contra hr
    rcases (initOutput_code sOut eOut).2 hr with h1 | h1 | ⟨h1, _⟩ | ⟨n, cb, _, h1⟩
    · rw [h] at h1; exact absurd h1 (by decide)
    · rw [h] at h1; exact absurd h1 (by decide)
    · rw [h] at h1; exact absurd h1 (by decide)
    · rw [h] at h1; exact hnf n cb h1.symm

/-! ## Device Watcher notifications, listeners and retries -/

/-- C15 (fini unregisters every listener), evaluated where the code departs from it: after a
successful open and a successful fini on a host that accepts every registration and removal, the
default-device listener of the stream is still in the registry, for input and for output: it was
registered with the callback context of the stream as client and fini asks to remove it with the
stream as client. -/
theorem fini_leaves_default_device_listener :
    registeredListeners [] = []
    ∧ RT_SUCCESS (drvHostCoreAudioInitIn freshStreamIn ⟨okOracle, []⟩ VINF_SUCCESS props44100).rc
    ∧ (drvHostCoreAudioInitIn freshStreamIn ⟨okOracle, []⟩ VINF_SUCCESS
        props44100).strm.fDefDevChgListReg = true
    ∧ (drvHostCoreAudioInitIn freshStreamIn ⟨okOracle, []⟩ VINF_SUCCESS
        props44100).strm.fDevStateChgListReg = true
    ∧ registeredListeners
        (drvHostCoreAudioInitIn freshStreamIn ⟨okOracle, []⟩ VINF_SUCCESS props44100).env.log
      = [⟨512, .NominalSampleRate, .RecordingAudioDevicePropertyChanged, .pStream⟩,
         ⟨kAudioObjectSystemObject, .DefaultInputDevice, .DefaultDeviceChanged, .pCbCtx⟩,
         ⟨512, .DeviceIsAlive, .DeviceStateChanged, .pCbCtx⟩]
    ∧ (drvHostCoreAudioFiniIn
          (drvHostCoreAudioInitIn freshStreamIn ⟨okOracle, []⟩ VINF_SUCCESS props44100).strm
          (drvHostCoreAudioInitIn freshStreamIn ⟨okOracle, []⟩ VINF_SUCCESS props44100).env).rc
        = VINF_SUCCESS
    ∧ registeredListeners
        (drvHostCoreAudioFiniIn
          (drvHostCoreAudioInitIn freshStreamIn ⟨okOracle, []⟩ VINF_SUCCESS props44100).strm
          (drvHostCoreAudioInitIn freshStreamIn ⟨okOracle, []⟩ VINF_SUCCESS props44100).env
        ).env.log
      = [⟨kAudioObjectSystemObject, .DefaultInputDevice, .DefaultDeviceChanged, .pCbCtx⟩]
    ∧ registeredListeners
        (drvHostCoreAudioFiniOut
          (drvHostCoreAudioInitOut freshStreamOut ⟨okOracle, []⟩ VINF_SUCCESS props44100).strm
          (drvHostCoreAudioInitOut freshStreamOut ⟨okOracle, []⟩ VINF_SUCCESS props44100).env
        ).env.log
      = [⟨kAudioObjectSystemObject, .DefaultOutputDevice, .DefaultDeviceChanged, .pCbCtx⟩] := by
  refine ⟨by decide, by decide, by decide, by decide, by decide, by decide, by decide, by decide⟩

/-- The copy loop of `drvHostCoreAudioPlayOut` makes ring buffer and mixer buffer calls only. -/
theorem playOutLoop_adds (s : COREAUDIOSTREAMOUT) (e0 : Env) :
    ∀ (fuel cbToRead total : Nat) (rc : Int) (e : Env) (l : LoopRes),
      Env.Adds transferCall e0 e → playOutLoop s fuel cbToRead total rc e = some l →
      Env.Adds transferCall e0 l.env := by
  intro fuel
  induction fuel with
  | zero =>
    intro cbToRead total rc e l ha h
    unfold playOutLoop at h
    split_ifs at h
    cases h; exact ha
  | succ fuel ih =>
    intro cbToRead total rc e l ha h
    unfold playOutLoop at h
    dsimp only at h
    split_ifs at h
    · cases h; exact ha
    · cases h
      exact Env.Adds.tell _ (Or.inl rfl) (Env.Adds.tell _ (Or.inl rfl) ha)
    · cases h
      exact Env.Adds.tell _ (Or.inl rfl) (Env.Adds.tell _ (Or.inr rfl)
        (Env.Adds.tell _ (Or.inl rfl) ha))
    · have ha2 : Env.Adds transferCall e0
          (((e.tell (.RTCircBufAcquireWriteBlock s.pBuf cbToRead)).tell
              (.AudioMixBufReadCirc (e.ask (.RTCircBufAcquireWriteBlock s.pBuf cbToRead)).size)).tell
            (.RTCircBufReleaseWriteBlock s.pBuf (AUDIOMIXBUF_S2B s.MixBuf
              ((e.tell (.RTCircBufAcquireWriteBlock s.pBuf cbToRead)).ask
                (.AudioMixBufReadCirc
                  (e.ask (.RTCircBufAcquireWriteBlock s.pBuf cbToRead)).size)).u32))) :=
        Env.Adds.tell _ (Or.inl rfl) (Env.Adds.tell _ (Or.inr rfl)
          (Env.Adds.tell _ (Or.inl rfl) ha))
      exact ih _ _ _ _ _ ha2 h

/-- A playback transfer on a stream that is not flagged for reinitialisation keeps the stream
and makes ring buffer and mixer buffer calls only. -/
theorem playOut_no_reinit (s : COREAUDIOSTREAMOUT) (e : Env) (fuel : Nat)
    (r : XferRes COREAUDIOSTREAMOUT) (hs : s.status ≠ CA_STATUS_REINIT)
    (h : drvHostCoreAudioPlayOut fuel s e = some r) :
    r.strm = s ∧ Env.Adds transferCall e r.env := by
  unfold drvHostCoreAudioPlayOut at h
  rw [if_neg hs] at h
  dsimp only at h
  rw [if_neg (by decide)] at h
  split_ifs at h with h1
  · cases h
    exact ⟨rfl, Env.Adds.tell _ (Or.inr rfl) (Env.Adds.refl _ e)⟩
  · have ha : Env.Adds transferCall e (((e.tell .AudioMixBufAvail).tell .AudioMixBufAvail).tell
        (.RTCircBufFree s.pBuf)) :=
      Env.Adds.tell _ (Or.inl rfl) (Env.Adds.tell _ (Or.inr rfl)
        (Env.Adds.tell _ (Or.inr rfl) (Env.Adds.refl _ e)))
    split at h
    · simp at h
    · rename_i l hl
      have hl2 := playOutLoop_adds s e _ _ _ _ _ l ha hl
      split_ifs at h
      · cases h
        exact ⟨rfl, Env.Adds.tell _ (Or.inr rfl) hl2⟩
      · cases h
        exact ⟨rfl, hl2⟩
      · cases h
        exact ⟨rfl, hl2⟩

/-- A capture transfer on a stream that is neither flagged for reinitialisation nor initialized
returns at once. -/
theorem captureIn_idle (s : COREAUDIOSTREAMIN) (e : Env) (fuel : Nat)
    (hs : s.status ≠ CA_STATUS_REINIT) (hi : s.status ≠ CA_STATUS_INIT) :
    drvHostCoreAudioCaptureIn fuel s e = some ⟨VINF_SUCCESS, some 0, s, e⟩ := by
  unfold drvHostCoreAudioCaptureIn
  rw [if_neg hs]
  dsimp only
  rw [if_pos hi]

/-- A reinitialisation of an input stream whose fini succeeds and whose init fails leaves the
stream Uninitialized. -/
theorem reinitInput_failed (s : COREAUDIOSTREAMIN) (e : Env) (hs : s.status = CA_STATUS_REINIT)
    (hf : RT_SUCCESS (drvHostCoreAudioFiniIn s e).rc)
    (hi : RT_FAILURE (drvHostCoreAudioInitInput (drvHostCoreAudioFiniIn s e).strm
      (drvHostCoreAudioFiniIn s e).env).rc) :
    RT_FAILURE (drvHostCoreAudioReinitInput s e).rc
    ∧ (drvHostCoreAudioReinitInput s e).strm.status = CA_STATUS_UNINIT := by
  have hg : s.status = CA_STATUS_INIT ∨ s.status = CA_STATUS_REINIT := Or.inr hs
  have hc : RT_SUCCESS (drvHostCoreAudioControlIn s e .DISABLE).rc := by
    by_contra hc
    rw [finiIn_fail s e hg hc] at hf
    exact absurd hf (by dsimp only [RT_SUCCESS]; decide)
  have hp := finiInTeardown_post s (drvHostCoreAudioControlIn s e .DISABLE).env
  have hst : (drvHostCoreAudioFiniIn s e).strm.status = CA_STATUS_UNINIT := by
    rw [finiIn_ok s e hg hc]; exact hp.1
  have hpb : (drvHostCoreAudioFiniIn s e).strm.pBuf = none := by
    rw [finiIn_ok s e hg hc]; exact hp.2.2.1
  have h2 := initInput_fail _ _ hst hpb hi
  unfold drvHostCoreAudioReinitInput
  dsimp only
  rw [if_pos hf, if_neg (not_le.mpr hi)]
  exact ⟨hi, h2.1⟩

/-- A reinitialisation of an output stream whose fini succeeds and whose init fails leaves the
stream Uninitialized. -/
theorem reinitOutput_failed (s : COREAUDIOSTREAMOUT) (e : Env) (hs : s.status = CA_STATUS_REINIT)
    (hf : RT_SUCCESS (drvHostCoreAudioFiniOut s e).rc)
    (hi : RT_FAILURE (drvHostCoreAudioInitOutput (drvHostCoreAudioFiniOut s e).strm
      (drvHostCoreAudioFiniOut s e).env).rc) :
    RT_FAILURE (drvHostCoreAudioReinitOutput s e).rc
    ∧ (drvHostCoreAudioReinitOutput s e).strm.status = CA_STATUS_UNINIT := by
  have hg : s.status = CA_STATUS_INIT ∨ s.status = CA_STATUS_REINIT := Or.inr hs
  have hc : RT_SUCCESS (drvHostCoreAudioControlOut s e .DISABLE).rc := by
    by_contra hc
    rw [finiOut_fail s e hg hc] at hf
    exact hc hf
  have hp := finiOutTeardown_post s (drvHostCoreAudioControlOut s e .DISABLE).env
  have hst : (drvHostCoreAudioFiniOut s e).strm.status = CA_STATUS_UNINIT := by
    rw [finiOut_ok s e hg hc]; exact hp.1
  have hpb : (drvHostCoreAudioFiniOut s e).strm.pBuf = none := by
    rw [finiOut_ok s e hg hc]; exact hp.2.2.1
  have h2 := initOutput_fail _ _ hst hpb hi
  unfold drvHostCoreAudioReinitOutput
  dsimp only
  rw [if_pos hf, if_neg (not_le.mpr hi)]
  exact ⟨hi, h2.1⟩

/-- C16 (amended): for every stream flagged Reinitializing, if the reinitialization attempted by
a transfer call fails because init fails (fini succeeded, init returned a failure), the stream is
Uninitialized on return (playback returns the failure), and no later transfer call attempts init
again, whatever the host would answer then: a capture call returns at once with success and 0
samples without any call and leaves the stream as it is; a playback call that returns leaves the
stream as it is and makes ring buffer and mixer buffer calls only. -/
theorem failed_reinit_is_final (sIn : COREAUDIOSTREAMIN) (sOut : COREAUDIOSTREAMOUT)
    (eIn eOut : Env) (fuel : Nat)
    (hsIn : sIn.status = CA_STATUS_REINIT) (hsOut : sOut.status = CA_STATUS_REINIT)
    (hfIn : RT_SUCCESS (drvHostCoreAudioFiniIn sIn eIn).rc)
    (hiIn : RT_FAILURE (drvHostCoreAudioInitInput (drvHostCoreAudioFiniIn sIn eIn).strm
      (drvHostCoreAudioFiniIn sIn eIn).env).rc)
    (hfOut : RT_SUCCESS (drvHostCoreAudioFiniOut sOut eOut).rc)
    (hiOut : RT_FAILURE (drvHostCoreAudioInitOutput (drvHostCoreAudioFiniOut sOut eOut).strm
      (drvHostCoreAudioFiniOut sOut eOut).env).rc) :
    (∃ r1, drvHostCoreAudioCaptureIn fuel sIn eIn = some r1
        ∧ r1.strm.status = CA_STATUS_UNINIT
        ∧ ∀ fuel2 e2, drvHostCoreAudioCaptureIn fuel2 r1.strm e2
            = some ⟨VINF_SUCCESS, some 0, r1.strm, e2⟩)
    ∧ (∃ r1, drvHostCoreAudioPlayOut fuel sOut eOut = some r1
        ∧ RT_FAILURE r1.rc ∧ r1.strm.status = CA_STATUS_UNINIT
        ∧ ∀ fuel2 e2 r2, drvHostCoreAudioPlayOut fuel2 r1.strm e2 = some r2 →
            r2.strm = r1.strm ∧ Env.Adds transferCall e2 r2.env) := by
  constructor
  · obtain ⟨_, hst⟩ := reinitInput_failed sIn eIn hsIn hfIn hiIn
    have hni : (drvHostCoreAudioReinitInput sIn eIn).strm.status ≠ CA_STATUS_INIT := by
      rw [hst]; decide
    have hnr : (drvHostCoreAudioReinitInput sIn eIn).strm.status ≠ CA_STATUS_REINIT := by
      rw [hst]; decide
    refine ⟨⟨VINF_SUCCESS, some 0, (drvHostCoreAudioReinitInput sIn eIn).strm,
      (drvHostCoreAudioReinitInput sIn eIn).env⟩, ?_, hst, fun fuel2 e2 =>
        captureIn_idle _ e2 fuel2 hnr hni⟩
    unfold drvHostCoreAudioCaptureIn
    rw [if_pos hsIn]
    dsimp only
    rw [if_pos hni]
  · obtain ⟨hrc, hst⟩ := reinitOutput_failed sOut eOut hsOut hfOut hiOut
    have hnr : (drvHostCoreAudioReinitOutput sOut eOut).strm.status ≠ CA_STATUS_REINIT := by
      rw [hst]; decide
    refine ⟨⟨(drvHostCoreAudioReinitOutput sOut eOut).rc, none,
      (drvHostCoreAudioReinitOutput sOut eOut).strm,
      (drvHostCoreAudioReinitOutput sOut eOut).env⟩, ?_, hrc, hst, fun fuel2 e2 r2 h =>
        playOut_no_reinit _ e2 fuel2 r2 hnr h⟩
    unfold drvHostCoreAudioPlayOut
    rw [if_pos hsOut]
    dsimp only
    rw [if_pos hrc]
/-- C16, evaluated where the code departs from it: on a host whose default-device query fails
during the first 10 calls and succeeds afterwards, the transfer call on a stream flagged
Reinitializing leaves it Uninitialized; although init would succeed from then on, the next
transfer calls do not attempt it: the stream stays Uninitialized, capture makes no call at all
and playback only asks the mixer buffer. -/
theorem failed_reinit_is_not_retried :
    ((drvHostCoreAudioCaptureIn (2 ^ 64) { activeStreamIn with status := CA_STATUS_REINIT }
        ⟨lateDeviceOracle, []⟩).map
          (fun r => (r.rc, r.strm.status, r.env.log.length,
            (drvHostCoreAudioInitInput r.strm r.env).rc,
            (drvHostCoreAudioInitInput r.strm r.env).strm.status)))
      = some (VINF_SUCCESS, CA_STATUS_UNINIT, 10, VINF_SUCCESS, CA_STATUS_INIT)
    ∧ (((drvHostCoreAudioCaptureIn (2 ^ 64) { activeStreamIn with status := CA_STATUS_REINIT }
        ⟨lateDeviceOracle, []⟩).bind
          (fun r => drvHostCoreAudioCaptureIn (2 ^ 64) r.strm r.env)).map
          (fun r => (r.rc, r.strm.status, r.env.log.length)))
      = some (VINF_SUCCESS, CA_STATUS_UNINIT, 10)
    ∧ ((((drvHostCoreAudioCaptureIn (2 ^ 64) { activeStreamIn with status := CA_STATUS_REINIT }
        ⟨lateDeviceOracle, []⟩).bind
          (fun r => drvHostCoreAudioCaptureIn (2 ^ 64) r.strm r.env)).bind
          (fun r => drvHostCoreAudioCaptureIn (2 ^ 64) r.strm r.env)).map
          (fun r => (r.rc, r.strm.status, r.env.log.length)))
      = some (VINF_SUCCESS, CA_STATUS_UNINIT, 10)
    ∧ ((drvHostCoreAudioPlayOut (2 ^ 64) { activeStreamOut with status := CA_STATUS_REINIT }
        ⟨lateDeviceOracle, []⟩).map
          (fun r => (r.rc, r.strm.status, r.env.log.length,
            (drvHostCoreAudioInitOutput r.strm r.env).rc)))
      = some (VERR_NOT_FOUND, CA_STATUS_UNINIT, 10, VINF_SUCCESS)
    ∧ (((drvHostCoreAudioPlayOut (2 ^ 64) { activeStreamOut with status := CA_STATUS_REINIT }
        ⟨lateDeviceOracle, []⟩).bind
          (fun r => drvHostCoreAudioPlayOut (2 ^ 64) r.strm r.env)).map
          (fun r => (r.rc, r.strm.status, r.env.log.drop 10 |>.map (fun x => x.1))))
      = some (VINF_SUCCESS, CA_STATUS_UNINIT, [.AudioMixBufAvail]) := by
  refine ⟨by decide, by decide, by decide, by decide, by decide⟩

/-- Witness for C16: a stream flagged Reinitializing on a host without default device. -/
theorem failed_reinit_is_final_witness :
    (∃ r1, drvHostCoreAudioCaptureIn 0 { activeStreamIn with status := CA_STATUS_REINIT }
          ⟨lateDeviceOracle, []⟩ = some r1
        ∧ r1.strm.status = CA_STATUS_UNINIT
        ∧ ∀ fuel2 e2, drvHostCoreAudioCaptureIn fuel2 r1.strm e2
            = some ⟨VINF_SUCCESS, some 0, r1.strm, e2⟩)
    ∧ (∃ r1, drvHostCoreAudioPlayOut 0 { activeStreamOut with status := CA_STATUS_REINIT }
          ⟨lateDeviceOracle, []⟩ = some r1
        ∧ RT_FAILURE r1.rc ∧ r1.strm.status = CA_STATUS_UNINIT
        ∧ ∀ fuel2 e2 r2, drvHostCoreAudioPlayOut fuel2 r1.strm e2 = some r2 →
            r2.strm = r1.strm ∧ Env.Adds transferCall e2 r2.env) :=
  failed_reinit_is_final { activeStreamIn with status := CA_STATUS_REINIT }
    { activeStreamOut with status := CA_STATUS_REINIT } ⟨lateDeviceOracle, []⟩
    ⟨lateDeviceOracle, []⟩ 0 (by decide) (by decide) (by decide) (by decide) (by decide)
    (by decide)

/-! ## Device enumeration -/

/-- One round of the device loop on a host that answers every query: the device is counted
when it exposes a channel. -/
theorem enumerateDevice_ok (o : Nat → Call → Resp) (devs : List Nat)
    (cfg : Nat → Bool → List Nat) (hok : EnumOk o devs cfg) (fIn : Bool) (acc : Nat × Env)
    (d : Nat) (ho : acc.2.oracle = o) :
    (enumerateDevice fIn acc d).1
        = (if exposesChannels (cfg d fIn) = true then (acc.1 + 1) % 2 ^ 8 else acc.1)
      ∧ (enumerateDevice fIn acc d).2.oracle = o := by
  obtain ⟨c, e⟩ := acc
  dsimp only at ho
  subst ho
  unfold enumerateDevice
  simp only [Env.ask, Env.tell_oracle, hok.cfgSize, hok.alloc, hok.config, hok.name, hok.maxSize,
    hok.strAlloc, hok.cstring, ne_eq, not_true_eq_false, not_false_eq_true, if_false, if_true,
    decide_True, Bool.true_and]
  by_cases hx : exposesChannels (cfg d fIn) = true
  · have hx2 := hx
    unfold exposesChannels at hx2
    simp only [hx2, hx, if_true, Bool.true_eq_false, if_false]
    exact ⟨trivial, rfl⟩
  · have hx2 := hx
    unfold exposesChannels at hx2
    simp only [hx2, hx, if_true, Bool.true_eq_false, if_false]
    exact ⟨by rw [if_neg (by decide)], rfl⟩

/-- The device loop on a host that answers every query. -/
theorem enumerateFold_ok (o : Nat → Call → Resp) (devs : List Nat)
    (cfg : Nat → Bool → List Nat) (hok : EnumOk o devs cfg) (fIn : Bool) :
    ∀ (l : List Nat) (acc : Nat × Env), acc.2.oracle = o → acc.1 < 2 ^ 8 →
      (l.foldl (enumerateDevice fIn) acc).1 = (acc.1 + exposedDevices l cfg fIn) % 2 ^ 8 := by
  intro l
  induction l with
  | nil =>
    intro acc _ hlt
    show acc.1 = (acc.1 + 0) % 2 ^ 8
    rw [Nat.add_zero, Nat.mod_eq_of_lt hlt]
  | cons x xs ih =>
    intro acc ho hlt
    obtain ⟨h1, h2⟩ := enumerateDevice_ok o devs cfg hok fIn acc x ho
    rw [List.foldl_cons]
    by_cases hx : exposesChannels (cfg x fIn) = true
    · rw [if_pos hx] at h1
      rw [ih _ h2 (by rw [h1]; exact Nat.mod_lt _ (by decide)), h1]
      have hc : exposedDevices (x :: xs) cfg fIn = exposedDevices xs cfg fIn + 1 := by
        unfold exposedDevices
        rw [List.filter_cons_of_pos (by exact hx), List.length_cons]
      rw [hc]
      omega
    · rw [if_neg hx] at h1
      rw [ih _ h2 (by rw [h1]; exact hlt), h1]
      have hc : exposedDevices (x :: xs) cfg fIn = exposedDevices xs cfg fIn := by
        unfold exposedDevices
        rw [List.filter_cons_of_neg (by exact hx)]
      rw [hc]

/-- The count of `drvHostCoreAudioDevicesEnumerate` on a host that answers every query is the
number of devices that expose a channel, as the `uint8_t` counter holds it. -/
theorem devicesEnumerate_ok (o : Nat → Call → Resp) (devs : List Nat)
    (cfg : Nat → Bool → List Nat) (hok : EnumOk o devs cfg) (fIn : Bool) (e : Env)
    (ho : e.oracle = o) :
    (drvHostCoreAudioDevicesEnumerate e fIn).1 = exposedDevices devs cfg fIn % 2 ^ 8 := by
  subst ho
  unfold drvHostCoreAudioDevicesEnumerate
  simp only [Env.ask, Env.tell_oracle, hok.size, (hok.devices _).1, (hok.devices _).2, ne_eq,
    not_true_eq_false, if_false]
  rw [enumerateFold_ok e.oracle devs cfg hok fIn devs _ rfl (by show 0 < 2 ^ 8; decide), Nat.zero_add]

/-- The number of devices that expose a channel is at most the number of devices. -/
theorem exposedDevices_le (devs : List Nat) (cfg : Nat → Bool → List Nat) (fIn : Bool) :
    exposedDevices devs cfg fIn ≤ devs.length :=
  List.length_filter_le _ _

/-- C17 (amended): for every list of fewer than 256 host devices and for each direction, on a host
that answers every query of the enumeration with success (device list, stream configuration,
memory, and the name of each device, which is fetched and converted before a device is counted),
the count that `drvHostCoreAudioDevicesEnumerate` stores in the backend configuration equals the
number of devices in the list that expose at least one buffer with a channel count greater than
0 in the scope of that direction. -/
theorem enumerate_counts_exposed_devices (o : Nat → Call → Resp) (devs : List Nat)
    (cfg : Nat → Bool → List Nat) (fIn : Bool) (e : Env) (ho : e.oracle = o)
    (hok : EnumOk o devs cfg) (hlen : devs.length < 2 ^ 8) :
    (drvHostCoreAudioDevicesEnumerate e fIn).1 = exposedDevices devs cfg fIn := by
  rw [devicesEnumerate_ok o devs cfg hok fIn e ho]
  exact Nat.mod_eq_of_lt (lt_of_le_of_lt (exposedDevices_le devs cfg fIn) hlen)

/-- The host `oneDeviceOracle` answers every query of the enumeration. -/
theorem oneDeviceOracle_enumOk : EnumOk oneDeviceOracle [512] (fun _ _ => [2]) := by
  refine ⟨fun _ => rfl, fun _ => ⟨rfl, rfl⟩, fun _ _ _ => rfl, fun _ => ?_,
    fun _ _ _ => ⟨rfl, rfl⟩, fun _ _ _ => rfl, fun _ => ?_, fun _ => ?_, fun _ => ?_⟩
  · show (512 : Nat) ≠ 0; decide
  · show (0 : Int) + 1 ≠ 0; decide
  · show (512 : Nat) ≠ 0; decide
  · show (512 : Nat) ≠ 0; decide

/-- Witness for C17: one device with one buffer of 2 channels. -/
theorem enumerate_counts_exposed_devices_witness :
    (drvHostCoreAudioDevicesEnumerate ⟨oneDeviceOracle, []⟩ true).1 = 1
    ∧ (drvHostCoreAudioDevicesEnumerate ⟨oneDeviceOracle, []⟩ false).1
        = exposedDevices [512] (fun _ _ => [2]) false :=
  ⟨enumerate_counts_exposed_devices oneDeviceOracle [512] (fun _ _ => [2]) true ⟨oneDeviceOracle, []⟩ rfl
      oneDeviceOracle_enumOk (by decide),
    enumerate_counts_exposed_devices oneDeviceOracle [512] (fun _ _ => [2]) false ⟨oneDeviceOracle, []⟩ rfl
      oneDeviceOracle_enumOk (by decide)⟩

/-- C17, evaluated where the code departs from it: the host reports one device, which has one
buffer with 2 channels in either scope, but the name of the device cannot be fetched: the count
is 0 for both directions, not 1. -/
theorem enumerate_skips_nameless_device :
    (∀ n, (namelessDeviceOracle n .GetDevices).err = kAudioHardwareNoError
        ∧ (namelessDeviceOracle n .GetDevices).list = [512])
    ∧ (∀ n d f, (namelessDeviceOracle n (.GetStreamConfiguration d f)).err = noErr
        ∧ (namelessDeviceOracle n (.GetStreamConfiguration d f)).list = [2])
    ∧ exposedDevices [512] (fun _ _ => [2]) true = 1
    ∧ exposedDevices [512] (fun _ _ => [2]) false = 1
    ∧ (drvHostCoreAudioDevicesEnumerate ⟨namelessDeviceOracle, []⟩ true).1 = 0
    ∧ (drvHostCoreAudioDevicesEnumerate ⟨namelessDeviceOracle, []⟩ false).1 = 0 :=
  ⟨fun _ => ⟨rfl, rfl⟩, fun _ _ _ => ⟨rfl, rfl⟩, by decide, by decide, by decide, by decide⟩

/-! ## The realtime callbacks: status and end of data -/

/-- The playback callback never returns another status than `noErr`. -/
theorem playbackCallback_noErr (fuel : Nat) (s : COREAUDIOSTREAMOUT) (e : Env)
    (bufData : AudioBufferList) (r : PlaybackRes)
    (h : drvHostCoreAudioPlaybackCallback fuel s e bufData = some r) : r.err = noErr := by
  unfold drvHostCoreAudioPlaybackCallback at h
  dsimp only at h
  split_ifs at h
  · cases h; rfl
  · cases h; rfl
  · split at h
    · simp at h
    · cases h; rfl

/-- A capture transfer leaves the stream its reinitialisation left, or the one it found. -/
theorem captureIn_strm (fuel : Nat) (s : COREAUDIOSTREAMIN) (e : Env)
    (r : XferRes COREAUDIOSTREAMIN) (h : drvHostCoreAudioCaptureIn fuel s e = some r) :
    r.strm = if s.status = CA_STATUS_REINIT then (drvHostCoreAudioReinitInput s e).strm
      else s := by
  unfold drvHostCoreAudioCaptureIn at h
  by_cases h1 : s.status = CA_STATUS_REINIT
  · rw [if_pos h1] at h ⊢
    dsimp only at h
    split_ifs at h <;>
      first
        | (cases h; rfl)
        | (split at h
           · simp at h
           · split_ifs at h <;> (cases h; rfl))
  · rw [if_neg h1] at h ⊢
    dsimp only at h
    split_ifs at h <;>
      first
        | (cases h; rfl)
        | (split at h
           · simp at h
           · split_ifs at h <;> (cases h; rfl))

/-- A playback transfer leaves the stream its reinitialisation left, or the one it found. -/
theorem playOut_strm (fuel : Nat) (s : COREAUDIOSTREAMOUT) (e : Env)
    (r : XferRes COREAUDIOSTREAMOUT) (h : drvHostCoreAudioPlayOut fuel s e = some r) :
    r.strm = if s.status = CA_STATUS_REINIT then (drvHostCoreAudioReinitOutput s e).strm
      else s := by
  unfold drvHostCoreAudioPlayOut at h
  by_cases h1 : s.status = CA_STATUS_REINIT
  · rw [if_pos h1] at h ⊢
    dsimp only at h
    split_ifs at h <;>
      first
        | (cases h; rfl)
        | (split at h
           · simp at h
           · split_ifs at h <;> (cases h; rfl))
  · rw [if_neg h1] at h ⊢
    dsimp only at h
    split_ifs at h <;>
      first
        | (cases h; rfl)
        | (split at h
           · simp at h
           · split_ifs at h <;> (cases h; rfl))

/-- A failed block satisfies the postcondition of the successful one. -/
theorem sizedIn_of_fail (o : Nat → Call → Resp) (props : PDMPCMPROPS)
    (b : InitBody COREAUDIOSTREAMIN) (h : ¬ RT_SUCCESS b.rc) : SizedIn o props b :=
  fun hs => absurd hs h

/-- A failed block satisfies the postcondition of the successful one. -/
theorem sizedOut_of_fail (o : Nat → Call → Resp) (props : PDMPCMPROPS)
    (b : InitBody COREAUDIOSTREAMOUT) (h : ¬ RT_SUCCESS b.rc) : SizedOut o props b :=
  fun hs => absurd hs h

/-- The last part of the input block sizes the ring buffer from the answers of the host. -/
theorem initInputFinish_sized (o : Nat → Call → Resp) (s : COREAUDIOSTREAMIN) (e : Env)
    (cFrames : Nat) (ho : e.oracle = o)
    (hsf : s.streamFormat = drvHostCoreAudioPCMInfoToASBDesc s.Props) :
    SizedIn o s.Props (initInputFinish s e cFrames) := by
  subst ho
  unfold initInputFinish
  dsimp only
  cases hb : s.pBuf <;>
    simp only [Option.isSome_none, Option.isSome_some, Bool.false_eq_true, if_false, if_true] <;>
    split_ifs with h1 h2 h3 h4 h5 h6 <;>
    first
      | exact sizedIn_of_fail _ _ _ (by dsimp only [RT_SUCCESS]; decide)
      | exact sizedIn_of_fail _ _ _ h6
      | (intro _
         refine ⟨rfl, hsf, h5, rfl, ?_⟩
         simp only [Env.ask, Env.tell_oracle, inputSamplesFor, ← hsf]
         exact ⟨_, _, _, _, rfl, rfl⟩)

/-- The format negotiation of the input block. -/
theorem initInputFormat_sized (o : Nat → Call → Resp) (s : COREAUDIOSTREAMIN) (e : Env)
    (cFrames : Nat) (ho : e.oracle = o) :
    SizedIn o s.Props (initInputFormat s e cFrames) := by
  subst ho
  unfold initInputFormat
  dsimp only
  split_ifs <;>
    first
      | exact sizedIn_of_fail _ _ _ (by dsimp only [RT_SUCCESS]; decide)
      | exact initInputFinish_sized e.oracle _ _ _
          (by simp only [Env.tell_oracle, Env.oracle_ite_tell]) rfl

/-- The configuration of the audio unit of the input block. -/
theorem initInputUnit_sized (o : Nat → Call → Resp) (s : COREAUDIOSTREAMIN) (e : Env)
    (cFrames : Nat) (ho : e.oracle = o) :
    SizedIn o s.Props (initInputUnit s e cFrames) := by
  subst ho
  unfold initInputUnit
  dsimp only
  split_ifs <;>
    first
      | exact sizedIn_of_fail _ _ _ (by dsimp only [RT_SUCCESS]; decide)
      | exact initInputFormat_sized e.oracle _ _ _ (by simp only [Env.tell_oracle])

/-- The whole input block. -/
theorem initInputBody_sized (o : Nat → Call → Resp) (s : COREAUDIOSTREAMIN) (e : Env)
    (deviceID : Nat) (ho : e.oracle = o) :
    SizedIn o s.Props (initInputBody s e deviceID) := by
  subst ho
  unfold initInputBody
  dsimp only
  split_ifs <;>
    first
      | exact sizedIn_of_fail _ _ _ (by dsimp only [RT_SUCCESS]; decide)
      | exact initInputUnit_sized e.oracle _ _ _
          (by simp only [Env.tell_oracle, initLogDeviceName_oracle, setFrameBufferSize_oracle])

/-- The last part of the output block sizes the ring buffer from the answers of the host. -/
theorem initOutputFinish_sized (o : Nat → Call → Resp) (s : COREAUDIOSTREAMOUT) (e : Env)
    (cFrames : Nat) (ho : e.oracle = o)
    (hsf : s.streamFormat = drvHostCoreAudioPCMInfoToASBDesc s.Props) :
    SizedOut o s.Props (initOutputFinish s e cFrames) := by
  subst ho
  unfold initOutputFinish
  dsimp only
  cases hb : s.pBuf <;>
    simp only [Option.isSome_none, Option.isSome_some, Bool.false_eq_true, if_false, if_true] <;>
    split_ifs with h1 h2 h3 h4 h5 <;>
    first
      | exact sizedOut_of_fail _ _ _ (by dsimp only [RT_SUCCESS]; decide)
      | exact sizedOut_of_fail _ _ _ h5
      | (intro _
         refine ⟨rfl, hsf, h4, rfl, ?_⟩
         simp only [Env.ask, Env.tell_oracle, hsf]
         exact ⟨_, _, rfl⟩)

/-- The configuration of the audio unit of the output block. -/
theorem initOutputUnit_sized (o : Nat → Call → Resp) (s : COREAUDIOSTREAMOUT) (e : Env)
    (cFrames : Nat) (ho : e.oracle = o) :
    SizedOut o s.Props (initOutputUnit s e cFrames) := by
  subst ho
  unfold initOutputUnit
  dsimp only
  split_ifs <;>
    first
      | exact sizedOut_of_fail _ _ _ (by dsimp only [RT_SUCCESS]; decide)
      | exact initOutputFinish_sized e.oracle _ _ _ (by simp only [Env.tell_oracle]) rfl

/-- The whole output block. -/
theorem initOutputBody_sized (o : Nat → Call → Resp) (s : COREAUDIOSTREAMOUT) (e : Env)
    (deviceID : Nat) (ho : e.oracle = o) :
    SizedOut o s.Props (initOutputBody s e deviceID) := by
  subst ho
  unfold initOutputBody
  dsimp only
  split_ifs <;>
    first
      | exact sizedOut_of_fail _ _ _ (by dsimp only [RT_SUCCESS]; decide)
      | exact initOutputUnit_sized e.oracle _ _ _
          (by simp only [Env.tell_oracle, initLogDeviceName_oracle, setFrameBufferSize_oracle])

/-- The epilogue of the input init turns a sized block into a sized result, or fails and leaves
the stream Uninitialized. -/
theorem initInputEpilogue_cases (o : Nat → Call → Resp) (props : PDMPCMPROPS)
    (b : InitBody COREAUDIOSTREAMIN) (hb : SizedIn o props b) :
    (¬ RT_SUCCESS (initInputEpilogue b).rc
        ∧ (initInputEpilogue b).strm.status = CA_STATUS_UNINIT)
      ∨ (RT_SUCCESS (initInputEpilogue b).rc ∧ SizedResIn o props (initInputEpilogue b)) := by
  unfold initInputEpilogue
  by_cases h : RT_SUCCESS b.rc
  · rw [if_pos h]
    obtain ⟨h1, h2, h3, h4, n, m, au, au2, h5, h6⟩ := hb h
    exact Or.inr ⟨h, rfl, h1, h2, b.cSamples, rfl, h3, h4, n, m, au, au2, h5, h6⟩
  · rw [if_neg h]
    exact Or.inl ⟨h, rfl⟩

/-- The epilogue of the output init turns a sized block into a sized result, or fails and
leaves the stream Uninitialized. -/
theorem initOutputEpilogue_cases (o : Nat → Call → Resp) (props : PDMPCMPROPS)
    (b : InitBody COREAUDIOSTREAMOUT) (hb : SizedOut o props b) :
    (¬ RT_SUCCESS (initOutputEpilogue b).rc
        ∧ (initOutputEpilogue b).strm.status = CA_STATUS_UNINIT)
      ∨ (RT_SUCCESS (initOutputEpilogue b).rc ∧ SizedResOut o props (initOutputEpilogue b)) := by
  unfold initOutputEpilogue
  by_cases h : RT_SUCCESS b.rc
  · rw [if_pos h]
    obtain ⟨h1, h2, h3, h4, n, au, h5⟩ := hb h
    exact Or.inr ⟨h, rfl, h1, h2, b.cSamples, rfl, h3, h4, n, au, h5⟩
  · rw [if_neg h]
    exact Or.inl ⟨h, rfl⟩

/-- `drvHostCoreAudioInitInput` fails and leaves the stream as it was or Uninitialized, or
succeeds with a sized result. -/
theorem initInput_cases (s : COREAUDIOSTREAMIN) (e : Env) :
    (¬ RT_SUCCESS (drvHostCoreAudioInitInput s e).rc
        ∧ ((drvHostCoreAudioInitInput s e).strm = s
          ∨ (drvHostCoreAudioInitInput s e).strm.status = CA_STATUS_UNINIT))
      ∨ (RT_SUCCESS (drvHostCoreAudioInitInput s e).rc
        ∧ SizedResIn e.oracle s.Props (drvHostCoreAudioInitInput s e)) := by
  have key : ∀ (e1 : Env) (d : Nat), e1.oracle = e.oracle →
      (¬ RT_SUCCESS (initInputWithDevice s e1 d).rc
        ∧ ((initInputWithDevice s e1 d).strm = s
          ∨ (initInputWithDevice s e1 d).strm.status = CA_STATUS_UNINIT))
      ∨ (RT_SUCCESS (initInputWithDevice s e1 d).rc
        ∧ SizedResIn e.oracle s.Props (initInputWithDevice s e1 d)) := by
    intro e1 d h1
    unfold initInputWithDevice
    split_ifs
    · exact Or.inl ⟨by dsimp only [RT_SUCCESS]; decide, Or.inl rfl⟩
    · rcases initInputEpilogue_cases e.oracle s.Props _ (initInputBody_sized e.oracle s e1 d h1)
        with h | h
      · exact Or.inl ⟨h.1, Or.inr h.2⟩
      · exact Or.inr h
  unfold drvHostCoreAudioInitInput
  dsimp only
  split_ifs
  · exact Or.inl ⟨by dsimp only [RT_SUCCESS]; decide, Or.inl rfl⟩
  · exact key _ _ (by simp only [Env.tell_oracle])
  · exact key _ _ rfl

/-- `drvHostCoreAudioInitOutput` fails and leaves the stream as it was or Uninitialized, or
succeeds with a sized result. -/
theorem initOutput_cases (s : COREAUDIOSTREAMOUT) (e : Env) :
    (¬ RT_SUCCESS (drvHostCoreAudioInitOutput s e).rc
        ∧ ((drvHostCoreAudioInitOutput s e).strm = s
          ∨ (drvHostCoreAudioInitOutput s e).strm.status = CA_STATUS_UNINIT))
      ∨ (RT_SUCCESS (drvHostCoreAudioInitOutput s e).rc
        ∧ SizedResOut e.oracle s.Props (drvHostCoreAudioInitOutput s e)) := by
  have key : ∀ (e1 : Env) (d : Nat), e1.oracle = e.oracle →
      (¬ RT_SUCCESS (initOutputWithDevice s e1 d).rc
        ∧ ((initOutputWithDevice s e1 d).strm = s
          ∨ (initOutputWithDevice s e1 d).strm.status = CA_STATUS_UNINIT))
      ∨ (RT_SUCCESS (initOutputWithDevice s e1 d).rc
        ∧ SizedResOut e.oracle s.Props (initOutputWithDevice s e1 d)) := by
    intro e1 d h1
    unfold initOutputWithDevice
    split_ifs
    · exact Or.inl ⟨by dsimp only [RT_SUCCESS]; decide, Or.inl rfl⟩
    · rcases initOutputEpilogue_cases e.oracle s.Props _
          (initOutputBody_sized e.oracle s e1 d h1) with h | h
      · exact Or.inl ⟨h.1, Or.inr h.2⟩
      · exact Or.inr h
  unfold drvHostCoreAudioInitOutput
  dsimp only
  split_ifs
  · exact Or.inl ⟨by dsimp only [RT_SUCCESS]; decide, Or.inl rfl⟩
  · exact key _ _ (by simp only [Env.tell_oracle])
  · exact key _ _ rfl

/-- A sample count of the input init that is not zero is the wide count reduced to 32 bits, and
the requested frame size and the sample rate of the device are not zero. -/
theorem inputSamplesFor_ne_zero (props : PDMPCMPROPS) (cFrames : Nat)
    (dev : AudioStreamBasicDescription) (h : inputSamplesFor props cFrames dev ≠ 0) :
    inputSamplesFor props cFrames dev = inputSamplesWide props cFrames dev % 2 ^ 32
    ∧ (drvHostCoreAudioPCMInfoToASBDesc props).mBytesPerFrame ≠ 0
    ∧ dev.mSampleRate ≠ 0 := by
  unfold inputSamplesFor initInputSampleCount at h ⊢
  dsimp only at h ⊢
  split_ifs at h ⊢ with h0
  · exact absurd rfl h
  · have h1 := Nat.mul_ne_zero_iff.mp h0
    exact ⟨rfl, h1.2, h1.1⟩

/-- A requested frame size that is not zero needs channels. -/
theorem bytesPerFrame_ne_zero (props : PDMPCMPROPS)
    (h : (drvHostCoreAudioPCMInfoToASBDesc props).mBytesPerFrame ≠ 0) : props.cChannels ≠ 0 := by
  intro h0
  apply h
  show (props.cChannels * (props.cBits / 8)) % 2 ^ 32 = 0
  rw [h0, Nat.zero_mul]
  rfl

/-- A sized result of the input init has the format facts. -/
theorem sizedResIn_formatOk {o : Nat → Call → Resp} {props : PDMPCMPROPS}
    {r : InitRes COREAUDIOSTREAMIN} (h : SizedResIn o props r) : FormatOkIn r.strm := by
  obtain ⟨_, h2, h3, c, _, h5, _, n, m, au, au2, _, h8⟩ := h
  intro _
  have hb := (inputSamplesFor_ne_zero props _ _ (h8 ▸ h5)).2.1
  rw [h2, h3]
  exact ⟨rfl, bytesPerFrame_ne_zero props hb, hb⟩

/-- A sized result of the output init has the format facts. -/
theorem sizedResOut_formatOk {o : Nat → Call → Resp} {props : PDMPCMPROPS}
    {r : InitRes COREAUDIOSTREAMOUT} (h : SizedResOut o props r) : FormatOkOut r.strm := by
  obtain ⟨_, h2, h3, c, _, h5, _, n, au, h8⟩ := h
  intro _
  rw [h2, h3]
  refine ⟨rfl, ?_⟩
  intro h0
  apply h5
  rw [h8, h0, Nat.mul_zero]
  rfl

/-- `drvHostCoreAudioInitInput` keeps the format facts. -/
theorem initInput_formatOk (s : COREAUDIOSTREAMIN) (e : Env) (h : FormatOkIn s) :
    FormatOkIn (drvHostCoreAudioInitInput s e).strm := by
  rcases initInput_cases s e with ⟨_, h1 | h1⟩ | ⟨_, h1⟩
  · rw [h1]; exact h
  · intro h2; rw [h1] at h2; exact absurd h2 (by decide)
  · exact sizedResIn_formatOk h1

/-- `drvHostCoreAudioInitOutput` keeps the format facts. -/
theorem initOutput_formatOk (s : COREAUDIOSTREAMOUT) (e : Env) (h : FormatOkOut s) :
    FormatOkOut (drvHostCoreAudioInitOutput s e).strm := by
  rcases initOutput_cases s e with ⟨_, h1 | h1⟩ | ⟨_, h1⟩
  · rw [h1]; exact h
  · intro h2; rw [h1] at h2; exact absurd h2 (by decide)
  · exact sizedResOut_formatOk h1

/-- `drvHostCoreAudioFiniIn` keeps the format facts. -/
theorem finiIn_formatOk (s : COREAUDIOSTREAMIN) (e : Env) (h : FormatOkIn s) :
    FormatOkIn (drvHostCoreAudioFiniIn s e).strm := by
  by_cases hg : s.status = CA_STATUS_INIT ∨ s.status = CA_STATUS_REINIT
  · by_cases hc : RT_SUCCESS (drvHostCoreAudioControlIn s e .DISABLE).rc
    · rw [finiIn_ok s e hg hc]
      intro h2
      rw [(finiInTeardown_post s _).1] at h2
      exact absurd h2 (by decide)
    · rw [finiIn_fail s e hg hc]; exact h
  · rw [finiIn_gated s e hg]; exact h

/-- `drvHostCoreAudioFiniOut` keeps the format facts. -/
theorem finiOut_formatOk (s : COREAUDIOSTREAMOUT) (e : Env) (h : FormatOkOut s) :
    FormatOkOut (drvHostCoreAudioFiniOut s e).strm := by
  by_cases hg : s.status = CA_STATUS_INIT ∨ s.status = CA_STATUS_REINIT
  · by_cases hc : RT_SUCCESS (drvHostCoreAudioControlOut s e .DISABLE).rc
    · rw [finiOut_ok s e hg hc]
      intro h2
      rw [(finiOutTeardown_post s _).1] at h2
      exact absurd h2 (by decide)
    · rw [finiOut_fail s e hg hc]; exact h
  · rw [finiOut_gated s e hg]; exact h

/-- The reinitialisation of an input stream keeps the format facts. -/
theorem reinitInput_formatOk (s : COREAUDIOSTREAMIN) (e : Env) (h : FormatOkIn s) :
    FormatOkIn (drvHostCoreAudioReinitInput s e).strm := by
  unfold drvHostCoreAudioReinitInput
  dsimp only
  split_ifs
  · rw [controlIn_strm]
    exact initInput_formatOk _ _ (finiIn_formatOk s e h)
  · exact initInput_formatOk _ _ (finiIn_formatOk s e h)
  · exact finiIn_formatOk s e h

/-- The reinitialisation of an output stream keeps the format facts. -/
theorem reinitOutput_formatOk (s : COREAUDIOSTREAMOUT) (e : Env) (h : FormatOkOut s) :
    FormatOkOut (drvHostCoreAudioReinitOutput s e).strm := by
  unfold drvHostCoreAudioReinitOutput
  dsimp only
  split_ifs
  · rw [controlOut_strm]
    exact initOutput_formatOk _ _ (finiOut_formatOk s e h)
  · exact initOutput_formatOk _ _ (finiOut_formatOk s e h)
  · exact finiOut_formatOk s e h

/-- Opening an input stream gives the format facts. -/
theorem initIn_formatOk (s : COREAUDIOSTREAMIN) (e : Env) (rcCfg : Int) (props : PDMPCMPROPS) :
    FormatOkIn (drvHostCoreAudioInitIn s e rcCfg props).strm := by
  have hfresh : ∀ s0 : COREAUDIOSTREAMIN, s0.status = CA_STATUS_UNINIT → FormatOkIn s0 :=
    fun s0 h0 h1 => absurd (h0 ▸ h1) (by decide)
  have hflag1 : ∀ s0 : COREAUDIOSTREAMIN, FormatOkIn s0 →
      FormatOkIn { s0 with fDefDevChgListReg := true } := fun _ h => h
  have hflag2 : ∀ s0 : COREAUDIOSTREAMIN, FormatOkIn s0 →
      FormatOkIn { s0 with fDevStateChgListReg := true } := fun _ h => h
  unfold drvHostCoreAudioInitIn
  dsimp only
  split_ifs <;>
    first
      | exact hflag2 _ (hflag1 _ (initInput_formatOk _ _ (hfresh _ rfl)))
      | exact hflag2 _ (initInput_formatOk _ _ (hfresh _ rfl))
      | exact hflag1 _ (initInput_formatOk _ _ (hfresh _ rfl))
      | exact initInput_formatOk _ _ (hfresh _ rfl)
      | exact hflag2 _ (hflag1 _ (hfresh _ rfl))
      | exact hflag2 _ (hfresh _ rfl)
      | exact hflag1 _ (hfresh _ rfl)
      | exact hfresh _ rfl

/-- Opening an output stream gives the format facts. -/
theorem initOut_formatOk (s : COREAUDIOSTREAMOUT) (e : Env) (rcCfg : Int) (props : PDMPCMPROPS) :
    FormatOkOut (drvHostCoreAudioInitOut s e rcCfg props).strm := by
  have hfresh : ∀ s0 : COREAUDIOSTREAMOUT, s0.status = CA_STATUS_UNINIT → FormatOkOut s0 :=
    fun s0 h0 h1 => absurd (h0 ▸ h1) (by decide)
  have hflag1 : ∀ s0 : COREAUDIOSTREAMOUT, FormatOkOut s0 →
      FormatOkOut { s0 with fDefDevChgListReg := true } := fun _ h => h
  have hflag2 : ∀ s0 : COREAUDIOSTREAMOUT, FormatOkOut s0 →
      FormatOkOut { s0 with fDevStateChgListReg := true } := fun _ h => h
  unfold drvHostCoreAudioInitOut
  dsimp only
  split_ifs <;>
    first
      | exact hflag2 _ (hflag1 _ (initOutput_formatOk _ _ (hfresh _ rfl)))
      | exact hflag2 _ (initOutput_formatOk _ _ (hfresh _ rfl))
      | exact hflag1 _ (initOutput_formatOk _ _ (hfresh _ rfl))
      | exact initOutput_formatOk _ _ (hfresh _ rfl)
      | exact hflag2 _ (hflag1 _ (hfresh _ rfl))
      | exact hflag2 _ (hfresh _ rfl)
      | exact hflag1 _ (hfresh _ rfl)
      | exact hfresh _ rfl

/-- Every reachable state of an input stream has the format facts. -/
theorem reachIn_formatOk (s : COREAUDIOSTREAMIN) (h : ReachIn s) : FormatOkIn s := by
  induction h with
  | opened s e rcCfg props => exact initIn_formatOk s e rcCfg props
  | inited _ e ih => exact initInput_formatOk _ e ih
  | controlled _ e cmd ih => rw [controlIn_strm]; exact ih
  | transferred _ fuel e r hr ih =>
    rw [captureIn_strm fuel _ e r hr]
    split_ifs
    · exact reinitInput_formatOk _ e ih
    · exact ih
  | finished _ e ih => exact finiIn_formatOk _ e ih
  | watched _ w e ih =>
    rcases (watchIn_frame w _ e).1 with h1 | h1 <;> rw [h1]
    · exact ih
    · intro h2; exact absurd (show (CA_STATUS_REINIT : Nat) = CA_STATUS_INIT from h2) (by decide)

/-- Every reachable state of an output stream has the format facts. -/
theorem reachOut_formatOk (s : COREAUDIOSTREAMOUT) (h : ReachOut s) : FormatOkOut s := by
  induction h with
  | opened s e rcCfg props => exact initOut_formatOk s e rcCfg props
  | inited _ e ih => exact initOutput_formatOk _ e ih
  | controlled _ e cmd ih => rw [controlOut_strm]; exact ih
  | transferred _ fuel e r hr ih =>
    rw [playOut_strm fuel _ e r hr]
    split_ifs
    · exact reinitOutput_formatOk _ e ih
    · exact ih
  | finished _ e ih => exact finiOut_formatOk _ e ih
  | watched _ w e ih =>
    rcases (watchOut_frame w _ e).1 with h1 | h1 <;> rw [h1]
    · exact ih
    · intro h2; exact absurd (show (CA_STATUS_REINIT : Nat) = CA_STATUS_INIT from h2) (by decide)

/-- C22, evaluated where the code departs from it: an input stream opened on a host whose
device reports a format with 0 bytes per frame is Initialized with a device format of 0 bytes
per frame; a stream whose open failed before any format was stored is flagged Reinitializing by
the device-state callback while both of its formats have 0 bytes per frame; and an output stream
opened with a requested sample width of 4 bits is Initialized with a stream format of 0 bytes
per frame. -/
theorem frame_stride_can_be_zero :
    ((drvHostCoreAudioInitIn freshStreamIn ⟨noChannelsOracle, []⟩ VINF_SUCCESS props44100).rc
        = VINF_SUCCESS
      ∧ (drvHostCoreAudioInitIn freshStreamIn ⟨noChannelsOracle, []⟩ VINF_SUCCESS
          props44100).strm.status = CA_STATUS_INIT
      ∧ (drvHostCoreAudioInitIn freshStreamIn ⟨noChannelsOracle, []⟩ VINF_SUCCESS
          props44100).strm.deviceFormat.mBytesPerFrame = 0)
    ∧ (RT_FAILURE (drvHostCoreAudioInitIn freshStreamIn ⟨deadOnOpenOracle, []⟩ VINF_SUCCESS
          props44100).rc
      ∧ (drvHostCoreAudioInitIn freshStreamIn ⟨deadOnOpenOracle, []⟩ VINF_SUCCESS
          props44100).strm.fDevStateChgListReg = true
      ∧ (watchIn .deviceStateChanged
          (drvHostCoreAudioInitIn freshStreamIn ⟨deadOnOpenOracle, []⟩ VINF_SUCCESS
            props44100).strm
          (drvHostCoreAudioInitIn freshStreamIn ⟨deadOnOpenOracle, []⟩ VINF_SUCCESS
            props44100).env).strm.status = CA_STATUS_REINIT
      ∧ (watchIn .deviceStateChanged
          (drvHostCoreAudioInitIn freshStreamIn ⟨deadOnOpenOracle, []⟩ VINF_SUCCESS
            props44100).strm
          (drvHostCoreAudioInitIn freshStreamIn ⟨deadOnOpenOracle, []⟩ VINF_SUCCESS
            props44100).env).strm.streamFormat.mBytesPerFrame = 0
      ∧ (watchIn .deviceStateChanged
          (drvHostCoreAudioInitIn freshStreamIn ⟨deadOnOpenOracle, []⟩ VINF_SUCCESS
            props44100).strm
          (drvHostCoreAudioInitIn freshStreamIn ⟨deadOnOpenOracle, []⟩ VINF_SUCCESS
            props44100).env).strm.deviceFormat.mBytesPerFrame = 0)
    ∧ ((drvHostCoreAudioInitOut freshStreamOut ⟨okOracle, []⟩ VINF_SUCCESS
          { props44100 with cBits := 4 }).rc = VINF_SUCCESS
      ∧ (drvHostCoreAudioInitOut freshStreamOut ⟨okOracle, []⟩ VINF_SUCCESS
          { props44100 with cBits := 4 }).strm.status = CA_STATUS_INIT
      ∧ (drvHostCoreAudioInitOut freshStreamOut ⟨okOracle, []⟩ VINF_SUCCESS
          { props44100 with cBits := 4 }).strm.streamFormat.mBytesPerFrame = 0) := by
  refine ⟨⟨by decide, by decide, by decide⟩, ⟨by decide, by decide, by decide, by decide,
    by decide⟩, ⟨by decide, by decide, by decide⟩⟩

/-- C22 (amended): in every state reachable through open, init, control, transfer, fini and the
watcher callbacks, whenever the status of the stream is Initialized, its requested stream format
is the one derived from the requested properties and the properties have channels; for an input
stream the bytes per frame of the stream format are non-zero, and for an output stream they are
non-zero when the requested sample has at least 8 bits and the frame size fits in 32 bits. -/
theorem frame_stride_nonzero_when_initialized (sIn : COREAUDIOSTREAMIN)
    (sOut : COREAUDIOSTREAMOUT) (hIn : ReachIn sIn) (hOut : ReachOut sOut) :
    (sIn.status = CA_STATUS_INIT →
      sIn.streamFormat = drvHostCoreAudioPCMInfoToASBDesc sIn.Props
      ∧ sIn.Props.cChannels ≠ 0
      ∧ sIn.streamFormat.mBytesPerFrame ≠ 0)
    ∧ (sOut.status = CA_STATUS_INIT →
      sOut.streamFormat = drvHostCoreAudioPCMInfoToASBDesc sOut.Props
      ∧ sOut.Props.cChannels ≠ 0
      ∧ (8 ≤ sOut.Props.cBits → sOut.Props.cChannels * (sOut.Props.cBits / 8) < 2 ^ 32 →
          sOut.streamFormat.mBytesPerFrame ≠ 0)) := by
  refine ⟨reachIn_formatOk sIn hIn, fun hs => ?_⟩
  obtain ⟨h1, h2⟩ := reachOut_formatOk sOut hOut hs
  refine ⟨h1, h2, fun h8 hlt => ?_⟩
  rw [h1]
  show (sOut.Props.cChannels * (sOut.Props.cBits / 8)) % 2 ^ 32 ≠ 0
  rw [Nat.mod_eq_of_lt hlt]
  have h3 : 1 ≤ sOut.Props.cBits / 8 := (Nat.le_div_iff_mul_le (by decide)).mpr (by omega)
  exact Nat.mul_ne_zero h2 (by omega)

/-- Witness for C22: the streams opened for 44100 Hz, 2 channels, 16 bit on a host on which
every call succeeds are reachable, Initialized, and have 4 bytes per frame. -/
theorem frame_stride_nonzero_when_initialized_witness :
    (drvHostCoreAudioInitIn freshStreamIn ⟨okOracle, []⟩ VINF_SUCCESS props44100).strm.status
        = CA_STATUS_INIT
    ∧ (drvHostCoreAudioInitIn freshStreamIn ⟨okOracle, []⟩ VINF_SUCCESS
        props44100).strm.streamFormat.mBytesPerFrame ≠ 0
    ∧ (drvHostCoreAudioInitOut freshStreamOut ⟨okOracle, []⟩ VINF_SUCCESS
        props44100).strm.streamFormat.mBytesPerFrame ≠ 0 :=
  ⟨by decide,
    ((frame_stride_nonzero_when_initialized _ _
      (ReachIn.opened freshStreamIn ⟨okOracle, []⟩ VINF_SUCCESS props44100)
      (ReachOut.opened freshStreamOut ⟨okOracle, []⟩ VINF_SUCCESS props44100)).1
        (by decide)).2.2,
    ((frame_stride_nonzero_when_initialized _ _
      (ReachIn.opened freshStreamIn ⟨okOracle, []⟩ VINF_SUCCESS props44100)
      (ReachOut.opened freshStreamOut ⟨okOracle, []⟩ VINF_SUCCESS props44100)).2
        (by decide)).2.2 (by decide) (by decide)⟩

/-- C24, evaluated where the code departs from it: `control(Enable)` on an Initialized input
stream that has a converter and whose device is not running resets the ring buffer and starts
the unit; it makes no call on the converter. -/
theorem enable_does_not_reset_converter :
    ({ activeStreamIn with pConverter := some 7 } : COREAUDIOSTREAMIN).status = CA_STATUS_INIT
    ∧ (drvHostCoreAudioIsRunning ⟨startingOracle, []⟩ activeStreamIn.deviceID).1 = false
    ∧ (drvHostCoreAudioControlIn { activeStreamIn with pConverter := some 7 }
        ⟨startingOracle, []⟩ .ENABLE).rc = VINF_SUCCESS
    ∧ (drvHostCoreAudioControlIn { activeStreamIn with pConverter := some 7 }
        ⟨startingOracle, []⟩ .ENABLE).env.log.map (fun x => x.1)
      = [.GetDeviceIsRunning 512, .RTCircBufReset (some ⟨4096⟩), .AudioOutputUnitStart (some 512)]
    ∧ (.AudioConverterReset (some 7) : Call) ∉
        (drvHostCoreAudioControlIn { activeStreamIn with pConverter := some 7 }
          ⟨startingOracle, []⟩ .ENABLE).env.log.map (fun x => x.1) := by
  refine ⟨by decide, by decide, by decide, by decide, by decide⟩

/-- C24 (amended): for every `control(Enable)` or `control(Resume)` on a stream with status
Initialized or Reinitializing, in both directions: when the device is reported as not running,
the calls made are, in this order, the running query, for output the reset of the audio unit,
the reset of the ring buffer and the native start call, and nothing else (no call on a
converter); when the device is reported as running the running query is the only call, so no
native start call is issued. -/
theorem enable_resets_ring_buffer_before_start (sIn : COREAUDIOSTREAMIN)
    (sOut : COREAUDIOSTREAMOUT) (eIn eOut : Env) (cmd : PDMAUDIOSTREAMCMD)
    (hcmd : cmd = .ENABLE ∨ cmd = .RESUME)
    (hsIn : sIn.status = CA_STATUS_INIT ∨ sIn.status = CA_STATUS_REINIT)
    (hsOut : sOut.status = CA_STATUS_INIT ∨ sOut.status = CA_STATUS_REINIT) :
    ((drvHostCoreAudioIsRunning eIn sIn.deviceID).1 = false →
        (eIn.since (drvHostCoreAudioControlIn sIn eIn cmd).env).map (fun x => x.1)
          = [.GetDeviceIsRunning sIn.deviceID, .RTCircBufReset sIn.pBuf,
             .AudioOutputUnitStart sIn.audioUnit])
    ∧ ((drvHostCoreAudioIsRunning eIn sIn.deviceID).1 = true →
        (eIn.since (drvHostCoreAudioControlIn sIn eIn cmd).env).map (fun x => x.1)
          = [.GetDeviceIsRunning sIn.deviceID])
    ∧ ((drvHostCoreAudioIsRunning eOut sOut.deviceID).1 = false →
        (eOut.since (drvHostCoreAudioControlOut sOut eOut cmd).env).map (fun x => x.1)
          = [.GetDeviceIsRunning sOut.deviceID, .AudioUnitReset sOut.audioUnit,
             .RTCircBufReset sOut.pBuf, .AudioOutputUnitStart sOut.audioUnit])
    ∧ ((drvHostCoreAudioIsRunning eOut sOut.deviceID).1 = true →
        (eOut.since (drvHostCoreAudioControlOut sOut eOut cmd).env).map (fun x => x.1)
          = [.GetDeviceIsRunning sOut.deviceID]) := by
  refine ⟨fun h => ?_, fun h => ?_, fun h => ?_, fun h => ?_⟩
  · unfold drvHostCoreAudioControlIn
    rw [if_neg (not_not.mpr hsIn)]
    rcases hcmd with hc | hc <;> subst hc <;> dsimp only <;> rw [if_pos h] <;>
      split_ifs <;>
      (rw [Env.since_of_log _ _ _ (by
        simp only [drvHostCoreAudioIsRunning, Env.tell_log, List.append_assoc]; rfl)]; rfl)
  · unfold drvHostCoreAudioControlIn
    rw [if_neg (not_not.mpr hsIn)]
    rcases hcmd with hc | hc <;> subst hc <;> dsimp only <;>
      rw [if_neg (by rw [h]; decide)] <;>
      (rw [Env.since_of_log _ _ _ (by
        simp only [drvHostCoreAudioIsRunning, Env.tell_log]; rfl)]; rfl)
  · unfold drvHostCoreAudioControlOut
    rw [if_neg (not_not.mpr hsOut)]
    rcases hcmd with hc | hc <;> subst hc <;> dsimp only <;> rw [if_pos h] <;>
      split_ifs <;>
      (rw [Env.since_of_log _ _ _ (by
        simp only [drvHostCoreAudioIsRunning, Env.tell_log, List.append_assoc]; rfl)]; rfl)
  · unfold drvHostCoreAudioControlOut
    rw [if_neg (not_not.mpr hsOut)]
    rcases hcmd with hc | hc <;> subst hc <;> dsimp only <;>
      rw [if_neg (by rw [h]; decide)] <;>
      (rw [Env.since_of_log _ _ _ (by
        simp only [drvHostCoreAudioIsRunning, Env.tell_log]; rfl)]; rfl)

/-- Witness for C24: an Initialized stream whose device is not running when first asked. -/
theorem enable_resets_ring_buffer_before_start_witness :
    (drvHostCoreAudioIsRunning ⟨startingOracle, []⟩ activeStreamIn.deviceID).1 = false
    ∧ ((⟨startingOracle, []⟩ : Env).since
        (drvHostCoreAudioControlIn activeStreamIn ⟨startingOracle, []⟩ .ENABLE).env).map
          (fun x => x.1)
      = [.GetDeviceIsRunning activeStreamIn.deviceID, .RTCircBufReset activeStreamIn.pBuf,
         .AudioOutputUnitStart activeStreamIn.audioUnit] :=
  ⟨by decide,
    (enable_resets_ring_buffer_before_start activeStreamIn activeStreamOut
      ⟨startingOracle, []⟩ ⟨startingOracle, []⟩ .ENABLE (Or.inl rfl) (by decide)
      (by decide)).1 (by decide)⟩

/-- C27, evaluated where the code departs from it: a stream is opened with both watcher
listeners registered; the device-state callback flags it Reinitializing; the next transfer
reinitialises it with success, and on return both flags are false and no device-state listener
is registered for the stream any more, in both directions. -/
theorem reinit_leaves_stream_unwatched :
    (watchedOpenIn.rc = VINF_SUCCESS ∧ watchedOpenIn.strm.status = CA_STATUS_INIT
      ∧ watchedOpenIn.strm.fDefDevChgListReg = true
      ∧ watchedOpenIn.strm.fDevStateChgListReg = true
      ∧ (watchIn .deviceStateChanged watchedOpenIn.strm watchedOpenIn.env).strm.status
          = CA_STATUS_REINIT
      ∧ (drvHostCoreAudioCaptureIn (2 ^ 64)
            (watchIn .deviceStateChanged watchedOpenIn.strm watchedOpenIn.env).strm
            (watchIn .deviceStateChanged watchedOpenIn.strm watchedOpenIn.env).env).map
          (fun r => (r.rc, r.strm.status, r.strm.fDefDevChgListReg, r.strm.fDevStateChgListReg,
            (registeredListeners r.env.log).filter (fun l => l.selector = .DeviceIsAlive)))
          = some (VINF_SUCCESS, CA_STATUS_INIT, false, false, []))
    ∧ (watchedOpenOut.rc = VINF_SUCCESS ∧ watchedOpenOut.strm.status = CA_STATUS_INIT
      ∧ watchedOpenOut.strm.fDefDevChgListReg = true
      ∧ watchedOpenOut.strm.fDevStateChgListReg = true
      ∧ (watchOut .deviceStateChanged watchedOpenOut.strm watchedOpenOut.env).strm.status
          = CA_STATUS_REINIT
      ∧ (drvHostCoreAudioPlayOut (2 ^ 64)
            (watchOut .deviceStateChanged watchedOpenOut.strm watchedOpenOut.env).strm
            (watchOut .deviceStateChanged watchedOpenOut.strm watchedOpenOut.env).env).map
          (fun r => (r.rc, r.strm.status, r.strm.fDefDevChgListReg, r.strm.fDevStateChgListReg,
            (registeredListeners r.env.log).filter (fun l => l.selector = .DeviceIsAlive)))
          = some (VINF_SUCCESS, CA_STATUS_INIT, false, false, [])) := by
  refine ⟨⟨by decide, by decide, by decide, by decide, by decide, by decide⟩,
    ⟨by decide, by decide, by decide, by decide, by decide, by decide⟩⟩

/-- One pull: the fields other than the read offset stay, the offset grows by the size handed
out and stays inside the staging buffer. -/
theorem converterCallback_step (s : COREAUDIOSTREAMIN) (cPackets : Nat) (bufData : AudioBufferList)
    (hsz : s.bufferList.mDataByteSize < 2 ^ 32)
    (hoff : s.offBufferRead ≤ s.bufferList.mDataByteSize) :
    (drvHostCoreAudioConverterCallback s cPackets bufData).strm.bufferList = s.bufferList
    ∧ s.offBufferRead ≤ (drvHostCoreAudioConverterCallback s cPackets bufData).strm.offBufferRead
    ∧ (drvHostCoreAudioConverterCallback s cPackets bufData).strm.offBufferRead
        ≤ s.bufferList.mDataByteSize
    ∧ ((s.status ≠ CA_STATUS_INIT
          ∧ (drvHostCoreAudioConverterCallback s cPackets bufData).bufData = bufData
          ∧ (drvHostCoreAudioConverterCallback s cPackets bufData).strm = s)
        ∨ ((drvHostCoreAudioConverterCallback s cPackets bufData).strm.offBufferRead
              = s.offBufferRead
                + (drvHostCoreAudioConverterCallback s cPackets bufData).bufData.mDataByteSize
          ∧ ((drvHostCoreAudioConverterCallback s cPackets bufData).bufData.mDataByteSize ≠ 0 →
              (drvHostCoreAudioConverterCallback s cPackets bufData).bufData.mData
                = s.bufferList.mData.map (fun p => p + s.offBufferRead)))) := by
  unfold drvHostCoreAudioConverterCallback
  dsimp only
  split_ifs with h1 h2
  · exact ⟨rfl, le_refl _, hoff, Or.inl ⟨h1, rfl, rfl⟩⟩
  · exact ⟨rfl, le_refl _, hoff, Or.inr ⟨rfl, fun h => absurd rfl h⟩⟩
  · have h3 : (s.bufferList.mDataByteSize + 2 ^ 32 - s.offBufferRead) % 2 ^ 32
        = s.bufferList.mDataByteSize - s.offBufferRead := by
      norm_num at hsz ⊢
      omega
    rw [h3]
    have h4 : (s.offBufferRead + min ((cPackets * s.deviceFormat.mBytesPerPacket) % 2 ^ 32)
        (s.bufferList.mDataByteSize - s.offBufferRead)) % 2 ^ 32
        = s.offBufferRead + min ((cPackets * s.deviceFormat.mBytesPerPacket) % 2 ^ 32)
        (s.bufferList.mDataByteSize - s.offBufferRead) := by
      apply Nat.mod_eq_of_lt
      have := Nat.min_le_right ((cPackets * s.deviceFormat.mBytesPerPacket) % 2 ^ 32)
        (s.bufferList.mDataByteSize - s.offBufferRead)
      omega
    rw [h4]
    refine ⟨rfl, Nat.le_add_right _ _, ?_, Or.inr ⟨rfl, fun _ => rfl⟩⟩
    have h5 := Nat.min_le_right ((cPackets * s.deviceFormat.mBytesPerPacket) % 2 ^ 32)
      (s.bufferList.mDataByteSize - s.offBufferRead)
    show s.offBufferRead + min ((cPackets * s.deviceFormat.mBytesPerPacket) % 2 ^ 32)
      (s.bufferList.mDataByteSize - s.offBufferRead) ≤ s.bufferList.mDataByteSize
    clear h2 h3 h4
    omega

/-- With a buffer of the converter that is empty on entry, every pull advances the read offset
by exactly the byte size it hands out. -/
theorem converterCallback_advance (s : COREAUDIOSTREAMIN) (cPackets : Nat)
    (hsz : s.bufferList.mDataByteSize < 2 ^ 32)
    (hoff : s.offBufferRead ≤ s.bufferList.mDataByteSize) :
    (drvHostCoreAudioConverterCallback s cPackets default).strm.offBufferRead
      = s.offBufferRead
        + (drvHostCoreAudioConverterCallback s cPackets default).bufData.mDataByteSize := by
  obtain ⟨-, -, -, h | h⟩ := converterCallback_step s cPackets default hsz hoff
  · rw [h.2.1, h.2.2]; rfl
  · exact h.1

/-- Over a sequence of pulls the regions follow each other without gap, each lies before all
later ones and inside the staging buffer, and the offset ends inside the staging buffer. -/
theorem pullRegions_chain (requests : List Nat) :
    ∀ s : COREAUDIOSTREAMIN, s.bufferList.mDataByteSize < 2 ^ 32 →
      s.offBufferRead ≤ s.bufferList.mDataByteSize →
      (converterPulls s requests).offBufferRead ≤ s.bufferList.mDataByteSize
      ∧ List.Chain (fun a b => a.1 + a.2 = b.1) (0, s.offBufferRead) (pullRegions s requests)
      ∧ (∀ a ∈ pullRegions s requests,
          s.offBufferRead ≤ a.1 ∧ a.1 + a.2 ≤ s.bufferList.mDataByteSize)
      ∧ List.Pairwise (fun a b => a.1 + a.2 ≤ b.1) (pullRegions s requests) := by
  induction requests with
  | nil =>
    intro s _ hoff
    exact ⟨hoff, List.Chain.nil, fun a ha => absurd ha (List.not_mem_nil a), List.Pairwise.nil⟩
  | cons x xs ih =>
    intro s hsz hoff
    obtain ⟨hb, hle, hin, _⟩ := converterCallback_step s x default hsz hoff
    have hadv := converterCallback_advance s x hsz hoff
    have hsz1 : (drvHostCoreAudioConverterCallback s x default).strm.bufferList.mDataByteSize
        < 2 ^ 32 := by rw [hb]; exact hsz
    have hoff1 : (drvHostCoreAudioConverterCallback s x default).strm.offBufferRead
        ≤ (drvHostCoreAudioConverterCallback s x default).strm.bufferList.mDataByteSize := by
      rw [hb]; exact hin
    obtain ⟨i1, i2, i3, i4⟩ := ih (drvHostCoreAudioConverterCallback s x default).strm hsz1 hoff1
    rw [hb] at i1 i3
    refine ⟨i1, ?_, ?_, ?_⟩
    · show List.Chain _ _ (_ :: pullRegions _ xs)
      refine List.Chain.cons (by simp) ?_
      cases hx : pullRegions (drvHostCoreAudioConverterCallback s x default).strm xs with
      | nil => exact List.Chain.nil
      | cons y ys =>
        rw [hx] at i2
        cases i2 with
        | cons hy hys =>
          refine List.Chain.cons ?_ hys
          show s.offBufferRead + _ = y.1
          rw [← hadv]
          simpa using hy
    · intro a ha
      change a ∈ _ :: pullRegions _ xs at ha
      rcases List.mem_cons.mp ha with h | h
      · subst h
        exact ⟨le_refl _, by show s.offBufferRead + _ ≤ _; rw [← hadv]; exact hin⟩
      · exact ⟨le_trans hle (i3 a h).1, (i3 a h).2⟩
    · show List.Pairwise _ (_ :: pullRegions _ xs)
      refine List.Pairwise.cons ?_ i4
      intro a ha
      show s.offBufferRead + _ ≤ a.1
      rw [← hadv]
      exact (i3 a ha).1

/-- C28: for every call of `drvHostCoreAudioConverterCallback` with non-zero bytes per packet
on a stream whose read offset is at most the byte size of the staging buffer (a `UInt32`), the
offset is at most that size after the call as well and does not decrease; unless the status gate
makes the call return without touching anything, the size it hands out is the distance from the
old to the new offset and the pointer it hands out is the staging buffer at the old offset, so
the region is [old offset, new offset), inside the staging buffer.  Over any sequence of calls
the regions (offset on entry, size handed out) follow each other without gap, the first one
starting at the offset on entry (the chain is anchored at the pair (0, offset on entry)), every
region ends before any later one starts, and every region lies inside the staging buffer. -/
theorem converter_pull_offset_in_bounds (s : COREAUDIOSTREAMIN) (cPackets : Nat)
    (bufData : AudioBufferList) (requests : List Nat)
    (_hbpp : s.deviceFormat.mBytesPerPacket ≠ 0)
    (hsz : s.bufferList.mDataByteSize < 2 ^ 32)
    (hoff : s.offBufferRead ≤ s.bufferList.mDataByteSize) :
    (s.offBufferRead ≤ (drvHostCoreAudioConverterCallback s cPackets bufData).strm.offBufferRead
      ∧ (drvHostCoreAudioConverterCallback s cPackets bufData).strm.offBufferRead
          ≤ s.bufferList.mDataByteSize
      ∧ (drvHostCoreAudioConverterCallback s cPackets bufData).strm.bufferList = s.bufferList
      ∧ ((s.status ≠ CA_STATUS_INIT
            ∧ (drvHostCoreAudioConverterCallback s cPackets bufData).bufData = bufData
            ∧ (drvHostCoreAudioConverterCallback s cPackets bufData).strm = s)
          ∨ ((drvHostCoreAudioConverterCallback s cPackets bufData).strm.offBufferRead
                = s.offBufferRead
                  + (drvHostCoreAudioConverterCallback s cPackets bufData).bufData.mDataByteSize
            ∧ ((drvHostCoreAudioConverterCallback s cPackets bufData).bufData.mDataByteSize ≠ 0 →
                (drvHostCoreAudioConverterCallback s cPackets bufData).bufData.mData
                  = s.bufferList.mData.map (fun p => p + s.offBufferRead)))))
    ∧ (converterPulls s requests).offBufferRead ≤ s.bufferList.mDataByteSize
    ∧ List.Chain (fun a b => a.1 + a.2 = b.1) (0, s.offBufferRead) (pullRegions s requests)
    ∧ List.Pairwise (fun a b => a.1 + a.2 ≤ b.1) (pullRegions s requests)
    ∧ (∀ a ∈ pullRegions s requests,
        s.offBufferRead ≤ a.1 ∧ a.1 + a.2 ≤ s.bufferList.mDataByteSize) := by
  obtain ⟨h1, h2, h3, h4⟩ := converterCallback_step s cPackets bufData hsz hoff
  obtain ⟨i1, i2, i3, i4⟩ := pullRegions_chain requests s hsz hoff
  exact ⟨⟨h2, h3, h1, h4⟩, i1, i2, i4, i3⟩

/-- Witness for C28: a stream with 16 bytes staged and packets of 4 bytes, pulled three times. -/
theorem converter_pull_offset_in_bounds_witness :
    pullRegions { activeStreamIn with
        bufferList := { activeStreamIn.bufferList with mDataByteSize := 16, mData := some 1000 } }
      [2, 1, 5] = [(0, 8), (8, 4), (12, 4)]
    ∧ List.Pairwise (fun a b => a.1 + a.2 ≤ b.1)
        (pullRegions { activeStreamIn with
          bufferList := { activeStreamIn.bufferList with mDataByteSize := 16, mData := some 1000 } }
          [2, 1, 5]) :=
  ⟨by decide,
    (converter_pull_offset_in_bounds { activeStreamIn with
        bufferList := { activeStreamIn.bufferList with mDataByteSize := 16, mData := some 1000 } }
      2 default [2, 1, 5] (by decide) (by decide) (by decide)).2.2.2.1⟩

/-- C29, evaluated where the code departs from it: a capture transfer on an Initialized stream
whose ring buffer holds 8 bytes while the mixer buffer accepts 0 samples returns with success
and 0 samples, has released 8 bytes from the ring buffer and has written 0 bytes to the mixer;
the playback transfer releases 0 bytes in the same situation. -/
theorem captureIn_drops_unwritten_bytes :
    activeStreamIn.status = CA_STATUS_INIT
    ∧ (drvHostCoreAudioCaptureIn (2 ^ 64) activeStreamIn ⟨stalledMixerOracle, []⟩).map
        (fun r => (r.rc, r.cSamples, r.env.log.map (fun ev => (ev.1, ev.2.val)),
          releasedReadBytes r.env.log, mixerAcceptedBytes activeStreamIn.MixBuf r.env.log))
      = some (VINF_SUCCESS, some 0,
          [(.AudioMixBufSizeBytes, 8), (.RTCircBufUsed (some ⟨4096⟩), 8),
           (.RTCircBufAcquireReadBlock (some ⟨4096⟩) 8, 8), (.AudioMixBufWriteCirc 8, 0),
           (.RTCircBufReleaseReadBlock (some ⟨4096⟩) 8, 512)], 8, 0)
    ∧ (playOutLoop activeStreamOut (2 ^ 64) 8 0 VINF_SUCCESS ⟨stalledMixerOracle, []⟩).map
        (fun l => l.env.log.map (fun ev => (ev.1, ev.2.val)))
      = some [(.RTCircBufAcquireWriteBlock (some ⟨4096⟩) 8, 8), (.AudioMixBufReadCirc 8, 0),
          (.RTCircBufReleaseWriteBlock (some ⟨4096⟩) 0, 512)] := by
  refine ⟨by decide, by decide, by decide⟩

/-- C30, evaluated where the code departs from it: the capture callback of an Initialized
stream with a converter acquires a region of the ring buffer, is granted 16 bytes, the converter
fails, and the callback returns the failure without any release of the region: the trace is not
paired.  When the converter reports the end of the data the trace of the same callback is
paired, and so are the traces of the capture callback without converter and of the playback
callback. -/
theorem recordingCallback_leaves_block_acquired :
    ({ activeStreamIn with pConverter := some 7 } : COREAUDIOSTREAMIN).status = CA_STATUS_INIT
    ∧ (drvHostCoreAudioRecordingCallback (2 ^ 64) { activeStreamIn with pConverter := some 7 }
          ⟨converterFailOracle, []⟩ 4).map
        (fun r => (r.rc, r.env.log.map (fun ev => (ev.1, ev.2.val)), ringPaired r.env.log))
      = some (-50,
          [(.RTMemAlloc, 512), (.AudioUnitRender (some 512) 4, 16),
           (.RTCircBufFree (some ⟨4096⟩), 512),
           (.RTCircBufAcquireWriteBlock (some ⟨4096⟩) 16, 16),
           (.AudioConverterReset (some 7), 512),
           (.AudioConverterFillComplexBuffer (some 7) 4, 0)], false)
    ∧ (drvHostCoreAudioRecordingCallback (2 ^ 64) { activeStreamIn with pConverter := some 7 }
          ⟨endOfDataOracle, []⟩ 4).map (fun r => (r.rc, ringPaired r.env.log))
      = some (caConverterEOFDErr, true)
    ∧ (drvHostCoreAudioRecordingCallback (2 ^ 64) activeStreamIn ⟨renderOkOracle, []⟩ 4).map
        (fun r => (r.rc, ringPaired r.env.log)) = some (noErr, true)
    ∧ (drvHostCoreAudioPlaybackCallback (2 ^ 64) activeStreamOut ⟨renderOkOracle, []⟩
          { mNumberBuffers := 1, mNumberChannels := 2, mDataByteSize := 16, mData := some 1000 }).map
        (fun r => (r.err, ringPaired r.env.log)) = some (noErr, true) := by
  refine ⟨by decide, by decide, by decide, by decide, by decide⟩

end CoreAudio
